import Mathlib

/-!
# libdxf: polyline and table codecs

A shallow embedding of `src/polyline.c`, `src/table.c` and `src/table.h`.

Conventions of the embedding.

* C `int` values are `Int`; `double` values are the rationals they denote
  (the code only stores them, prints them and compares them with `0.0` and `1.0`).
* A scalar `char *` field holds the string it points to; a null string pointer of a
  zero-filled record is written `""`.  Elements of the pointer arrays that the code
  itself tests against `NULL` are `Option String`.
* A pointer to a record is `Ptr`: `none` is `NULL`, `some a` is the address `a` of a
  block in a `Heap`.  The vertex chain a polyline owns is the list of its nodes.
* An input stream is the list of characters not yet read, and each `fscanf` call is one
  of the functions `scan_line`, `scan_s`, `scan_d`, `scan_hd`, `scan_x`, `scan_lf`.
  An output stream is the list of tags printed so far, one tag per `fprintf` call;
  `Tag.render` gives the text of a tag.
* A loop that the code does not bound runs on a step budget (`fuel`); a run that
  is cut off by the budget ends in `Fault.outOfFuel`.
* The macros of `global.h` (not part of the sources) are the fields of `Globals`.
-/

namespace Libdxf

/-! ## Collaborators: stdlib, global.h -/

/-- `EXIT_SUCCESS` of `stdlib.h`. -/
def EXIT_SUCCESS : Int := 0

/-- `EXIT_FAILURE` of `stdlib.h`. -/
def EXIT_FAILURE : Int := 1

/-- The macros of `global.h` that `polyline.c` and `table.c` use.  The header is not
part of the sources, so their values are parameters of every definition below. -/
structure Globals where
  AutoCAD_11 : Int
  AutoCAD_12 : Int
  AutoCAD_13 : Int
  AutoCAD_14 : Int
  DXF_DEFAULT_LINETYPE : String
  DXF_DEFAULT_LAYER : String
  DXF_DEFAULT_TEXTSTYLE : String
  DXF_DEFAULT_LINETYPE_SCALE : Rat
  DXF_DEFAULT_VISIBILITY : Int
  DXF_COLOR_BYLAYER : Int
  DXF_MODELSPACE : Int
  DXF_PAPERSPACE : Int
  DXF_FLATLAND : Int
  DXF_MAX_PARAM : Nat
  deriving DecidableEq

/-- Sample values for the macros, used to evaluate the definitions on concrete inputs:
`table.h` names `BYLAYER`, layer `"0"` and `DXF_MODELSPACE (0)`; the version macros get
increasing numbers and the arrays four elements.  A theorem depends on these values
only where its statement names `stdGlobals`. -/
def stdGlobals : Globals where
  AutoCAD_11 := 11
  AutoCAD_12 := 12
  AutoCAD_13 := 13
  AutoCAD_14 := 14
  DXF_DEFAULT_LINETYPE := "BYLAYER"
  DXF_DEFAULT_LAYER := "0"
  DXF_DEFAULT_TEXTSTYLE := "STANDARD"
  DXF_DEFAULT_LINETYPE_SCALE := 1
  DXF_DEFAULT_VISIBILITY := 0
  DXF_COLOR_BYLAYER := 256
  DXF_MODELSPACE := 0
  DXF_PAPERSPACE := 1
  DXF_FLATLAND := 0
  DXF_MAX_PARAM := 4

/-! ## Memory -/

/-- A pointer to a record: `none` is `NULL`. -/
abbrev Ptr := Option Nat

/-- The allocated blocks of one record type, each with its address.  A record's owned
strings live and die with its block. -/
abbrev Heap (α : Type) := List (Nat × α)

/-- The block at address `a`, if it is allocated. -/
def Heap.deref {α : Type} (h : Heap α) (a : Nat) : Option α :=
  match h with
  | [] => none
  | (b, x) :: rest => if b = a then some x else Heap.deref rest a

/-- Effect of `free` on the block at address `a` (and on the strings it owns). -/
def Heap.release {α : Type} (h : Heap α) (a : Nat) : Heap α :=
  match h with
  | [] => []
  | (b, x) :: rest => if b = a then Heap.release rest a else (b, x) :: Heap.release rest a

/-- Ways a run of the embedded code can fail to produce a result. -/
inductive Fault where
  /-- dereference of a null or dangling pointer, or an array access out of bounds -/
  | undefinedBehaviour
  /-- the loop was still running when the step budget ran out -/
  | outOfFuel
  deriving DecidableEq

/-! ## Records -/

/-- The point a polyline's `p0` refers to (`point.h` is not part of the sources; only
the three coordinates are used). -/
structure DxfPoint where
  x0 : Rat
  y0 : Rat
  z0 : Rat
  deriving DecidableEq

/-- `DxfPolyline`, with the members `polyline.c` uses (`polyline.h` is not part of the
sources).  `V` is the type of a vertex (`vertex.h` is not part of the sources);
`vertices` is the owned vertex chain, the nodes reached from `polyline->vertices` by
following `next` up to the null successor, head first. -/
structure DxfPolyline (V : Type) where
  id_code : Int
  linetype : String
  layer : String
  elevation : Rat
  thickness : Rat
  linetype_scale : Rat
  visibility : Int
  color : Int
  paperspace : Int
  graphics_data_size : Int
  shadow_mode : Int
  dictionary_owner_soft : String
  material : String
  dictionary_owner_hard : String
  lineweight : Int
  plot_style_name : String
  color_value : Int
  color_name : String
  transparency : Int
  p0 : Option DxfPoint
  x0 : Rat
  y0 : Rat
  z0 : Rat
  start_width : Rat
  end_width : Rat
  vertices_follow : Int
  flag : Int
  polygon_mesh_M_vertex_count : Int
  polygon_mesh_N_vertex_count : Int
  smooth_M_surface_density : Int
  smooth_N_surface_density : Int
  surface_type : Int
  extr_x0 : Rat
  extr_y0 : Rat
  extr_z0 : Rat
  vertices : List V
  next : Ptr
  deriving DecidableEq

/-- `DxfTableCell` of `table.h`. -/
structure DxfTableCell where
  text_string : String
  optional_text_string : List (Option String)
  text_style_name : String
  color_bg : Int
  color_fg : Int
  border_color_right : Int
  border_color_bottom : Int
  border_color_left : Int
  border_color_top : Int
  override_flag : Int
  text_height : Rat
  block_scale : Rat
  block_rotation : Rat
  alignment : Int
  type : Int
  flag : Int
  merged : Int
  autofit : Int
  border_width : Rat
  border_height : Rat
  override : Int
  virtual_edge : Int
  number_of_block_attdefs : Int
  border_lineweight_right : Rat
  border_lineweight_bottom : Rat
  border_lineweight_left : Rat
  border_lineweight_top : Rat
  color_fill_override : Int
  border_visibility_override_right : Int
  border_visibility_override_bottom : Int
  border_visibility_override_left : Int
  border_visibility_override_top : Int
  attdef_text_string : String
  attdef_soft_pointer : List (Option String)
  block_table_record_hard_pointer : String
  field_object_pointer : String
  next : Ptr
  deriving DecidableEq

/-- `DxfTable` of `table.h`.  The three arrays have `DXF_MAX_PARAM` elements. -/
structure DxfTable where
  id_code : Int
  linetype : String
  layer : String
  elevation : Rat
  thickness : Rat
  linetype_scale : Rat
  visibility : Int
  color : Int
  paperspace : Int
  graphics_data_size : Int
  binary_graphics_data : List String
  dictionary_owner_soft : String
  dictionary_owner_hard : String
  block_name : String
  table_text_style_name : String
  x0 : Rat
  y0 : Rat
  z0 : Rat
  x1 : Rat
  y1 : Rat
  z1 : Rat
  horizontal_cell_margin : Rat
  vertical_cell_margin : Rat
  table_cell_color_bg : Int
  table_cell_color_fg : Int
  table_cell_border_color_horizontal : Int
  table_cell_border_color_bottom : Int
  table_cell_border_color_vertical : Int
  table_cell_border_color_right : Int
  flow_direction : Int
  table_value_flag : Int
  number_of_rows : Int
  number_of_columns : Int
  override_flag : Int
  border_color_override_flag : Int
  border_lineweight_override_flag : Int
  border_visibility_override_flag : Int
  table_text_height : Rat
  row_height : List Rat
  column_height : List Rat
  table_cell_alignment : Int
  table_cell_border_lineweight_right : Rat
  table_data_version : Int
  suppress_table_title : Int
  suppress_header_row : Int
  table_cell_color_fill_override : Int
  tablestyle_object_pointer : String
  owning_block_pointer : String
  cells : Ptr
  next : Ptr
  deriving DecidableEq

/-! ## Chain manager -/

/-- `dxf_polyline_free`: refuse a node whose `next` is not `NULL`, else free its
linetype, its layer and the node.  The pointer is dereferenced without a null check. -/
def dxf_polyline_free {V : Type} (h : Heap (DxfPolyline V)) (polyline : Ptr) :
    Except Fault (Int × Heap (DxfPolyline V)) :=
  match polyline with
  | none => .error .undefinedBehaviour
  | some a =>
    match h.deref a with
    | none => .error .undefinedBehaviour
    | some node =>
      if node.next ≠ none then .ok (EXIT_FAILURE, h)
      else .ok (EXIT_SUCCESS, h.release a)

/-- `dxf_polyline_free_chain`: the `while (polylines != NULL)` loop.  The second
component of the result lists the value returned by each call of `dxf_polyline_free`,
in call order (the C code discards it). -/
def dxf_polyline_free_chain {V : Type} :
    Nat → Heap (DxfPolyline V) → Ptr → Except Fault (Heap (DxfPolyline V) × List Int)
  | _, h, none => .ok (h, [])
  | 0, _, some _ => .error .outOfFuel
  | fuel + 1, h, some a =>
    match h.deref a with
    | none => .error .undefinedBehaviour
    | some node =>
      let iter := node.next
      match dxf_polyline_free h (some a) with
      | .error e => .error e
      | .ok (rc, h1) =>
        match dxf_polyline_free_chain fuel h1 iter with
        | .error e => .error e
        | .ok (h2, rcs) => .ok (h2, rc :: rcs)

/-- `dxf_table_cell_free`. -/
def dxf_table_cell_free (h : Heap DxfTableCell) (cell : Ptr) :
    Except Fault (Int × Heap DxfTableCell) :=
  match cell with
  | none => .ok (EXIT_FAILURE, h)
  | some a =>
    match h.deref a with
    | none => .error .undefinedBehaviour
    | some node =>
      if node.next ≠ none then .ok (EXIT_FAILURE, h)
      else .ok (EXIT_SUCCESS, h.release a)

/-- `dxf_table_free`.  The cell list is not freed (the call is commented out). -/
def dxf_table_free (h : Heap DxfTable) (table : Ptr) :
    Except Fault (Int × Heap DxfTable) :=
  match table with
  | none => .ok (EXIT_FAILURE, h)
  | some a =>
    match h.deref a with
    | none => .error .undefinedBehaviour
    | some node =>
      if node.next ≠ none then .ok (EXIT_FAILURE, h)
      else .ok (EXIT_SUCCESS, h.release a)

/-- `dxf_table_cell_free_list`, with the values returned by `dxf_table_cell_free`. -/
def dxf_table_cell_free_list :
    Nat → Heap DxfTableCell → Ptr → Except Fault (Heap DxfTableCell × List Int)
  | _, h, none => .ok (h, [])
  | 0, _, some _ => .error .outOfFuel
  | fuel + 1, h, some a =>
    match h.deref a with
    | none => .error .undefinedBehaviour
    | some node =>
      let iter := node.next
      match dxf_table_cell_free h (some a) with
      | .error e => .error e
      | .ok (rc, h1) =>
        match dxf_table_cell_free_list fuel h1 iter with
        | .error e => .error e
        | .ok (h2, rcs) => .ok (h2, rc :: rcs)

/-- `dxf_table_free_list`, with the values returned by `dxf_table_free`. -/
def dxf_table_free_list :
    Nat → Heap DxfTable → Ptr → Except Fault (Heap DxfTable × List Int)
  | _, h, none => .ok (h, [])
  | 0, _, some _ => .error .outOfFuel
  | fuel + 1, h, some a =>
    match h.deref a with
    | none => .error .undefinedBehaviour
    | some node =>
      let iter := node.next
      match dxf_table_free h (some a) with
      | .error e => .error e
      | .ok (rc, h1) =>
        match dxf_table_free_list fuel h1 iter with
        | .error e => .error e
        | .ok (h2, rcs) => .ok (h2, rc :: rcs)

/-! ## Streams (`stdio.h`) and the file handle (`file.h`) -/

/-- One tag of the wire format, as one `fprintf` call of an encoder prints it: the
group code of the format string and the converted argument. -/
inductive Value where
  /-- conversion `%s`, or text that is part of the format string -/
  | str (s : String)
  /-- conversion `%d` -/
  | int (i : Int)
  /-- conversion `%x` -/
  | hex (i : Int)
  /-- conversion `%f` or `%lf` -/
  | real (q : Rat)
  deriving DecidableEq

/-- A group code and its value. -/
structure Tag where
  code : Nat
  value : Value
  deriving DecidableEq

/-- A `FILE`: the characters not yet read, the tags printed so far, the error
indicator tested by `ferror`, and whether `fclose` was called. -/
structure FILE where
  input : List Char
  output : List Tag
  error : Bool
  closed : Bool
  deriving DecidableEq

/-- `DxfFile` (`file.h` is not part of the sources), with the members the codecs use. -/
structure DxfFile where
  fp : FILE
  filename : String
  line_number : Int
  acad_version_number : Int
  deriving DecidableEq

/-- A message printed on `stderr` (or, for `comment`, on `stdout`). -/
inductive Diag where
  | warning_null_pointer
  | error_while_reading (filename : String) (line_number : Int)
  | warning_unknown_tag (filename : String) (line_number : Int)
  | warning_bad_subclass_marker (filename : String) (line_number : Int)
  | error_invalid_x (id_code : Int)
  | error_invalid_y (id_code : Int)
  | error_invalid_vertices_follow (id_code : Int)
  | warning_empty_linetype (id_code : Int)
  | warning_empty_layer (id_code : Int)
  | warning_more_attdefs
  | warning_less_attdefs
  | comment (text : String)
  | error_in (function : String) (text : String)
  deriving DecidableEq

/-- `isspace` in the C locale. -/
def isspace (c : Char) : Bool :=
  c = ' ' || c = '\t' || c = '\n' || c = '\x0b' || c = '\x0c' || c = '\r'

/-- White space in a format, and the skipping that precedes `%s`, `%d`, `%x`, `%lf`:
read up to the first character that is not white space. -/
def skipSpace : List Char → List Char
  | [] => []
  | c :: cs => if isspace c then skipSpace cs else c :: cs

/-- The longest prefix whose characters satisfy `p`, and what follows it. -/
def takeRun (p : Char → Bool) : List Char → List Char × List Char
  | [] => ([], [])
  | c :: cs => if p c then ((c :: (takeRun p cs).1), (takeRun p cs).2) else ([], c :: cs)

/-- Value of a digit in base 16 (also used for base 10). -/
def hexVal (c : Char) : Nat :=
  if '0' ≤ c ∧ c ≤ '9' then c.toNat - 48
  else if 'a' ≤ c ∧ c ≤ 'f' then c.toNat - 87
  else if 'A' ≤ c ∧ c ≤ 'F' then c.toNat - 55
  else 0

/-- Is `c` a decimal digit. -/
def isDigit (c : Char) : Bool := '0' ≤ c && c ≤ '9'

/-- Is `c` a hexadecimal digit. -/
def isXDigit (c : Char) : Bool :=
  ('0' ≤ c && c ≤ '9') || ('a' ≤ c && c ≤ 'f') || ('A' ≤ c && c ≤ 'F')

/-- Value of a run of digits in base `b`. -/
def digitsVal (b : Nat) (ds : List Char) : Nat :=
  ds.foldl (fun n c => b * n + hexVal c) 0

/-- An optional sign: whether it is a minus, and what follows it. -/
def takeSign : List Char → Bool × List Char
  | '-' :: cs => (true, cs)
  | '+' :: cs => (false, cs)
  | cs => (false, cs)

/-- `fscanf (fp, "%[^\n]", s)`: a non-empty run of characters other than newline; no
white space is skipped.  `none` (nothing stored, nothing read) when the input is at
its end or at a newline. -/
def scan_line (inp : List Char) : Option String × List Char :=
  match takeRun (fun c => c != '\n') inp with
  | ([], _) => (none, inp)
  | (w, rest) => (some (String.mk w), rest)

/-- `fscanf (fp, "%s\n", s)`: skip white space, read a non-empty run of characters
that are not white space, then skip white space.  `none` at the end of the input. -/
def scan_s (inp : List Char) : Option String × List Char :=
  match takeRun (fun c => !isspace c) (skipSpace inp) with
  | ([], rest) => (none, rest)
  | (w, rest) => (some (String.mk w), skipSpace rest)

/-- The decimal numeral that `fscanf` matches for `%d` and `%hd`: skip white space, read
an optional sign and a non-empty run of decimal digits, then skip white space.  The
value is the integer the text denotes, of any size.  On a matching failure the value is
`none` and the input stays at the offending character. -/
def scan_numeral (inp : List Char) : Option Int × List Char :=
  let s := takeSign (skipSpace inp)
  match takeRun isDigit s.2 with
  | ([], rest) => (none, rest)
  | (ds, rest) =>
    (some (if s.1 then -(digitsVal 10 ds : Int) else (digitsVal 10 ds : Int)), skipSpace rest)

/-- Value of the `int` that has the bit pattern of `v` (two's complement, 32 bits). -/
def wrap32 (v : Int) : Int := (v + 2147483648) % 4294967296 - 2147483648

/-- Value of the `int16_t` that has the low 16 bits of `v`. -/
def wrap16 (v : Int) : Int := (v + 32768) % 65536 - 32768

/-- The 64-bit `long` that `strtol` delivers for the integer `v`: a value out of range
is replaced by the nearest bound. -/
def clampLong (v : Int) : Int :=
  if v < -9223372036854775808 then -9223372036854775808
  else if v > 9223372036854775807 then 9223372036854775807
  else v

/-- `fscanf (fp, "%d\n", &i)` with `i` an `int`: the numeral of `scan_numeral`, stored in
the `int`.  On a matching failure nothing is stored.  A numeral that an `int` holds is
stored as it is.  For any other numeral C leaves the behaviour undefined; the value
given here is that of the GNU C library, which converts the text to a `long` with
`strtol` and stores its low 32 bits. -/
def scan_d (inp : List Char) : Option Int × List Char :=
  ((scan_numeral inp).1.map fun v => wrap32 (clampLong v), (scan_numeral inp).2)

/-- `fscanf (fp, "%hd\n", &i)` with `i` an `int16_t`: as `%d`, with the low 16 bits of
the `long` stored.  A numeral that an `int16_t` holds is stored as it is; for any other
numeral C leaves the behaviour undefined, as for `%d`. -/
def scan_hd (inp : List Char) : Option Int × List Char :=
  ((scan_numeral inp).1.map fun v => wrap16 (clampLong v), (scan_numeral inp).2)

/-- An optional `0x` or `0X` that is followed by a hexadecimal digit. -/
def takeHexPrefix : List Char → List Char
  | '0' :: x :: d :: cs =>
    if (x = 'x' ∨ x = 'X') ∧ isXDigit d = true then d :: cs else '0' :: x :: d :: cs
  | cs => cs

/-- `fscanf (fp, "%x\n", &i)` with `i` an `int`: skip white space, read an optional
sign, an optional `0x` and a non-empty run of hexadecimal digits, then skip white
space; the unsigned value is stored in the `int`. -/
def scan_x (inp : List Char) : Option Int × List Char :=
  let s := takeSign (skipSpace inp)
  match takeRun isXDigit (takeHexPrefix s.2) with
  | ([], rest) => (none, rest)
  | (ds, rest) =>
    (some (wrap32 (if s.1 then -(digitsVal 16 ds : Int) else (digitsVal 16 ds : Int))),
      skipSpace rest)

/-- An optional decimal exponent `e`, sign, digits: its value and what follows. -/
def takeExponent : List Char → Int × List Char
  | e :: cs =>
    if e = 'e' ∨ e = 'E' then
      match takeRun isDigit (takeSign cs).2 with
      | ([], _) => (0, e :: cs)
      | (ds, rest) =>
        ((if (takeSign cs).1 then -(digitsVal 10 ds : Int) else (digitsVal 10 ds : Int)), rest)
    else (0, e :: cs)
  | [] => (0, [])

/-- `fscanf (fp, "%lf\n", &d)` for decimal input: skip white space, read an optional
sign, digits with an optional fraction and an optional exponent, then skip white
space.  The value stored is the rational the text denotes (the rounding to a `double`
and the forms `inf`, `nan` and hexadecimal are not modelled). -/
def scan_lf (inp : List Char) : Option Rat × List Char :=
  let s := takeSign (skipSpace inp)
  let ip := takeRun isDigit s.2
  let fp := match ip.2 with
    | '.' :: cs => takeRun isDigit cs
    | cs => ([], cs)
  if ip.1 = [] ∧ fp.1 = [] then (none, s.2)
  else
    let ex := takeExponent fp.2
    let m : Rat := (digitsVal 10 (ip.1 ++ fp.1) : Rat) / (10 : Rat) ^ fp.1.length
    let v : Rat := m * (10 : Rat) ^ ex.1
    (some (if s.1 then -v else v), skipSpace ex.2)

/-- `(fp->line_number)++`. -/
def DxfFile.next_line (fp : DxfFile) : DxfFile :=
  { fp with line_number := fp.line_number + 1 }

/-- The file after a read that left `rest` unread. -/
def DxfFile.unread (fp : DxfFile) (rest : List Char) : DxfFile :=
  { fp with fp := { fp.fp with input := rest } }

/-- The file after the encoder printed `tags`. -/
def DxfFile.emit (fp : DxfFile) (tags : List Tag) : DxfFile :=
  { fp with fp := { fp.fp with output := fp.fp.output ++ tags } }

/-- One `fprintf (fp->fp, "<code>\n<conversion>\n", value)`. -/
def DxfFile.fprintf (fp : DxfFile) (code : Nat) (value : Value) : DxfFile :=
  fp.emit [⟨code, value⟩]

/-- `fclose (fp->fp)`. -/
def DxfFile.fclose (fp : DxfFile) : DxfFile :=
  { fp with fp := { fp.fp with closed := true } }

/-! ## Allocation and default initialisation -/

/-- `dxf_polyline_new`: a zero-filled record (the allocation is taken to succeed). -/
def dxf_polyline_new {V : Type} : DxfPolyline V where
  id_code := 0
  linetype := ""
  layer := ""
  elevation := 0
  thickness := 0
  linetype_scale := 0
  visibility := 0
  color := 0
  paperspace := 0
  graphics_data_size := 0
  shadow_mode := 0
  dictionary_owner_soft := ""
  material := ""
  dictionary_owner_hard := ""
  lineweight := 0
  plot_style_name := ""
  color_value := 0
  color_name := ""
  transparency := 0
  p0 := none
  x0 := 0
  y0 := 0
  z0 := 0
  start_width := 0
  end_width := 0
  vertices_follow := 0
  flag := 0
  polygon_mesh_M_vertex_count := 0
  polygon_mesh_N_vertex_count := 0
  smooth_M_surface_density := 0
  smooth_N_surface_density := 0
  surface_type := 0
  extr_x0 := 0
  extr_y0 := 0
  extr_z0 := 0
  vertices := []
  next := none

/-- `dxf_polyline_init`: a null argument is replaced by a new record; the members the
function assigns get their values, the others keep what they held. -/
def dxf_polyline_init {V : Type} (G : Globals) (polyline : Option (DxfPolyline V)) :
    DxfPolyline V :=
  let polyline := match polyline with
    | none => dxf_polyline_new
    | some p => p
  { polyline with
    id_code := 0
    linetype := G.DXF_DEFAULT_LINETYPE
    layer := G.DXF_DEFAULT_LAYER
    x0 := 0
    y0 := 0
    z0 := 0
    elevation := 0
    thickness := 0
    linetype_scale := G.DXF_DEFAULT_LINETYPE_SCALE
    visibility := G.DXF_DEFAULT_VISIBILITY
    start_width := 0
    end_width := 0
    vertices_follow := 1
    color := G.DXF_COLOR_BYLAYER
    paperspace := G.DXF_MODELSPACE
    flag := 0
    polygon_mesh_M_vertex_count := 0
    polygon_mesh_N_vertex_count := 0
    smooth_M_surface_density := 0
    smooth_N_surface_density := 0
    surface_type := 0
    extr_x0 := 0
    extr_y0 := 0
    extr_z0 := 0
    dictionary_owner_soft := ""
    dictionary_owner_hard := ""
    next := none }

/-- `dxf_table_cell_new`: a zero-filled cell. -/
def dxf_table_cell_new (G : Globals) : DxfTableCell where
  text_string := ""
  optional_text_string := List.replicate G.DXF_MAX_PARAM none
  text_style_name := ""
  color_bg := 0
  color_fg := 0
  border_color_right := 0
  border_color_bottom := 0
  border_color_left := 0
  border_color_top := 0
  override_flag := 0
  text_height := 0
  block_scale := 0
  block_rotation := 0
  alignment := 0
  type := 0
  flag := 0
  merged := 0
  autofit := 0
  border_width := 0
  border_height := 0
  override := 0
  virtual_edge := 0
  number_of_block_attdefs := 0
  border_lineweight_right := 0
  border_lineweight_bottom := 0
  border_lineweight_left := 0
  border_lineweight_top := 0
  color_fill_override := 0
  border_visibility_override_right := 0
  border_visibility_override_bottom := 0
  border_visibility_override_left := 0
  border_visibility_override_top := 0
  attdef_text_string := ""
  attdef_soft_pointer := List.replicate G.DXF_MAX_PARAM none
  block_table_record_hard_pointer := ""
  field_object_pointer := ""
  next := none

/-- `dxf_table_cell_init`. -/
def dxf_table_cell_init (G : Globals) (cell : Option DxfTableCell) : DxfTableCell :=
  let cell := match cell with
    | none => dxf_table_cell_new G
    | some c => c
  { cell with
    text_string := ""
    optional_text_string := List.replicate G.DXF_MAX_PARAM (some "")
    attdef_soft_pointer := List.replicate G.DXF_MAX_PARAM (some "")
    text_style_name := G.DXF_DEFAULT_TEXTSTYLE
    color_bg := 0
    color_fg := G.DXF_COLOR_BYLAYER
    border_color_right := G.DXF_COLOR_BYLAYER
    border_color_bottom := G.DXF_COLOR_BYLAYER
    border_color_left := G.DXF_COLOR_BYLAYER
    border_color_top := G.DXF_COLOR_BYLAYER
    text_height := 1
    block_scale := 1
    block_rotation := 0
    alignment := 0
    type := 0
    flag := 0
    merged := 0
    autofit := 0
    border_width := 0
    border_height := 0
    override := 0
    virtual_edge := 0
    number_of_block_attdefs := 0
    border_lineweight_right := 1
    border_lineweight_bottom := 1
    border_lineweight_left := 1
    border_lineweight_top := 1
    color_fill_override := 0
    border_visibility_override_right := 0
    border_visibility_override_bottom := 0
    border_visibility_override_left := 0
    border_visibility_override_top := 0
    attdef_text_string := ""
    block_table_record_hard_pointer := ""
    field_object_pointer := ""
    next := none }

/-- `dxf_table_new`: a zero-filled table. -/
def dxf_table_new (G : Globals) : DxfTable where
  id_code := 0
  linetype := ""
  layer := ""
  elevation := 0
  thickness := 0
  linetype_scale := 0
  visibility := 0
  color := 0
  paperspace := 0
  graphics_data_size := 0
  binary_graphics_data := List.replicate G.DXF_MAX_PARAM ""
  dictionary_owner_soft := ""
  dictionary_owner_hard := ""
  block_name := ""
  table_text_style_name := ""
  x0 := 0
  y0 := 0
  z0 := 0
  x1 := 0
  y1 := 0
  z1 := 0
  horizontal_cell_margin := 0
  vertical_cell_margin := 0
  table_cell_color_bg := 0
  table_cell_color_fg := 0
  table_cell_border_color_horizontal := 0
  table_cell_border_color_bottom := 0
  table_cell_border_color_vertical := 0
  table_cell_border_color_right := 0
  flow_direction := 0
  table_value_flag := 0
  number_of_rows := 0
  number_of_columns := 0
  override_flag := 0
  border_color_override_flag := 0
  border_lineweight_override_flag := 0
  border_visibility_override_flag := 0
  table_text_height := 0
  row_height := List.replicate G.DXF_MAX_PARAM 0
  column_height := List.replicate G.DXF_MAX_PARAM 0
  table_cell_alignment := 0
  table_cell_border_lineweight_right := 0
  table_data_version := 0
  suppress_table_title := 0
  suppress_header_row := 0
  table_cell_color_fill_override := 0
  tablestyle_object_pointer := ""
  owning_block_pointer := ""
  cells := none
  next := none

/-- `dxf_table_init`. -/
def dxf_table_init (G : Globals) (table : Option DxfTable) : DxfTable :=
  let table := match table with
    | none => dxf_table_new G
    | some t => t
  { table with
    id_code := 0
    linetype := G.DXF_DEFAULT_LINETYPE
    layer := G.DXF_DEFAULT_LAYER
    elevation := 0
    thickness := 0
    visibility := 0
    color := G.DXF_COLOR_BYLAYER
    paperspace := G.DXF_MODELSPACE
    graphics_data_size := 0
    binary_graphics_data := List.replicate G.DXF_MAX_PARAM ""
    row_height := List.replicate G.DXF_MAX_PARAM 0
    column_height := List.replicate G.DXF_MAX_PARAM 0
    dictionary_owner_soft := ""
    dictionary_owner_hard := ""
    block_name := ""
    table_text_style_name := ""
    x0 := 0
    y0 := 0
    z0 := 0
    x1 := 0
    y1 := 0
    z1 := 0
    horizontal_cell_margin := 0
    vertical_cell_margin := 0
    table_cell_color_bg := 0
    table_cell_color_fg := 0
    table_cell_border_color_horizontal := G.DXF_COLOR_BYLAYER
    table_cell_border_color_bottom := G.DXF_COLOR_BYLAYER
    table_cell_border_color_vertical := G.DXF_COLOR_BYLAYER
    table_cell_border_color_right := G.DXF_COLOR_BYLAYER
    flow_direction := 0
    table_value_flag := 0
    number_of_rows := 0
    number_of_columns := 0
    override_flag := 0
    border_color_override_flag := 0
    border_lineweight_override_flag := 0
    border_visibility_override_flag := 0
    table_text_height := 0
    table_cell_alignment := 0
    table_cell_border_lineweight_right := 0
    suppress_table_title := 0
    suppress_header_row := 0
    table_cell_color_fill_override := 0
    tablestyle_object_pointer := ""
    owning_block_pointer := ""
    cells := none
    next := none }

/-! ## Record decoder -/

/-- What a decoder returns: the record, or `none` for `NULL`; the file and the
messages printed. -/
structure ReadResult (R : Type) where
  ret : Option R
  fp : DxfFile
  stderr : List Diag

/-- State of `dxf_polyline_read` between two tests of its loop condition.
`temp_string` is the text last stored through that pointer (the code passes a null
`temp_string` to `fscanf`; the embedding gives it a buffer, empty at first). -/
structure PolylineReader (V : Type) where
  fp : DxfFile
  polyline : DxfPolyline V
  temp_string : String
  stderr : List Diag

/-- `(fp->line_number)++; fscanf (fp->fp, "%d\n", &polyline-><member>)`. -/
def PolylineReader.read_d {V : Type} (s : PolylineReader V)
    (assign : DxfPolyline V → Int → DxfPolyline V) : PolylineReader V :=
  { s with
    fp := s.fp.next_line.unread (scan_d s.fp.fp.input).2
    polyline := match (scan_d s.fp.fp.input).1 with
      | some v => assign s.polyline v
      | none => s.polyline }

/-- `(fp->line_number)++; fscanf (fp->fp, "%hd\n", &polyline-><member>)`. -/
def PolylineReader.read_hd {V : Type} (s : PolylineReader V)
    (assign : DxfPolyline V → Int → DxfPolyline V) : PolylineReader V :=
  { s with
    fp := s.fp.next_line.unread (scan_hd s.fp.fp.input).2
    polyline := match (scan_hd s.fp.fp.input).1 with
      | some v => assign s.polyline v
      | none => s.polyline }

/-- `(fp->line_number)++; fscanf (fp->fp, "%x\n", &polyline-><member>)`. -/
def PolylineReader.read_x {V : Type} (s : PolylineReader V)
    (assign : DxfPolyline V → Int → DxfPolyline V) : PolylineReader V :=
  { s with
    fp := s.fp.next_line.unread (scan_x s.fp.fp.input).2
    polyline := match (scan_x s.fp.fp.input).1 with
      | some v => assign s.polyline v
      | none => s.polyline }

/-- `(fp->line_number)++; fscanf (fp->fp, "%lf\n", &polyline-><member>)`. -/
def PolylineReader.read_lf {V : Type} (s : PolylineReader V)
    (assign : DxfPolyline V → Rat → DxfPolyline V) : PolylineReader V :=
  { s with
    fp := s.fp.next_line.unread (scan_lf s.fp.fp.input).2
    polyline := match (scan_lf s.fp.fp.input).1 with
      | some v => assign s.polyline v
      | none => s.polyline }

/-- `(fp->line_number)++; fscanf (fp->fp, "%s\n", polyline-><member>)`. -/
def PolylineReader.read_s {V : Type} (s : PolylineReader V)
    (assign : DxfPolyline V → String → DxfPolyline V) : PolylineReader V :=
  { s with
    fp := s.fp.next_line.unread (scan_s s.fp.fp.input).2
    polyline := match (scan_s s.fp.fp.input).1 with
      | some v => assign s.polyline v
      | none => s.polyline }

/-- `(fp->line_number)++; fscanf (fp->fp, "%s\n", temp_string)`. -/
def PolylineReader.read_temp {V : Type} (s : PolylineReader V) : PolylineReader V :=
  { s with
    fp := s.fp.next_line.unread (scan_s s.fp.fp.input).2
    temp_string := match (scan_s s.fp.fp.input).1 with
      | some v => v
      | none => s.temp_string }

/-- The `if ... else if ... else` chain in the loop of `dxf_polyline_read`, entered
when `ferror` is clear: the branch is chosen by `temp_string`. -/
def dxf_polyline_read_tag {V : Type} (G : Globals) (s : PolylineReader V) :
    PolylineReader V :=
  if s.temp_string = "5" then
    s.read_x fun p v => { p with id_code := v }
  else if s.temp_string = "6" then
    s.read_s fun p v => { p with linetype := v }
  else if s.temp_string = "8" then
    s.read_s fun p v => { p with layer := v }
  else if s.temp_string = "10" then
    s.read_lf fun p v => { p with x0 := v }
  else if s.temp_string = "20" then
    s.read_lf fun p v => { p with y0 := v }
  else if s.temp_string = "30" then
    s.read_lf fun p v => { p with z0 := v }
  else if s.fp.acad_version_number ≤ G.AutoCAD_11 ∧ s.temp_string = "38"
      ∧ s.polyline.elevation ≠ 0 then
    s.read_lf fun p v => { p with elevation := v }
  else if s.temp_string = "39" then
    s.read_lf fun p v => { p with thickness := v }
  else if s.temp_string = "40" then
    s.read_lf fun p v => { p with start_width := v }
  else if s.temp_string = "41" then
    s.read_lf fun p v => { p with end_width := v }
  else if s.temp_string = "48" then
    s.read_lf fun p v => { p with linetype_scale := v }
  else if s.temp_string = "60" then
    s.read_hd fun p v => { p with visibility := v }
  else if s.temp_string = "62" then
    s.read_d fun p v => { p with color := v }
  else if s.temp_string = "66" then
    s.read_d fun p v => { p with vertices_follow := v }
  else if s.temp_string = "67" then
    s.read_d fun p v => { p with paperspace := v }
  else if s.temp_string = "70" then
    s.read_d fun p v => { p with flag := v }
  else if s.temp_string = "71" then
    s.read_d fun p v => { p with polygon_mesh_M_vertex_count := v }
  else if s.temp_string = "72" then
    s.read_d fun p v => { p with polygon_mesh_N_vertex_count := v }
  else if s.temp_string = "73" then
    s.read_d fun p v => { p with smooth_M_surface_density := v }
  else if s.temp_string = "74" then
    s.read_d fun p v => { p with smooth_M_surface_density := v }
  else if s.temp_string = "75" then
    s.read_d fun p v => { p with surface_type := v }
  else if s.fp.acad_version_number ≥ G.AutoCAD_12 ∧ s.temp_string = "100" then
    s.read_temp
  else if s.temp_string = "210" then
    s.read_lf fun p v => { p with extr_x0 := v }
  else if s.temp_string = "220" then
    s.read_lf fun p v => { p with extr_y0 := v }
  else if s.temp_string = "230" then
    s.read_lf fun p v => { p with extr_z0 := v }
  else if s.temp_string = "330" then
    s.read_s fun p v => { p with dictionary_owner_soft := v }
  else if s.temp_string = "360" then
    s.read_s fun p v => { p with dictionary_owner_hard := v }
  else if s.temp_string = "999" then
    { s.read_temp with stderr := s.stderr ++ [Diag.comment s.read_temp.temp_string] }
  else
    { s with stderr := s.stderr ++
        [Diag.warning_unknown_tag s.fp.filename s.fp.line_number] }

/-- The code of `dxf_polyline_read` after its loop: empty linetype and layer get their
defaults, and the record is returned. -/
def dxf_polyline_read_end {V : Type} (G : Globals) (s : PolylineReader V) :
    ReadResult (DxfPolyline V) :=
  let polyline := s.polyline
  let polyline := if polyline.linetype = "" then
    { polyline with linetype := G.DXF_DEFAULT_LINETYPE } else polyline
  let polyline := if polyline.layer = "" then
    { polyline with layer := G.DXF_DEFAULT_LAYER } else polyline
  { ret := some polyline, fp := s.fp, stderr := s.stderr }

/-- The `while (strcmp (temp_string, "0") != 0)` loop of `dxf_polyline_read` and the
code after it.  Each iteration tests `ferror` (and then closes the file and returns
`NULL`) and otherwise runs the chain of `dxf_polyline_read_tag`; `fuel` bounds the
number of iterations. -/
def dxf_polyline_read_loop {V : Type} (G : Globals) :
    Nat → PolylineReader V → Except Fault (ReadResult (DxfPolyline V))
  | 0, s =>
    if s.temp_string = "0" then .ok (dxf_polyline_read_end G s)
    else .error .outOfFuel
  | fuel + 1, s =>
    if s.temp_string = "0" then .ok (dxf_polyline_read_end G s)
    else if s.fp.fp.error = true then
      .ok { ret := none, fp := s.fp.fclose,
            stderr := s.stderr ++ [Diag.error_while_reading s.fp.filename s.fp.line_number] }
    else dxf_polyline_read_loop G fuel (dxf_polyline_read_tag G s)

/-- `dxf_polyline_read` on a file handle that is not null, when `temp_string` points to
an empty buffer: a null `polyline` is replaced by a new, initialised record; the first
line is read into `temp_string`; then the loop runs.  In the source the pointer is null;
`dxf_polyline_read_entry` below has the pointer as a parameter. -/
def dxf_polyline_read {V : Type} (G : Globals) (fuel : Nat) (fp : DxfFile)
    (polyline : Option (DxfPolyline V)) : Except Fault (ReadResult (DxfPolyline V)) :=
  dxf_polyline_read_loop G fuel
    { fp := fp.next_line.unread (scan_line fp.fp.input).2
      polyline := match polyline with
        | none => dxf_polyline_init G (some dxf_polyline_new)
        | some p => p
      temp_string := match (scan_line fp.fp.input).1 with
        | some t => t
        | none => ""
      stderr := match polyline with
        | none => [Diag.warning_null_pointer]
        | some _ => [] }

/-- State of `dxf_table_read` between two tests of its loop condition, with the four
counters `i`, `j`, `k`, `l` of the function. -/
structure TableReader where
  fp : DxfFile
  table : DxfTable
  temp_string : String
  i : Nat
  j : Nat
  k : Nat
  l : Nat
  stderr : List Diag

/-- `(fp->line_number)++; fscanf (fp->fp, "%d\n", &table-><member>)`. -/
def TableReader.read_d (s : TableReader) (assign : DxfTable → Int → DxfTable) :
    TableReader :=
  { s with
    fp := s.fp.next_line.unread (scan_d s.fp.fp.input).2
    table := match (scan_d s.fp.fp.input).1 with
      | some v => assign s.table v
      | none => s.table }

/-- `(fp->line_number)++; fscanf (fp->fp, "%x\n", &table-><member>)`. -/
def TableReader.read_x (s : TableReader) (assign : DxfTable → Int → DxfTable) :
    TableReader :=
  { s with
    fp := s.fp.next_line.unread (scan_x s.fp.fp.input).2
    table := match (scan_x s.fp.fp.input).1 with
      | some v => assign s.table v
      | none => s.table }

/-- `(fp->line_number)++; fscanf (fp->fp, "%lf\n", &table-><member>)`. -/
def TableReader.read_lf (s : TableReader) (assign : DxfTable → Rat → DxfTable) :
    TableReader :=
  { s with
    fp := s.fp.next_line.unread (scan_lf s.fp.fp.input).2
    table := match (scan_lf s.fp.fp.input).1 with
      | some v => assign s.table v
      | none => s.table }

/-- `(fp->line_number)++; fscanf (fp->fp, "%s\n", table-><member>)`. -/
def TableReader.read_s (s : TableReader) (assign : DxfTable → String → DxfTable) :
    TableReader :=
  { s with
    fp := s.fp.next_line.unread (scan_s s.fp.fp.input).2
    table := match (scan_s s.fp.fp.input).1 with
      | some v => assign s.table v
      | none => s.table }

/-- `(fp->line_number)++; fscanf (fp->fp, "%s\n", temp_string)`. -/
def TableReader.read_temp (s : TableReader) : TableReader :=
  { s with
    fp := s.fp.next_line.unread (scan_s s.fp.fp.input).2
    temp_string := match (scan_s s.fp.fp.input).1 with
      | some v => v
      | none => s.temp_string }

/-- The first statement of the loop body of `dxf_table_read` when `ferror` is clear:
`else if (strcmp (temp_string, "2") == 0)` reads the block name, without counting the
line. -/
def dxf_table_read_block_name (s : TableReader) : TableReader :=
  if s.temp_string = "2" then
    { s with
      fp := s.fp.unread (scan_s s.fp.fp.input).2
      table := match (scan_s s.fp.fp.input).1 with
        | some v => { s.table with block_name := v }
        | none => s.table }
  else s

/-- The second statement of the loop body of `dxf_table_read`: the chain that starts
at `if (strcmp (temp_string, "5") == 0)` and ends with the unknown-tag warning.  In
the branches for 141 and 142, `fscanf` receives the address of element `k` (or `l`):
a value stored beyond the end of the array is undefined behaviour, and when nothing
is read only the counter advances.  In the branch for 310, `fscanf` receives the
pointer held in element `j`, so an index beyond the end is undefined behaviour. -/
def dxf_table_read_tag (G : Globals) (s : TableReader) : Except Fault TableReader :=
  if s.temp_string = "5" then
    .ok (s.read_x fun t v => { t with id_code := v })
  else if s.temp_string = "10" then
    .ok (s.read_lf fun t v => { t with x0 := v })
  else if s.temp_string = "11" then
    .ok (s.read_lf fun t v => { t with x1 := v })
  else if s.temp_string = "20" then
    .ok (s.read_lf fun t v => { t with y0 := v })
  else if s.temp_string = "21" then
    .ok (s.read_lf fun t v => { t with y1 := v })
  else if s.temp_string = "30" then
    .ok (s.read_lf fun t v => { t with z0 := v })
  else if s.temp_string = "31" then
    .ok (s.read_lf fun t v => { t with z1 := v })
  else if s.temp_string = "90" then
    .ok (s.read_d fun t v => { t with table_value_flag := v })
  else if s.temp_string = "91" then
    .ok (s.read_d fun t v => { t with number_of_rows := v })
  else if s.temp_string = "92" ∧ s.i = 0 then
    .ok { s.read_d fun t v => { t with graphics_data_size := v } with i := s.i + 1 }
  else if s.temp_string = "92" ∧ s.i = 1 then
    .ok (s.read_d fun t v => { t with number_of_columns := v })
  else if s.temp_string = "93" then
    .ok (s.read_d fun t v => { t with override_flag := v })
  else if s.temp_string = "94" then
    .ok (s.read_d fun t v => { t with border_color_override_flag := v })
  else if s.temp_string = "95" then
    .ok (s.read_d fun t v => { t with border_lineweight_override_flag := v })
  else if s.temp_string = "96" then
    .ok (s.read_d fun t v => { t with border_visibility_override_flag := v })
  else if s.fp.acad_version_number ≥ G.AutoCAD_13 ∧ s.temp_string = "100" then
    .ok { s.read_temp with
          stderr := s.stderr ++
            (if s.read_temp.temp_string ≠ "AcDbEntity"
                ∧ s.read_temp.temp_string ≠ "AcDbBlockReference"
                ∧ s.read_temp.temp_string ≠ "AcDbBlockTable" then
              [Diag.warning_bad_subclass_marker s.fp.filename s.read_temp.fp.line_number]
            else []) }
  else if s.temp_string = "141" then
    if (scan_lf s.fp.fp.input).1.isSome = true ∧ s.table.row_height.length ≤ s.k then
      .error .undefinedBehaviour
    else
      .ok { s.read_lf fun t v => { t with row_height := t.row_height.set s.k v } with
            k := s.k + 1 }
  else if s.temp_string = "142" then
    if (scan_lf s.fp.fp.input).1.isSome = true ∧ s.table.column_height.length ≤ s.l then
      .error .undefinedBehaviour
    else
      .ok { s.read_lf fun t v => { t with column_height := t.column_height.set s.l v } with
            l := s.l + 1 }
  else if s.temp_string = "310" then
    if s.j < s.table.binary_graphics_data.length then
      .ok { s.read_s fun t v =>
              { t with binary_graphics_data := t.binary_graphics_data.set s.j v } with
            j := s.j + 1 }
    else .error .undefinedBehaviour
  else if s.temp_string = "330" then
    .ok (s.read_s fun t v => { t with dictionary_owner_soft := v })
  else if s.temp_string = "342" then
    .ok (s.read_s fun t v => { t with tablestyle_object_pointer := v })
  else if s.temp_string = "343" then
    .ok (s.read_s fun t v => { t with owning_block_pointer := v })
  else if s.temp_string = "360" then
    .ok (s.read_s fun t v => { t with dictionary_owner_hard := v })
  else if s.temp_string = "999" then
    .ok { s.read_temp with stderr := s.stderr ++ [Diag.comment s.read_temp.temp_string] }
  else
    .ok { s with stderr := s.stderr ++
            [Diag.warning_unknown_tag s.fp.filename s.fp.line_number] }

/-- The `while (strcmp (temp_string, "0") != 0)` loop of `dxf_table_read` and the
return after it; `fuel` bounds the number of iterations. -/
def dxf_table_read_loop (G : Globals) :
    Nat → TableReader → Except Fault (ReadResult DxfTable)
  | 0, s =>
    if s.temp_string = "0" then .ok { ret := some s.table, fp := s.fp, stderr := s.stderr }
    else .error .outOfFuel
  | fuel + 1, s =>
    if s.temp_string = "0" then .ok { ret := some s.table, fp := s.fp, stderr := s.stderr }
    else if s.fp.fp.error = true then
      .ok { ret := none, fp := s.fp.fclose,
            stderr := s.stderr ++ [Diag.error_while_reading s.fp.filename s.fp.line_number] }
    else
      match dxf_table_read_tag G (dxf_table_read_block_name s) with
      | .error e => .error e
      | .ok s1 => dxf_table_read_loop G fuel s1

/-- `dxf_table_read` on a file handle that is not null, when `temp_string` points to an
empty buffer.  In the source the pointer is null; `dxf_table_read_entry` below has the
pointer as a parameter. -/
def dxf_table_read (G : Globals) (fuel : Nat) (fp : DxfFile) (table : Option DxfTable) :
    Except Fault (ReadResult DxfTable) :=
  dxf_table_read_loop G fuel
    { fp := fp.next_line.unread (scan_line fp.fp.input).2
      table := match table with
        | none => dxf_table_init G (some (dxf_table_new G))
        | some t => t
      temp_string := match (scan_line fp.fp.input).1 with
        | some t => t
        | none => ""
      i := 0
      j := 0
      k := 0
      l := 0
      stderr := match table with
        | none => [Diag.warning_null_pointer]
        | some _ => [] }

/-! ## The decoders from their entry, with the pointer `temp_string` -/

/-- `dxf_polyline_read` from its entry, on a file handle that is not null, with the local
pointer `temp_string` as a parameter: `none` is the null pointer, `some b` a buffer
that holds `b`.  The source declares `char *temp_string = NULL` and never assigns the
pointer, so the function of the source is the one with `none`.  With a null pointer
`fscanf (fp->fp, "%[^\n]", temp_string)` stores the first line through it, or, when
nothing matches, the loop condition `strcmp (temp_string, "0")` reads through it:
undefined behaviour either way, before the loop body is entered. -/
def dxf_polyline_read_entry {V : Type} (G : Globals) (fuel : Nat) (fp : DxfFile)
    (polyline : Option (DxfPolyline V)) (temp_string : Option String) :
    Except Fault (ReadResult (DxfPolyline V)) :=
  match temp_string with
  | none => .error .undefinedBehaviour
  | some buffer =>
    dxf_polyline_read_loop G fuel
      { fp := fp.next_line.unread (scan_line fp.fp.input).2
        polyline := match polyline with
          | none => dxf_polyline_init G (some dxf_polyline_new)
          | some p => p
        temp_string := match (scan_line fp.fp.input).1 with
          | some t => t
          | none => buffer
        stderr := match polyline with
          | none => [Diag.warning_null_pointer]
          | some _ => [] }

/-- `dxf_table_read` from its entry, on a file handle that is not null, with the local
pointer `temp_string` as a parameter, as for `dxf_polyline_read_entry`: the source
declares `char *temp_string = NULL` and never assigns the pointer. -/
def dxf_table_read_entry (G : Globals) (fuel : Nat) (fp : DxfFile)
    (table : Option DxfTable) (temp_string : Option String) :
    Except Fault (ReadResult DxfTable) :=
  match temp_string with
  | none => .error .undefinedBehaviour
  | some buffer =>
    dxf_table_read_loop G fuel
      { fp := fp.next_line.unread (scan_line fp.fp.input).2
        table := match table with
          | none => dxf_table_init G (some (dxf_table_new G))
          | some t => t
        temp_string := match (scan_line fp.fp.input).1 with
          | some t => t
          | none => buffer
        i := 0
        j := 0
        k := 0
        l := 0
        stderr := match table with
          | none => [Diag.warning_null_pointer]
          | some _ => [] }

/-! ## Record encoder -/

/-- What an encoder returns: its `int` result, the file, the record (which the encoder
may repair in place) and the messages printed. -/
structure WriteResult (R : Type) where
  ret : Int
  fp : DxfFile
  record : R
  stderr : List Diag

/-- The loop `while (iter != NULL) { dxf_vertex_write (fp, iter); iter = iter->next; }`
over the vertex chain.  `dxf_vertex_write` (`vertex.c` is not part of the sources) is
the parameter `vertex_write`: what one call does to the file. -/
def dxf_polyline_write_vertices {V : Type} (vertex_write : DxfFile → V → DxfFile) :
    DxfFile → List V → DxfFile
  | fp, [] => fp
  | fp, iter :: next => dxf_polyline_write_vertices vertex_write (vertex_write fp iter) next

/-- The two repairs of `dxf_polyline_write`: an empty linetype, then an empty layer,
is replaced by its default. -/
def dxf_polyline_repaired {V : Type} (G : Globals) (polyline : DxfPolyline V) :
    DxfPolyline V :=
  let polyline := if polyline.linetype = "" then
    { polyline with linetype := G.DXF_DEFAULT_LINETYPE } else polyline
  if polyline.layer = "" then { polyline with layer := G.DXF_DEFAULT_LAYER } else polyline

/-- The statements of `dxf_polyline_write` from `/* Start writing output. */` up to the
vertex loop, for declared version `v` (`fp->acad_version_number`): the tags they print,
one list per `fprintf` statement (or guarded group of them), in program order. -/
def dxf_polyline_tags {V : Type} (G : Globals) (v : Int) (polyline : DxfPolyline V) :
    List Tag :=
  [⟨0, .str "POLYLINE"⟩]
  ++ (if polyline.id_code ≠ -1 then [⟨5, .hex polyline.id_code⟩] else [])
  ++ (if polyline.dictionary_owner_soft ≠ "" ∧ v ≥ G.AutoCAD_14 then
      [⟨102, .str "\x7bACAD_REACTORS"⟩, ⟨330, .str polyline.dictionary_owner_soft⟩,
        ⟨102, .str "\x7d"⟩] else [])
  ++ (if polyline.dictionary_owner_hard ≠ "" ∧ v ≥ G.AutoCAD_14 then
      [⟨102, .str "\x7bACAD_XDICTIONARY"⟩, ⟨360, .str polyline.dictionary_owner_hard⟩,
        ⟨102, .str "\x7d"⟩] else [])
  ++ (if v ≥ G.AutoCAD_13 then [⟨100, .str "AcDbEntity"⟩] else [])
  ++ (if polyline.paperspace = G.DXF_PAPERSPACE then [⟨67, .int G.DXF_PAPERSPACE⟩] else [])
  ++ [⟨8, .str polyline.layer⟩]
  ++ (if polyline.linetype ≠ G.DXF_DEFAULT_LINETYPE then [⟨6, .str polyline.linetype⟩]
      else [])
  ++ (if v ≤ G.AutoCAD_11 ∧ G.DXF_FLATLAND ≠ 0 ∧ polyline.elevation ≠ 0 then
      [⟨38, .real polyline.elevation⟩] else [])
  ++ (if polyline.color ≠ G.DXF_COLOR_BYLAYER then [⟨62, .int polyline.color⟩] else [])
  ++ (if polyline.linetype_scale ≠ 1 then [⟨48, .real polyline.linetype_scale⟩] else [])
  ++ (if polyline.visibility ≠ 0 then [⟨60, .int polyline.visibility⟩] else [])
  ++ (if v ≥ G.AutoCAD_13 then [⟨100, .str "AcDb3dPolyline"⟩] else [])
  ++ [⟨66, .int polyline.vertices_follow⟩, ⟨10, .real polyline.x0⟩,
      ⟨20, .real polyline.y0⟩, ⟨30, .real polyline.z0⟩]
  ++ (if polyline.thickness ≠ 0 then [⟨39, .real polyline.thickness⟩] else [])
  ++ [⟨70, .int polyline.flag⟩]
  ++ (if polyline.start_width ≠ 0 then [⟨40, .real polyline.start_width⟩] else [])
  ++ (if polyline.end_width ≠ 0 then [⟨41, .real polyline.end_width⟩] else [])
  ++ [⟨71, .int polyline.polygon_mesh_M_vertex_count⟩,
      ⟨72, .int polyline.polygon_mesh_N_vertex_count⟩,
      ⟨73, .int polyline.smooth_M_surface_density⟩,
      ⟨74, .int polyline.smooth_N_surface_density⟩,
      ⟨75, .int polyline.surface_type⟩]
  ++ (if v ≥ G.AutoCAD_12 ∧ polyline.extr_x0 ≠ 0 ∧ polyline.extr_y0 ≠ 0
        ∧ polyline.extr_z0 ≠ 1 then
      [⟨210, .real polyline.extr_x0⟩, ⟨220, .real polyline.extr_y0⟩,
        ⟨230, .real polyline.extr_z0⟩] else [])

/-- `dxf_polyline_write` on a file handle and a record that are not null: the three
checks, the two repairs (each with its warning), the tags of `dxf_polyline_tags`, then
the vertices.  The call `dxf_vertex_free (iter)` after the vertex loop receives a null
pointer and is taken to do nothing. -/
def dxf_polyline_write {V : Type} (G : Globals) (vertex_write : DxfFile → V → DxfFile)
    (fp : DxfFile) (polyline : DxfPolyline V) : WriteResult (DxfPolyline V) :=
  if polyline.x0 ≠ 0 then
    { ret := EXIT_FAILURE, fp := fp, record := polyline,
      stderr := [Diag.error_invalid_x polyline.id_code] }
  else if polyline.y0 ≠ 0 then
    { ret := EXIT_FAILURE, fp := fp, record := polyline,
      stderr := [Diag.error_invalid_y polyline.id_code] }
  else if polyline.vertices_follow ≠ 1 then
    { ret := EXIT_FAILURE, fp := fp, record := polyline,
      stderr := [Diag.error_invalid_vertices_follow polyline.id_code] }
  else
    { ret := EXIT_SUCCESS
      fp := dxf_polyline_write_vertices vertex_write
        (fp.emit (dxf_polyline_tags G fp.acad_version_number (dxf_polyline_repaired G polyline)))
        (dxf_polyline_repaired G polyline).vertices
      record := dxf_polyline_repaired G polyline
      stderr :=
        (if polyline.linetype = "" then [Diag.warning_empty_linetype polyline.id_code] else [])
        ++ (if polyline.layer = "" then [Diag.warning_empty_layer polyline.id_code] else []) }

/-- Index at which the loop `while (xs[i] != NULL && strcmp (xs[i], "") != 0) i++`
stops when it starts at `i`; `none` when it runs off the end of the array. -/
def scanNonEmpty : List (Option String) → Nat → Option Nat
  | [], _ => none
  | none :: _, i => some i
  | some x :: rest, i => if x ≠ "" then scanNonEmpty rest (i + 1) else some i

/-- `dxf_table_cell_write` on a file handle and a cell that are not null: the tags it
prints, one list per `fprintf` statement or loop, in program order.  A loop that runs
off the end of its array is undefined behaviour. -/
def dxf_table_cell_write (fp : DxfFile) (cell : DxfTableCell) :
    Except Fault (WriteResult DxfTableCell) :=
  match scanNonEmpty cell.optional_text_string 0, scanNonEmpty cell.attdef_soft_pointer 0 with
  | some n, some i =>
    .ok {
      ret := EXIT_SUCCESS
      fp := fp.emit (
        [⟨171, .int cell.type⟩, ⟨172, .int cell.flag⟩, ⟨173, .int cell.merged⟩,
          ⟨174, .int cell.autofit⟩, ⟨175, .real cell.border_width⟩,
          ⟨176, .real cell.border_height⟩, ⟨91, .int cell.override_flag⟩,
          ⟨178, .int cell.virtual_edge⟩, ⟨145, .real cell.block_rotation⟩,
          ⟨344, .str cell.field_object_pointer⟩]
        ++ (cell.optional_text_string.take n).map (fun x => ⟨2, .str (x.getD "")⟩)
        ++ [⟨1, .str cell.text_string⟩, ⟨340, .str cell.block_table_record_hard_pointer⟩,
          ⟨144, .real cell.block_scale⟩, ⟨179, .int cell.number_of_block_attdefs⟩]
        ++ (cell.attdef_soft_pointer.take i).map (fun x => ⟨331, .str (x.getD "")⟩))
      record := cell
      stderr :=
        if cell.number_of_block_attdefs < (i : Int) + 1 then [Diag.warning_more_attdefs]
        else if cell.number_of_block_attdefs > (i : Int) + 1 then [Diag.warning_less_attdefs]
        else [] }
  | _, _ => .error .undefinedBehaviour

/-- The tags of `for (i = 0; i < n; i++) fprintf (fp->fp, "<code>\n%f\n", xs[i])`;
`none` when the loop reads beyond the end of the array. -/
def writeArray (code : Nat) (xs : List Rat) (n : Int) : Option (List Tag) :=
  if n.toNat ≤ xs.length then some ((xs.take n.toNat).map fun x => ⟨code, .real x⟩)
  else none

/-- Index at which `while (strlen (xs[i]) > 0) i++` stops when it starts at `i`; `none`
when it runs off the end of the array. -/
def scanStrlen : List String → Nat → Option Nat
  | [], _ => none
  | x :: rest, i => if x.length > 0 then scanStrlen rest (i + 1) else some i

/-- `dxf_table_write` on a file handle and a table that are not null: the tags it
prints, one list per `fprintf` statement or loop, in program order.  A loop that runs
off the end of its array is undefined behaviour. -/
def dxf_table_write (G : Globals) (fp : DxfFile) (table : DxfTable) :
    Except Fault (WriteResult DxfTable) :=
  match scanStrlen table.binary_graphics_data 0,
      writeArray 141 table.row_height table.number_of_rows,
      writeArray 142 table.column_height table.number_of_columns with
  | some n, some rows, some columns =>
    .ok {
      ret := EXIT_SUCCESS
      fp := fp.emit (
        [⟨0, .str "ACAD_TABLE"⟩]
        ++ (if table.id_code ≠ -1 then [⟨5, .hex table.id_code⟩] else [])
        ++ [⟨330, .str table.dictionary_owner_soft⟩]
        ++ (if fp.acad_version_number ≥ G.AutoCAD_13 then [⟨100, .str "AcDbEntity"⟩] else [])
        ++ [⟨92, .int table.graphics_data_size⟩]
        ++ (table.binary_graphics_data.take n).map (fun x => ⟨310, .str x⟩)
        ++ (if fp.acad_version_number ≥ G.AutoCAD_13 then
            [⟨100, .str "AcDbBlockReference"⟩] else [])
        ++ [⟨2, .str table.block_name⟩, ⟨10, .real table.x0⟩, ⟨20, .real table.y0⟩,
          ⟨30, .real table.z0⟩]
        ++ (if fp.acad_version_number ≥ G.AutoCAD_13 then [⟨100, .str "AcDbTable"⟩] else [])
        ++ [⟨280, .int table.table_data_version⟩,
          ⟨342, .str table.tablestyle_object_pointer⟩,
          ⟨343, .str table.owning_block_pointer⟩,
          ⟨11, .real table.x1⟩, ⟨21, .real table.y1⟩, ⟨31, .real table.z1⟩,
          ⟨90, .int table.table_value_flag⟩, ⟨91, .int table.number_of_rows⟩,
          ⟨92, .int table.number_of_columns⟩, ⟨93, .int table.override_flag⟩,
          ⟨94, .int table.border_color_override_flag⟩,
          ⟨95, .int table.border_lineweight_override_flag⟩,
          ⟨96, .int table.border_visibility_override_flag⟩]
        ++ rows ++ columns)
      record := table
      stderr := [] }
  | _, _, _ => .error .undefinedBehaviour

/-! ## The text of the encoder's output -/

/-- A group code as the format strings print it: right-aligned in three columns. -/
def renderCode (code : Nat) : List Char :=
  List.replicate (3 - (Nat.toDigits 10 code).length) ' ' ++ Nat.toDigits 10 code

/-- Conversion `%d`. -/
def renderInt (i : Int) : List Char :=
  if i < 0 then '-' :: Nat.toDigits 10 i.natAbs else Nat.toDigits 10 i.natAbs

/-- Conversion `%x` of an `int`: the digits of its 32-bit pattern. -/
def renderHex (i : Int) : List Char :=
  Nat.toDigits 16 (i % 4294967296).toNat

/-- The integer nearest to `q`, ties to even. -/
def roundHalfEven (q : Rat) : Int :=
  if q - (⌊q⌋ : Rat) < 1 / 2 then ⌊q⌋
  else if q - (⌊q⌋ : Rat) > 1 / 2 then ⌊q⌋ + 1
  else if ⌊q⌋ % 2 = 0 then ⌊q⌋ else ⌊q⌋ + 1

/-- Conversion `%f`: six digits after the point. -/
def renderReal (q : Rat) : List Char :=
  let n : Nat := (roundHalfEven (|q| * 1000000)).toNat
  let frac := Nat.toDigits 10 (n % 1000000)
  (if q < 0 then ['-'] else []) ++ Nat.toDigits 10 (n / 1000000) ++ ['.']
    ++ List.replicate (6 - frac.length) '0' ++ frac

/-- The text of a value. -/
def Value.render : Value → List Char
  | .str s => s.data
  | .int i => renderInt i
  | .hex i => renderHex i
  | .real q => renderReal q

/-- The text of one tag: the group code on one line, the value on the next. -/
def Tag.render (t : Tag) : List Char :=
  renderCode t.code ++ '\n' :: (t.value.render ++ ['\n'])

/-- The text of a sequence of tags. -/
def renderTags : List Tag → List Char
  | [] => []
  | t :: ts => t.render ++ renderTags ts

/-! ## Concrete inputs -/

/-- An input file holding `text`, with no output yet, at declared version `v`. -/
def inputFile (text : String) (v : Int) : DxfFile where
  fp := { input := text.data, output := [], error := false, closed := false }
  filename := "in.dxf"
  line_number := 0
  acad_version_number := v

/-- An empty output file at declared version `v`. -/
def outputFile (v : Int) : DxfFile := inputFile "" v

/-- A vertex encoder for polylines whose vertices are of type `Unit`: one code-0 tag
per vertex. -/
def unitVertexWrite (fp : DxfFile) (_ : Unit) : DxfFile :=
  fp.fprintf 0 (.str "VERTEX")

/-- A default-initialised polyline without vertices. -/
def polyline0 : DxfPolyline Unit := dxf_polyline_init stdGlobals none

/-- A default-initialised table. -/
def table0 : DxfTable := dxf_table_init stdGlobals none

/-- A default-initialised cell. -/
def cell0 : DxfTableCell := dxf_table_cell_init stdGlobals none

/-- Two polylines at addresses 1 and 2, the first linked to the second. -/
def twoPolylines : Heap (DxfPolyline Unit) :=
  [(1, { polyline0 with next := some 2 }), (2, polyline0)]

/-- Two cells at addresses 1 and 2, the first linked to the second. -/
def twoCells : Heap DxfTableCell :=
  [(1, { cell0 with next := some 2 }), (2, cell0)]

/-- Two tables at addresses 1 and 2, the first linked to the second. -/
def twoTables : Heap DxfTable :=
  [(1, { table0 with next := some 2 }), (2, table0)]

/-! ## What the decoding loops test -/

/-- The two things the loop of `dxf_polyline_read` tests before it runs its chain:
the text in `temp_string` and the error indicator of the stream. -/
def PolylineReader.tested {V : Type} (s : PolylineReader V) : String × Bool :=
  (s.temp_string, s.fp.fp.error)

/-- The two things the loop of `dxf_table_read` tests before it runs its chain. -/
def TableReader.tested (s : TableReader) : String × Bool :=
  (s.temp_string, s.fp.fp.error)

/-! ## More concrete inputs -/

/-- A default-initialised polyline whose layer and linetype were emptied. -/
def polylineBlank : DxfPolyline Unit :=
  { polyline0 with layer := "", linetype := "" }

/-- A default-initialised polyline with both ownership handles set. -/
def polylineOwned : DxfPolyline Unit :=
  { polyline0 with dictionary_owner_soft := "1F", dictionary_owner_hard := "2A" }

/-- A default-initialised polyline with the extrusion vector set to the unit Z axis. -/
def polylineDefaults : DxfPolyline Unit :=
  { polyline0 with extr_z0 := 1 }

/-- A default-initialised table with an owner handle. -/
def tableOwned : DxfTable :=
  { table0 with dictionary_owner_soft := "1F" }

/-- The text a decoder is given when it reads back what an encoder printed: the tags
after the leading type announcement, followed by the code-0 tag of the next entity,
from the first character of the first group code on. -/
def roundTripInput (tags : List Tag) : String :=
  String.mk (skipSpace (renderTags tags.tail ++ "  0\nSEQEND\n".data))

/-- The decoder of `dxf_polyline_read` about to run its chain on a code-74 tag whose
value is 5, with a default-initialised record. -/
def polylineReader74 : PolylineReader Unit where
  fp := inputFile "5\n" 12
  polyline := polyline0
  temp_string := "74"
  stderr := []

/-- The decoder of `dxf_table_read` when it enters its loop on the text of two code-92
tags with the values 7 and 3, followed by the code-0 tag of the next entity. -/
def tableReader92 : TableReader where
  fp := (inputFile "92\n7\n 92\n3\n  0\nENDTAB\n" 13).next_line.unread "\n7\n 92\n3\n  0\nENDTAB\n".data
  table := table0
  temp_string := "92"
  i := 0
  j := 0
  k := 0
  l := 0
  stderr := []

/-! ## Concrete inputs for the encoders -/

/-- A default-initialised polyline with the extrusion vector (1, 1, 1). -/
def polylineTilted : DxfPolyline Unit :=
  { polyline0 with extr_x0 := 1, extr_y0 := 1, extr_z0 := 1 }

/-- A vertex encoder for polylines whose vertices are numbers: the type announcement
and the number as handle. -/
def natVertexTags (_ : Int) (n : Nat) : List Tag :=
  [⟨0, .str "VERTEX"⟩, ⟨5, .hex n⟩]

/-- The effect of the encoder `natVertexTags` on a file. -/
def natVertexWrite (fp : DxfFile) (n : Nat) : DxfFile :=
  fp.emit (natVertexTags fp.acad_version_number n)

/-- A default-initialised polyline with a chain of three vertices. -/
def polylineChain : DxfPolyline Nat :=
  { (dxf_polyline_init stdGlobals none : DxfPolyline Nat) with vertices := [1, 2, 3] }

/-- The group codes of a polyline in their canonical order. -/
def polylineCanonicalCodes : List Nat :=
  [0, 5, 102, 330, 102, 102, 360, 102, 100, 67, 8, 6, 38, 62, 48, 60, 100, 66, 10, 20, 30,
    39, 70, 40, 41, 71, 72, 73, 74, 75, 210, 220, 230]

/-- A default-initialised table whose cell chain starts at address 1. -/
def tableWithCell : DxfTable :=
  { table0 with cells := some 1 }

/-- A default-initialised table with two rows and one column. -/
def tableTwoRows : DxfTable :=
  { table0 with number_of_rows := 2, number_of_columns := 1,
                row_height := [3, 4, 0, 0], column_height := [7, 0, 0, 0] }

/-- A default-initialised table that declares one row more than the array holds. -/
def tableTooManyRows : DxfTable :=
  { table0 with number_of_rows := 5 }

/-- A default-initialised table whose binary-graphics chunks are all in use. -/
def tableFullGraphics : DxfTable :=
  { table0 with binary_graphics_data := ["AB", "CD", "EF", "01"] }

/-- A default-initialised cell whose continuation chunks are all in use. -/
def cellFullText : DxfTableCell :=
  { cell0 with optional_text_string := [some "a", some "b", some "c", some "d"] }

/-- A default-initialised cell that declares one attribute definition and has no
handle. -/
def cellOneDeclared : DxfTableCell :=
  { cell0 with number_of_block_attdefs := 1 }

/-- A default-initialised cell with one continuation chunk and a primary text. -/
def cellLongText : DxfTableCell :=
  { cell0 with optional_text_string := [some "part", some "", some "", some ""],
               text_string := "rest" }

/-! ## Concrete inputs for the table decoder -/

/-- The decoder of `dxf_table_read` when it enters its loop on the text of two code-141
tags with the values 1 and 2, followed by the code-0 tag of the next entity. -/
def tableReader141 : TableReader where
  fp := (inputFile "141\n1\n141\n2\n  0\nENDTAB\n" 13).next_line.unread
    "\n1\n141\n2\n  0\nENDTAB\n".data
  table := table0
  temp_string := "141"
  i := 0
  j := 0
  k := 0
  l := 0
  stderr := []

/-- The decoder of `dxf_table_read` about to run its chain on a tag with group code
`code` and value 5, when the three arrays of a default-initialised table (four elements
each) have been filled. -/
def tableReaderFull (code : String) : TableReader where
  fp := inputFile "5\n" 13
  table := table0
  temp_string := code
  i := 0
  j := 4
  k := 4
  l := 4
  stderr := []

/-! ## Accessors of the polyline record -/

/-- Outcome of a setter: the pointer it returns (`none` for `NULL`), the record as it
is in memory after the call, and what went to `stderr`. -/
structure SetResult (R : Type) where
  ret : Option R
  record : R
  stderr : List Diag

/-- Outcome of a getter of an integer member: the value it returns and what went to
`stderr`. -/
structure GetResult where
  ret : Int
  stderr : List Diag
  deriving DecidableEq

/-- `dxf_polyline_get_visibility` on a polyline that is not null. -/
def dxf_polyline_get_visibility {V : Type} (polyline : DxfPolyline V) : GetResult :=
  if polyline.visibility < 0 then
    { ret := EXIT_FAILURE
      stderr := [Diag.error_in "dxf_polyline_get_visibility"
        "a negative value was found in the visibility member."] }
  else if polyline.visibility > 1 then
    { ret := EXIT_FAILURE
      stderr := [Diag.error_in "dxf_polyline_get_visibility"
        "an out of range value was found in the visibility member."] }
  else
    { ret := polyline.visibility, stderr := [] }

/-- `dxf_polyline_set_visibility` on a polyline that is not null. -/
def dxf_polyline_set_visibility {V : Type} (polyline : DxfPolyline V) (visibility : Int) :
    SetResult (DxfPolyline V) :=
  if visibility < 0 then
    { ret := none, record := polyline
      stderr := [Diag.error_in "dxf_polyline_set_visibility"
        "a negative visibility value was passed."] }
  else if visibility > 1 then
    { ret := none, record := polyline
      stderr := [Diag.error_in "dxf_polyline_set_visibility"
        "an out of range visibility value was passed."] }
  else
    { ret := some { polyline with visibility := visibility }
      record := { polyline with visibility := visibility }
      stderr := [] }

/-- `dxf_polyline_set_paperspace` on a polyline that is not null. -/
def dxf_polyline_set_paperspace {V : Type} (polyline : DxfPolyline V) (paperspace : Int) :
    SetResult (DxfPolyline V) :=
  if paperspace < 0 then
    { ret := none, record := polyline
      stderr := [Diag.error_in "dxf_polyline_set_paperspace"
        "a negative paperspace value was passed."] }
  else if paperspace > 1 then
    { ret := none, record := polyline
      stderr := [Diag.error_in "dxf_polyline_set_paperspace"
        "an out of range paperspace value was passed."] }
  else
    { ret := some { polyline with paperspace := paperspace }
      record := { polyline with paperspace := paperspace }
      stderr := [] }

/-! ## Concrete inputs for single tags of the polyline decoder -/

/-- The decoder of `dxf_polyline_read` about to run its chain on a tag with group code
`code` whose value line is `value`, at declared version `v`, with a default-initialised
record. -/
def polylineReaderAt (code value : String) (v : Int) : PolylineReader Unit where
  fp := inputFile (value ++ "\n") v
  polyline := polyline0
  temp_string := code
  stderr := []

/-- The text of a POLYLINE that opens with a tag of group code 7, which the polyline
decoder does not handle, followed by the layer tag and the code-0 tag of the next
entity. -/
def unknownTagInput : DxfFile := inputFile "7\nSTANDARD\n  8\nWALLS\n  0\nSEQEND\n" 14

/-- A file handle whose stream has its error indicator set. -/
def failedFile (text : String) (v : Int) : DxfFile :=
  { inputFile text v with
    fp := { input := text.data, output := [], error := true, closed := false } }

/-- The group codes that have a branch of their own in the chain of `dxf_polyline_read`
whatever the declared version and the record. -/
def dxf_polyline_read_codes : List String :=
  ["5", "6", "8", "10", "20", "30", "39", "40", "41", "48", "60", "62", "66", "67", "70",
   "71", "72", "73", "74", "75", "210", "220", "230", "330", "360", "999"]

/-! ## Accessors of the anchor point -/

/-- Outcome of a getter of a `double` member: the value it returns and what went to
`stderr`. -/
structure GetRealResult where
  ret : Rat
  stderr : List Diag
  deriving DecidableEq

/-- `dxf_polyline_get_x0` on a polyline that is not null: the X-value of the point that
`p0` refers to. -/
def dxf_polyline_get_x0 {V : Type} (polyline : DxfPolyline V) : GetRealResult :=
  match polyline.p0 with
  | none =>
    { ret := EXIT_FAILURE
      stderr := [Diag.error_in "dxf_polyline_get_x0" "a NULL pointer was passed."] }
  | some p0 => { ret := p0.x0, stderr := [] }

/-- `dxf_polyline_set_x0` on a polyline that is not null: the assignment
`polyline->p0->x0 = x0`. -/
def dxf_polyline_set_x0 {V : Type} (polyline : DxfPolyline V) (x0 : Rat) :
    SetResult (DxfPolyline V) :=
  match polyline.p0 with
  | none =>
    { ret := none, record := polyline
      stderr := [Diag.error_in "dxf_polyline_set_x0" "a NULL pointer was passed."] }
  | some p0 =>
    { ret := some { polyline with p0 := some { p0 with x0 := x0 } }
      record := { polyline with p0 := some { p0 with x0 := x0 } }
      stderr := [] }

/-! ## Concrete inputs for the last claims -/

/-- A default-initialised polyline to which a point at the origin was attached as
`p0`. -/
def polylineAnchored : DxfPolyline Unit :=
  { polyline0 with p0 := some { x0 := 0, y0 := 0, z0 := 0 } }

/-- The decoder of `dxf_table_read` about to run the body of its loop on a tag with
group code `code` whose value line is `value`, at declared version `v`, with a
default-initialised table. -/
def tableReaderAt (code value : String) (v : Int) : TableReader where
  fp := inputFile (value ++ "\n") v
  table := table0
  temp_string := code
  i := 0
  j := 0
  k := 0
  l := 0
  stderr := []

/-- A zero-filled table in which the member `table_data_version` holds 7. -/
def tableStale : DxfTable :=
  { dxf_table_new stdGlobals with table_data_version := 7 }

/-! # Theorems -/

/-! ## Decoder: the loop does not read the next group code -/

/-- A property of both branches of a conditional is a property of the conditional. -/
theorem pred_ite {α : Type} (P : α → Prop) {c : Prop} [Decidable c] {a b : α}
    (ha : c → P a) (hb : ¬c → P b) : P (if c then a else b) := by
  by_cases h : c
  · rw [if_pos h]; exact ha h
  · rw [if_neg h]; exact hb h

/-- Unless `temp_string` is `"100"` or `"999"`, the chain of `dxf_polyline_read` leaves
`temp_string` and the error indicator as they were: no branch reads a group code. -/
theorem polyline_read_tag_tested {V : Type} (G : Globals) (s : PolylineReader V)
    (h100 : s.temp_string ≠ "100") (h999 : s.temp_string ≠ "999") :
    (dxf_polyline_read_tag G s).tested = s.tested := by
  unfold dxf_polyline_read_tag
  repeat' (apply pred_ite (fun r : PolylineReader V => r.tested = s.tested) <;> intro _)
  all_goals first
    | rfl
    | (exfalso; simp_all)

/-- Entered with a `temp_string` other than `"0"`, `"100"` and `"999"` and a clear error
indicator, the loop of `dxf_polyline_read` is still running after any number of
iterations. -/
theorem polyline_read_loop_stuck {V : Type} (G : Globals) (fuel : Nat) :
    ∀ s : PolylineReader V, s.temp_string ≠ "0" → s.temp_string ≠ "100" →
      s.temp_string ≠ "999" → s.fp.fp.error = false →
      dxf_polyline_read_loop G fuel s = .error .outOfFuel := by
  induction fuel with
  | zero =>
    intro s h0 _ _ _
    simp [dxf_polyline_read_loop, h0]
  | succ n ih =>
    intro s h0 h100 h999 he
    have hk := polyline_read_tag_tested G s h100 h999
    simp only [PolylineReader.tested, Prod.mk.injEq] at hk
    simp only [dxf_polyline_read_loop, h0, he, if_false]
    apply ih
    · rw [hk.1]; exact h0
    · rw [hk.1]; exact h100
    · rw [hk.1]; exact h999
    · rw [hk.2]; exact he

/-- The block-name statement of `dxf_table_read` leaves `temp_string` and the error
indicator as they were. -/
theorem table_read_block_name_tested (s : TableReader) :
    (dxf_table_read_block_name s).tested = s.tested := by
  unfold dxf_table_read_block_name
  split_ifs <;> rfl

/-- Unless `temp_string` is `"100"`, `"999"` or the code of an array element, the chain
of `dxf_table_read` succeeds and leaves `temp_string` and the error indicator as they
were. -/
theorem table_read_tag_tested (G : Globals) (s : TableReader)
    (h100 : s.temp_string ≠ "100") (h999 : s.temp_string ≠ "999")
    (h141 : s.temp_string ≠ "141") (h142 : s.temp_string ≠ "142")
    (h310 : s.temp_string ≠ "310") :
    ∃ s1, dxf_table_read_tag G s = .ok s1 ∧ s1.tested = s.tested := by
  unfold dxf_table_read_tag
  repeat' (
    apply pred_ite (fun r : Except Fault TableReader => ∃ s1, r = .ok s1 ∧ s1.tested = s.tested)
      <;> intro _)
  all_goals first
    | exact ⟨_, rfl, rfl⟩
    | (exfalso; simp_all)

/-- Entered with a `temp_string` other than `"0"`, `"100"`, `"999"`, `"141"`, `"142"` and
`"310"` and a clear error indicator, the loop of `dxf_table_read` is still running
after any number of iterations. -/
theorem table_read_loop_stuck (G : Globals) (fuel : Nat) :
    ∀ s : TableReader, s.temp_string ≠ "0" → s.temp_string ≠ "100" →
      s.temp_string ≠ "999" → s.temp_string ≠ "141" → s.temp_string ≠ "142" →
      s.temp_string ≠ "310" → s.fp.fp.error = false →
      dxf_table_read_loop G fuel s = .error .outOfFuel := by
  induction fuel with
  | zero =>
    intro s h0 _ _ _ _ _ _
    simp [dxf_table_read_loop, h0]
  | succ n ih =>
    intro s h0 h100 h999 h141 h142 h310 he
    have hb := table_read_block_name_tested s
    simp only [TableReader.tested, Prod.mk.injEq] at hb
    obtain ⟨s1, hs1, ht⟩ := table_read_tag_tested G (dxf_table_read_block_name s)
      (by rw [hb.1]; exact h100) (by rw [hb.1]; exact h999) (by rw [hb.1]; exact h141)
      (by rw [hb.1]; exact h142) (by rw [hb.1]; exact h310)
    simp only [TableReader.tested, Prod.mk.injEq] at ht
    simp only [dxf_table_read_loop, h0, he, if_false, hs1]
    apply ih
    · rw [ht.1, hb.1]; exact h0
    · rw [ht.1, hb.1]; exact h100
    · rw [ht.1, hb.1]; exact h999
    · rw [ht.1, hb.1]; exact h141
    · rw [ht.1, hb.1]; exact h142
    · rw [ht.1, hb.1]; exact h310
    · rw [ht.2, hb.2]; exact he

/-! ## Chain manager -/

/-- C2. Free-one on a node whose successor reference is not null: `dxf_polyline_free`,
`dxf_table_free` and `dxf_table_cell_free` each return `EXIT_FAILURE` and leave the heap
as it was, so the node and all its fields are unmodified and nothing is released. -/
theorem free_one_refuses_linked_node {V : Type}
    (hp : Heap (DxfPolyline V)) (ht : Heap DxfTable) (hc : Heap DxfTableCell)
    (a b c : Nat) (polyline : DxfPolyline V) (table : DxfTable) (cell : DxfTableCell)
    (h1 : hp.deref a = some polyline) (n1 : polyline.next ≠ none)
    (h2 : ht.deref b = some table) (n2 : table.next ≠ none)
    (h3 : hc.deref c = some cell) (n3 : cell.next ≠ none) :
    dxf_polyline_free hp (some a) = .ok (EXIT_FAILURE, hp)
    ∧ dxf_table_free ht (some b) = .ok (EXIT_FAILURE, ht)
    ∧ dxf_table_cell_free hc (some c) = .ok (EXIT_FAILURE, hc) := by
  refine ⟨?_, ?_, ?_⟩
  · simp [dxf_polyline_free, h1, n1]
  · simp [dxf_table_free, h2, n2]
  · simp [dxf_table_cell_free, h3, n3]

/-- The three refusals on the heads of two-node chains. -/
theorem free_one_refuses_linked_node_witness :
    dxf_polyline_free twoPolylines (some 1) = .ok (EXIT_FAILURE, twoPolylines)
    ∧ dxf_table_free twoTables (some 1) = .ok (EXIT_FAILURE, twoTables)
    ∧ dxf_table_cell_free twoCells (some 1) = .ok (EXIT_FAILURE, twoCells) :=
  free_one_refuses_linked_node twoPolylines twoTables twoCells 1 1 1
    { polyline0 with next := some 2 } { table0 with next := some 2 }
    { cell0 with next := some 2 } rfl (by decide) rfl (by decide) rfl (by decide)

/-- C1. The free-chain operations on a chain of two nodes (head at address 1, tail at
address 2), with any step budget that lets the loop finish: the call of free-one on
the head returns `EXIT_FAILURE`, because its `next` is still set, and only the tail is
deallocated.  One deallocation takes place, not two, and the head stays allocated.
This holds for `dxf_polyline_free_chain` and for `dxf_table_cell_free_list`. -/
theorem free_chain_frees_only_the_tail :
    (∀ fuel, dxf_polyline_free_chain (fuel + 2) twoPolylines (some 1)
      = .ok ([(1, { polyline0 with next := some 2 })], [EXIT_FAILURE, EXIT_SUCCESS]))
    ∧ (∀ fuel, dxf_table_cell_free_list (fuel + 2) twoCells (some 1)
      = .ok ([(1, { cell0 with next := some 2 })], [EXIT_FAILURE, EXIT_SUCCESS])) := by
  constructor
  · intro fuel
    cases fuel <;> rfl
  · intro fuel
    cases fuel <;> rfl

/-! ## Encoder: lemmas -/

/-- Filtering a list that is present under a condition. -/
theorem filter_ite_nil {α : Type} (q : α → Bool) (c : Prop) [Decidable c] (l : List α) :
    (if c then l else []).filter q = if c then l.filter q else [] := by
  split <;> simp

/-- Filtering a list that is absent under a condition. -/
theorem filter_nil_ite {α : Type} (q : α → Bool) (c : Prop) [Decidable c] (l : List α) :
    (if c then [] else l).filter q = if c then [] else l.filter q := by
  split <;> simp

/-- The repairs of `dxf_polyline_write` touch the linetype and the layer only. -/
theorem polyline_repaired_fields {V : Type} (G : Globals) (p : DxfPolyline V) :
    (dxf_polyline_repaired G p).id_code = p.id_code
    ∧ (dxf_polyline_repaired G p).color = p.color
    ∧ (dxf_polyline_repaired G p).paperspace = p.paperspace
    ∧ (dxf_polyline_repaired G p).visibility = p.visibility
    ∧ (dxf_polyline_repaired G p).thickness = p.thickness
    ∧ (dxf_polyline_repaired G p).linetype_scale = p.linetype_scale
    ∧ (dxf_polyline_repaired G p).start_width = p.start_width
    ∧ (dxf_polyline_repaired G p).end_width = p.end_width
    ∧ (dxf_polyline_repaired G p).extr_x0 = p.extr_x0
    ∧ (dxf_polyline_repaired G p).dictionary_owner_soft = p.dictionary_owner_soft
    ∧ (dxf_polyline_repaired G p).dictionary_owner_hard = p.dictionary_owner_hard
    ∧ (dxf_polyline_repaired G p).vertices = p.vertices := by
  unfold dxf_polyline_repaired
  by_cases h1 : p.linetype = "" <;> by_cases h2 : p.layer = "" <;> simp [h1, h2]

/-- The linetype after the repairs. -/
theorem polyline_repaired_linetype {V : Type} (G : Globals) (p : DxfPolyline V) :
    (dxf_polyline_repaired G p).linetype
      = if p.linetype = "" then G.DXF_DEFAULT_LINETYPE else p.linetype := by
  unfold dxf_polyline_repaired
  by_cases h1 : p.linetype = "" <;> by_cases h2 : p.layer = "" <;> simp [h1, h2]

/-- The layer after the repairs. -/
theorem polyline_repaired_layer {V : Type} (G : Globals) (p : DxfPolyline V) :
    (dxf_polyline_repaired G p).layer
      = if p.layer = "" then G.DXF_DEFAULT_LAYER else p.layer := by
  unfold dxf_polyline_repaired
  by_cases h1 : p.linetype = "" <;> by_cases h2 : p.layer = "" <;> simp [h1, h2]

/-- What `dxf_polyline_write` does with a record that passes its three checks. -/
theorem polyline_write_accepted {V : Type} (G : Globals) (vw : DxfFile → V → DxfFile)
    (fp : DxfFile) (p : DxfPolyline V)
    (hx : p.x0 = 0) (hy : p.y0 = 0) (hv : p.vertices_follow = 1) :
    (dxf_polyline_write G vw fp p).ret = EXIT_SUCCESS
    ∧ (dxf_polyline_write G vw fp p).record = dxf_polyline_repaired G p
    ∧ (dxf_polyline_write G vw fp p).fp = dxf_polyline_write_vertices vw
        (fp.emit (dxf_polyline_tags G fp.acad_version_number (dxf_polyline_repaired G p)))
        p.vertices := by
  have hvs := (polyline_repaired_fields G p).2.2.2.2.2.2.2.2.2.2.2
  unfold dxf_polyline_write
  rw [if_neg (by simp [hx]), if_neg (by simp [hy]), if_neg (by simp [hv])]
  simp only [hvs, and_self]

/-! ## Encoder: claims -/

/-- C6. A polyline whose anchor `x0` is not 0, or whose `y0` is not 0, or whose
`vertices_follow` is not 1, is refused by `dxf_polyline_write`: it returns
`EXIT_FAILURE`, the file is as before (no tag was printed), and the record is as before
(layer and linetype included). -/
theorem polyline_write_refuses_invalid {V : Type} (G : Globals)
    (vw : DxfFile → V → DxfFile) (fp : DxfFile) (p : DxfPolyline V)
    (h : p.x0 ≠ 0 ∨ p.y0 ≠ 0 ∨ p.vertices_follow ≠ 1) :
    (dxf_polyline_write G vw fp p).ret = EXIT_FAILURE
    ∧ (dxf_polyline_write G vw fp p).fp = fp
    ∧ (dxf_polyline_write G vw fp p).record = p := by
  unfold dxf_polyline_write
  by_cases hx : p.x0 ≠ 0
  · rw [if_pos hx]; exact ⟨rfl, rfl, rfl⟩
  · rw [if_neg hx]
    by_cases hy : p.y0 ≠ 0
    · rw [if_pos hy]; exact ⟨rfl, rfl, rfl⟩
    · rw [if_neg hy]
      have hv : p.vertices_follow ≠ 1 := by
        rcases h with h | h | h
        · exact absurd h hx
        · exact absurd h hy
        · exact h
      rw [if_pos hv]; exact ⟨rfl, rfl, rfl⟩

/-- A default-initialised polyline with `x0 = 2` is refused. -/
theorem polyline_write_refuses_invalid_witness :
    (2 : Rat) ≠ 0
    ∧ (dxf_polyline_write stdGlobals unitVertexWrite (outputFile 12)
        { polyline0 with x0 := 2 }).ret = EXIT_FAILURE
    ∧ (dxf_polyline_write stdGlobals unitVertexWrite (outputFile 12)
        { polyline0 with x0 := 2 }).fp = outputFile 12
    ∧ (dxf_polyline_write stdGlobals unitVertexWrite (outputFile 12)
        { polyline0 with x0 := 2 }).record = { polyline0 with x0 := 2 } :=
  ⟨by norm_num, polyline_write_refuses_invalid stdGlobals unitVertexWrite (outputFile 12)
    { polyline0 with x0 := 2 } (Or.inl (by norm_num))⟩

/-- C7. A polyline that passes the three checks (`x0 = 0`, `y0 = 0`,
`vertices_follow = 1`): `dxf_polyline_write` returns `EXIT_SUCCESS`, and what it printed
is the tags of `dxf_polyline_tags` for the returned record followed by what the vertex
encoder prints for the vertex chain.  If the layer was empty, the record's layer is now
the default layer name and the polyline's only code-8 tag carries that default; if the
linetype was empty, the record's linetype is now the default linetype name. -/
theorem polyline_write_repairs_empty_names {V : Type} (G : Globals)
    (vw : DxfFile → V → DxfFile) (fp : DxfFile) (p : DxfPolyline V)
    (hx : p.x0 = 0) (hy : p.y0 = 0) (hv : p.vertices_follow = 1) :
    (dxf_polyline_write G vw fp p).ret = EXIT_SUCCESS
    ∧ (dxf_polyline_write G vw fp p).fp = dxf_polyline_write_vertices vw
        (fp.emit (dxf_polyline_tags G fp.acad_version_number
          (dxf_polyline_write G vw fp p).record)) p.vertices
    ∧ (p.layer = "" →
        (dxf_polyline_write G vw fp p).record.layer = G.DXF_DEFAULT_LAYER
        ∧ (dxf_polyline_tags G fp.acad_version_number
            (dxf_polyline_write G vw fp p).record).filter (fun t => t.code = 8)
          = [⟨8, .str G.DXF_DEFAULT_LAYER⟩])
    ∧ (p.linetype = "" →
        (dxf_polyline_write G vw fp p).record.linetype = G.DXF_DEFAULT_LINETYPE) := by
  obtain ⟨h1, h2, h3⟩ := polyline_write_accepted G vw fp p hx hy hv
  refine ⟨h1, ?_, ?_, ?_⟩
  · rw [h3, h2]
  · intro hl
    have hlay : (dxf_polyline_repaired G p).layer = G.DXF_DEFAULT_LAYER := by
      rw [polyline_repaired_layer, if_pos hl]
    rw [h2]
    refine ⟨hlay, ?_⟩
    simp [dxf_polyline_tags, List.filter_append, filter_ite_nil, filter_nil_ite, hlay]
  · intro hl
    rw [h2, polyline_repaired_linetype, if_pos hl]
/-- The repair of a polyline whose layer and linetype are empty. -/
theorem polyline_write_repairs_empty_names_witness :
    polylineBlank.x0 = 0 ∧ polylineBlank.y0 = 0 ∧ polylineBlank.vertices_follow = 1
    ∧ (dxf_polyline_write stdGlobals unitVertexWrite (outputFile 12) polylineBlank).ret
        = EXIT_SUCCESS
    ∧ (polylineBlank.layer = "" →
        (dxf_polyline_write stdGlobals unitVertexWrite (outputFile 12)
          polylineBlank).record.layer = stdGlobals.DXF_DEFAULT_LAYER
        ∧ (dxf_polyline_tags stdGlobals (outputFile 12).acad_version_number
            (dxf_polyline_write stdGlobals unitVertexWrite (outputFile 12)
              polylineBlank).record).filter (fun t => t.code = 8)
          = [⟨8, .str stdGlobals.DXF_DEFAULT_LAYER⟩]) :=
  ⟨rfl, rfl, rfl,
    (polyline_write_repairs_empty_names stdGlobals unitVertexWrite (outputFile 12)
      polylineBlank rfl rfl rfl).1,
    (polyline_write_repairs_empty_names stdGlobals unitVertexWrite (outputFile 12)
      polylineBlank rfl rfl rfl).2.2.1⟩

/-- No element of a list passes a filter that leaves nothing. -/
theorem mem_filter_nil {α : Type} (q : α → Bool) (l : List α) (h : l.filter q = []) :
    ∀ t ∈ l, q t = false := by
  intro t ht
  by_contra hq
  have : t ∈ l.filter q := List.mem_filter.mpr ⟨ht, by simpa using hq⟩
  rw [h] at this
  exact absurd this (List.not_mem_nil t)

/-- C8. A polyline that passes the three checks of `dxf_polyline_write`, with `v` the
declared version of the file.  What is printed is the tags of `dxf_polyline_tags`
followed by what the vertex encoder prints for the vertex chain, and among the
polyline's tags: if `v < AutoCAD_13` none has code 100; if `v < AutoCAD_14` none has
code 102, 330 or 360; if `v ≥ AutoCAD_13` the code-100 tags are `AcDbEntity` and
`AcDb3dPolyline`, in that order; if `v ≥ AutoCAD_14` each ownership handle that is not
empty appears between the two code-102 tags of its group. -/
theorem polyline_write_version_gating {V : Type} (G : Globals)
    (vw : DxfFile → V → DxfFile) (fp : DxfFile) (p : DxfPolyline V)
    (hx : p.x0 = 0) (hy : p.y0 = 0) (hv : p.vertices_follow = 1) :
    (dxf_polyline_write G vw fp p).fp = dxf_polyline_write_vertices vw
        (fp.emit (dxf_polyline_tags G fp.acad_version_number
          (dxf_polyline_write G vw fp p).record)) p.vertices
    ∧ (fp.acad_version_number < G.AutoCAD_13 →
        ∀ t ∈ dxf_polyline_tags G fp.acad_version_number
          (dxf_polyline_write G vw fp p).record, t.code ≠ 100)
    ∧ (fp.acad_version_number < G.AutoCAD_14 →
        ∀ t ∈ dxf_polyline_tags G fp.acad_version_number
          (dxf_polyline_write G vw fp p).record,
          t.code ≠ 102 ∧ t.code ≠ 330 ∧ t.code ≠ 360)
    ∧ (fp.acad_version_number ≥ G.AutoCAD_13 →
        (dxf_polyline_tags G fp.acad_version_number
          (dxf_polyline_write G vw fp p).record).filter (fun t => t.code = 100)
          = [⟨100, .str "AcDbEntity"⟩, ⟨100, .str "AcDb3dPolyline"⟩])
    ∧ (fp.acad_version_number ≥ G.AutoCAD_14 →
        (p.dictionary_owner_soft ≠ "" →
          [⟨102, .str "\x7bACAD_REACTORS"⟩, ⟨330, .str p.dictionary_owner_soft⟩,
            ⟨102, .str "\x7d"⟩]
            <:+: dxf_polyline_tags G fp.acad_version_number
              (dxf_polyline_write G vw fp p).record)
        ∧ (p.dictionary_owner_hard ≠ "" →
          [⟨102, .str "\x7bACAD_XDICTIONARY"⟩, ⟨360, .str p.dictionary_owner_hard⟩,
            ⟨102, .str "\x7d"⟩]
            <:+: dxf_polyline_tags G fp.acad_version_number
              (dxf_polyline_write G vw fp p).record)) := by
  obtain ⟨_, h2, h3⟩ := polyline_write_accepted G vw fp p hx hy hv
  obtain ⟨_, _, _, _, _, _, _, _, _, hs, hh, _⟩ := polyline_repaired_fields G p
  rw [h2]
  refine ⟨h3, ?_, ?_, ?_, ?_⟩
  · intro hlt t ht
    have hge : ¬ fp.acad_version_number ≥ G.AutoCAD_13 := not_le.mpr hlt
    have := mem_filter_nil (fun t => t.code = 100) _ (by
      simp [dxf_polyline_tags, List.filter_append, filter_ite_nil, filter_nil_ite, hge]) t ht
    simpa using this
  · intro hlt t ht
    have hge : ¬ fp.acad_version_number ≥ G.AutoCAD_14 := not_le.mpr hlt
    have := mem_filter_nil (fun t => t.code = 102 ∨ t.code = 330 ∨ t.code = 360) _ (by
      simp [dxf_polyline_tags, List.filter_append, filter_ite_nil, filter_nil_ite, hge]) t ht
    simpa [not_or] using this
  · intro hge
    simp [dxf_polyline_tags, List.filter_append, filter_ite_nil, filter_nil_ite, hge]
  · intro hge
    constructor
    · intro hne
      rw [← hs] at hne ⊢
      unfold dxf_polyline_tags
      rw [if_pos (show (dxf_polyline_repaired G p).dictionary_owner_soft ≠ ""
        ∧ fp.acad_version_number ≥ G.AutoCAD_14 from ⟨hne, hge⟩)]
      simp only [List.append_assoc]
      exact (List.infix_append' _ _ _).trans (List.suffix_append _ _).isInfix
    · intro hne
      rw [← hh] at hne ⊢
      unfold dxf_polyline_tags
      rw [if_pos (show (dxf_polyline_repaired G p).dictionary_owner_hard ≠ ""
        ∧ fp.acad_version_number ≥ G.AutoCAD_14 from ⟨hne, hge⟩)]
      simp only [List.append_assoc]
      exact (List.infix_append' _ _ _).trans
        ((List.suffix_append _ _).isInfix.trans (List.suffix_append _ _).isInfix)
/-- The markers and the soft-owner group of a polyline with both handles, at R14. -/
theorem polyline_write_version_gating_witness :
    polylineOwned.x0 = 0 ∧ polylineOwned.y0 = 0 ∧ polylineOwned.vertices_follow = 1
    ∧ (dxf_polyline_tags stdGlobals (outputFile 14).acad_version_number
        (dxf_polyline_write stdGlobals unitVertexWrite (outputFile 14)
          polylineOwned).record).filter (fun t => t.code = 100)
        = [⟨100, .str "AcDbEntity"⟩, ⟨100, .str "AcDb3dPolyline"⟩]
    ∧ [⟨102, .str "\x7bACAD_REACTORS"⟩, ⟨330, .str polylineOwned.dictionary_owner_soft⟩,
        ⟨102, .str "\x7d"⟩]
        <:+: dxf_polyline_tags stdGlobals (outputFile 14).acad_version_number
          (dxf_polyline_write stdGlobals unitVertexWrite (outputFile 14)
            polylineOwned).record :=
  ⟨rfl, rfl, rfl,
    (polyline_write_version_gating stdGlobals unitVertexWrite (outputFile 14)
      polylineOwned rfl rfl rfl).2.2.2.1 (by decide),
    ((polyline_write_version_gating stdGlobals unitVertexWrite (outputFile 14)
      polylineOwned rfl rfl rfl).2.2.2.2 (by decide)).1 (by decide)⟩

/-- C10. A polyline that passes the three checks of `dxf_polyline_write` and whose
linetype is the default linetype name, color `DXF_COLOR_BYLAYER`, thickness 0, linetype
scale 1, visibility 0, start and end width 0, space `DXF_MODELSPACE` and extrusion
vector (0, 0, 1): at every declared version none of the polyline's tags has one of the
group codes 6, 39, 40, 41, 48, 60, 62, 67, 210, 220, 230.  The two space macros are
taken to differ. -/
theorem polyline_write_elides_defaults {V : Type} (G : Globals)
    (vw : DxfFile → V → DxfFile) (fp : DxfFile) (p : DxfPolyline V)
    (hspace : G.DXF_MODELSPACE ≠ G.DXF_PAPERSPACE)
    (hx : p.x0 = 0) (hy : p.y0 = 0) (hv : p.vertices_follow = 1)
    (hlinetype : p.linetype = G.DXF_DEFAULT_LINETYPE)
    (hcolor : p.color = G.DXF_COLOR_BYLAYER)
    (hthickness : p.thickness = 0)
    (hscale : p.linetype_scale = 1)
    (hvisibility : p.visibility = 0)
    (hstart : p.start_width = 0) (hend : p.end_width = 0)
    (hpaper : p.paperspace = G.DXF_MODELSPACE)
    (hextr : p.extr_x0 = 0 ∧ p.extr_y0 = 0 ∧ p.extr_z0 = 1) :
    (dxf_polyline_write G vw fp p).ret = EXIT_SUCCESS
    ∧ (dxf_polyline_write G vw fp p).fp = dxf_polyline_write_vertices vw
        (fp.emit (dxf_polyline_tags G fp.acad_version_number
          (dxf_polyline_write G vw fp p).record)) p.vertices
    ∧ ∀ t ∈ dxf_polyline_tags G fp.acad_version_number
        (dxf_polyline_write G vw fp p).record,
        t.code ∉ [6, 39, 40, 41, 48, 60, 62, 67, 210, 220, 230] := by
  obtain ⟨h1, h2, h3⟩ := polyline_write_accepted G vw fp p hx hy hv
  obtain ⟨_, f2, f3, f4, f5, f6, f7, f8, f9, _, _, _⟩ := polyline_repaired_fields G p
  have flt : (dxf_polyline_repaired G p).linetype = G.DXF_DEFAULT_LINETYPE := by
    rw [polyline_repaired_linetype, hlinetype, ite_self]
  have hps : ¬ G.DXF_MODELSPACE = G.DXF_PAPERSPACE := hspace
  rw [h2]
  refine ⟨h1, h3, ?_⟩
  intro t ht
  have := mem_filter_nil (fun t => decide (t.code ∈ [6, 39, 40, 41, 48, 60, 62, 67, 210, 220, 230]))
    _ (by
      simp [dxf_polyline_tags, List.filter_append, filter_ite_nil, filter_nil_ite,
        f2, f3, f4, f5, f6, f7, f8, f9, flt, hcolor, hthickness, hscale, hvisibility,
        hstart, hend, hpaper, hextr.1, hps]) t ht
  simpa using this

/-- The elision on a default-initialised polyline with extrusion vector (0, 0, 1). -/
theorem polyline_write_elides_defaults_witness :
    stdGlobals.DXF_MODELSPACE ≠ stdGlobals.DXF_PAPERSPACE
    ∧ polylineDefaults.x0 = 0 ∧ polylineDefaults.y0 = 0
    ∧ polylineDefaults.vertices_follow = 1
    ∧ polylineDefaults.linetype = stdGlobals.DXF_DEFAULT_LINETYPE
    ∧ polylineDefaults.color = stdGlobals.DXF_COLOR_BYLAYER
    ∧ polylineDefaults.thickness = 0 ∧ polylineDefaults.linetype_scale = 1
    ∧ polylineDefaults.visibility = 0
    ∧ polylineDefaults.start_width = 0 ∧ polylineDefaults.end_width = 0
    ∧ polylineDefaults.paperspace = stdGlobals.DXF_MODELSPACE
    ∧ (polylineDefaults.extr_x0 = 0 ∧ polylineDefaults.extr_y0 = 0
        ∧ polylineDefaults.extr_z0 = 1)
    ∧ ∀ t ∈ dxf_polyline_tags stdGlobals (outputFile 12).acad_version_number
        (dxf_polyline_write stdGlobals unitVertexWrite (outputFile 12)
          polylineDefaults).record,
        t.code ∉ [6, 39, 40, 41, 48, 60, 62, 67, 210, 220, 230] :=
  ⟨by decide, rfl, rfl, rfl, rfl, rfl, rfl, rfl, rfl, rfl, rfl, rfl, ⟨rfl, rfl, rfl⟩,
    (polyline_write_elides_defaults stdGlobals unitVertexWrite (outputFile 12)
      polylineDefaults (by decide) rfl rfl rfl rfl rfl rfl rfl rfl rfl rfl rfl
      ⟨rfl, rfl, rfl⟩).2.2⟩

/-- C9. `dxf_table_write` at a declared version below `AutoCAD_13` (here 12 against
13), on a default-initialised table with owner handle `1F`: it returns `EXIT_SUCCESS`,
and of the codes 100 and 330 its output holds exactly one tag, the code-330 owner
handle.  The subclass markers are gated by the version; the owner handle is not. -/
theorem table_write_prints_owner_handle_below_R13 :
    (outputFile 12).acad_version_number < stdGlobals.AutoCAD_13
    ∧ ∃ r, dxf_table_write stdGlobals (outputFile 12) tableOwned = .ok r
      ∧ r.ret = EXIT_SUCCESS
      ∧ r.fp.fp.output.filter (fun t => t.code = 330 ∨ t.code = 100)
          = [⟨330, .str "1F"⟩] := by
  refine ⟨by decide, _, rfl, rfl, ?_⟩
  decide

/-- C3. `dxf_polyline_read` and `dxf_table_read` on the text of a code-5 tag with value
`1A` followed by a code-0 tag, for any macros, version, record and step budget: the
loop is still running when the budget is spent.  It never stops at the code-0 tag,
because the group code in `temp_string` is read once before the loop and not again. -/
theorem read_loop_never_reaches_terminator {V : Type} (G : Globals) (v : Int)
    (polyline : Option (DxfPolyline V)) (table : Option DxfTable) (fuel : Nat) :
    dxf_polyline_read G fuel (inputFile "5\n1A\n  0\nSEQEND\n" v) polyline
      = .error .outOfFuel
    ∧ dxf_table_read G fuel (inputFile "5\n1A\n  0\nENDTAB\n" v) table
      = .error .outOfFuel := by
  constructor
  · have h : (scan_line (inputFile "5\n1A\n  0\nSEQEND\n" v).fp.input).1 = some "5" := by
      show (scan_line "5\n1A\n  0\nSEQEND\n".data).1 = some "5"
      decide
    unfold dxf_polyline_read
    apply polyline_read_loop_stuck
    all_goals first
      | rfl
      | (simp only [h]; decide)
  · have h : (scan_line (inputFile "5\n1A\n  0\nENDTAB\n" v).fp.input).1 = some "5" := by
      show (scan_line "5\n1A\n  0\nENDTAB\n".data).1 = some "5"
      decide
    unfold dxf_table_read
    apply table_read_loop_stuck
    all_goals first
      | rfl
      | (simp only [h]; decide)

/-- C4. `dxf_table_read` on the text of two code-92 tags with the values 7 and 3
followed by a code-0 tag.  For any macros, version, record and step budget the loop is
still running when the budget is spent.  Its first iteration stores 7 in
`graphics_data_size`; its second iteration runs on the same group code again and
stores the next line, the `92` of the second tag, in `number_of_columns`. -/
theorem table_read_second_92_never_dispatched :
    (∀ (G : Globals) (v : Int) (table : Option DxfTable) (fuel : Nat),
      dxf_table_read G fuel (inputFile "92\n7\n 92\n3\n  0\nENDTAB\n" v) table
        = .error .outOfFuel)
    ∧ ∃ s1 s2,
        dxf_table_read_tag stdGlobals (dxf_table_read_block_name tableReader92) = .ok s1
        ∧ dxf_table_read_tag stdGlobals (dxf_table_read_block_name s1) = .ok s2
        ∧ s1.table.graphics_data_size = 7 ∧ s1.temp_string = "92"
        ∧ s2.table.number_of_columns = 92 ∧ s2.temp_string = "92" := by
  constructor
  · intro G v table fuel
    have h : (scan_line (inputFile "92\n7\n 92\n3\n  0\nENDTAB\n" v).fp.input).1
        = some "92" := by
      show (scan_line "92\n7\n 92\n3\n  0\nENDTAB\n".data).1 = some "92"
      decide
    unfold dxf_table_read
    apply table_read_loop_stuck
    all_goals first
      | rfl
      | (simp only [h]; decide)
  · refine ⟨_, _, rfl, rfl, ?_, ?_, ?_, ?_⟩ <;> decide

/-- C5. Round trip of a default-initialised polyline at version 12: the text that
`dxf_polyline_write` printed after the type announcement is given to
`dxf_polyline_read` with no record supplied; whatever the step budget, the decoder is
still in its loop when the budget is spent, so no record is returned.  Besides, the
chain of the decoder stores the value of a code-74 tag in `smooth_M_surface_density` and
leaves `smooth_N_surface_density`, which the encoder prints under code 74, as it was. -/
theorem polyline_round_trip_never_returns :
    (∀ fuel, dxf_polyline_read (V := Unit) stdGlobals fuel
      (inputFile (roundTripInput
        (dxf_polyline_write stdGlobals unitVertexWrite (outputFile 12)
          polyline0).fp.fp.output) 12) none = .error .outOfFuel)
    ∧ (dxf_polyline_read_tag stdGlobals polylineReader74).polyline.smooth_M_surface_density = 5
    ∧ (dxf_polyline_read_tag stdGlobals polylineReader74).polyline.smooth_N_surface_density = 0 := by
  refine ⟨?_, by decide, by decide⟩
  intro fuel
  have h : (scan_line (inputFile (roundTripInput
        (dxf_polyline_write stdGlobals unitVertexWrite (outputFile 12)
          polyline0).fp.fp.output) 12).fp.input).1 = some "5" := by
    decide
  unfold dxf_polyline_read
  apply polyline_read_loop_stuck
  all_goals first
    | rfl
    | (simp only [h]; decide)

/-- C11. A default-initialised polyline with extrusion vector (1, 1, 1), written at
version 12 (`AutoCAD_12` is 12): `dxf_polyline_write` returns `EXIT_SUCCESS` and prints
no tag with code 210, 220 or 230.  The vector differs from (0, 0, 1), yet it is
omitted, because the guard asks for all three components to differ from the default. -/
theorem polyline_write_drops_extrusion :
    stdGlobals.AutoCAD_12 ≤ (outputFile 12).acad_version_number
    ∧ (polylineTilted.extr_x0, polylineTilted.extr_y0, polylineTilted.extr_z0) = (1, 1, 1)
    ∧ (dxf_polyline_write stdGlobals unitVertexWrite (outputFile 12) polylineTilted).ret
        = EXIT_SUCCESS
    ∧ (dxf_polyline_write stdGlobals unitVertexWrite (outputFile 12)
        polylineTilted).fp.fp.output.filter
          (fun t => t.code = 210 ∨ t.code = 220 ∨ t.code = 230) = [] := by
  refine ⟨by decide, by decide, by decide, by decide⟩

/-! ## Encoder: the vertex chain and the order of the tags -/

/-- The vertex loop is a left fold of the vertex encoder over the chain. -/
theorem write_vertices_eq_foldl {V : Type} (vw : DxfFile → V → DxfFile) (vs : List V) :
    ∀ fp : DxfFile, dxf_polyline_write_vertices vw fp vs = vs.foldl vw fp := by
  induction vs with
  | nil => intro fp; rfl
  | cons v vs ih => intro fp; simp [dxf_polyline_write_vertices, ih]

/-- A fold of an encoder that only prints: the output grows by the tags of each
vertex in turn, and the declared version stays. -/
theorem foldl_emit_output {V : Type} (vw : DxfFile → V → DxfFile)
    (enc : Int → V → List Tag)
    (henc : ∀ (f : DxfFile) (v : V), vw f v = f.emit (enc f.acad_version_number v))
    (vs : List V) :
    ∀ fp : DxfFile, (vs.foldl vw fp).fp.output
      = fp.fp.output ++ vs.flatMap (enc fp.acad_version_number) := by
  induction vs with
  | nil => intro fp; simp
  | cons v vs ih =>
    intro fp
    rw [List.foldl_cons, ih, henc]
    simp [DxfFile.emit, List.flatMap_cons, List.append_assoc]

/-- C12. A polyline that passes the three checks of `dxf_polyline_write`: the call
returns `EXIT_SUCCESS`, and the file it leaves is the file after the polyline's own tags
(`dxf_polyline_tags`) with the vertex encoder then applied to each node of the vertex
chain, head first, once per node.  For a vertex encoder that prints the tags `enc v`
of its vertex, the output is what was there before, then the polyline's tags, then the
tags of each vertex in chain order; no polyline tag follows a vertex. -/
theorem polyline_write_vertices_in_order {V : Type} (G : Globals)
    (vw : DxfFile → V → DxfFile) (fp : DxfFile) (p : DxfPolyline V)
    (hx : p.x0 = 0) (hy : p.y0 = 0) (hv : p.vertices_follow = 1) :
    (dxf_polyline_write G vw fp p).ret = EXIT_SUCCESS
    ∧ (dxf_polyline_write G vw fp p).fp
        = p.vertices.foldl vw (fp.emit (dxf_polyline_tags G fp.acad_version_number
            (dxf_polyline_write G vw fp p).record))
    ∧ ∀ enc : Int → V → List Tag,
        (∀ (f : DxfFile) (v : V), vw f v = f.emit (enc f.acad_version_number v)) →
        (dxf_polyline_write G vw fp p).fp.fp.output
          = fp.fp.output
            ++ dxf_polyline_tags G fp.acad_version_number
                (dxf_polyline_write G vw fp p).record
            ++ p.vertices.flatMap (enc fp.acad_version_number) := by
  obtain ⟨h1, h2, h3⟩ := polyline_write_accepted G vw fp p hx hy hv
  refine ⟨h1, ?_, ?_⟩
  · rw [h3, h2, write_vertices_eq_foldl]
  · intro enc henc
    rw [h3, h2, write_vertices_eq_foldl, foldl_emit_output vw enc henc]
    rfl

/-- The output of a polyline with the vertex chain 1, 2, 3. -/
theorem polyline_write_vertices_in_order_witness :
    polylineChain.x0 = 0 ∧ polylineChain.y0 = 0 ∧ polylineChain.vertices_follow = 1
    ∧ (dxf_polyline_write stdGlobals natVertexWrite (outputFile 12) polylineChain).fp.fp.output
        = (outputFile 12).fp.output
          ++ dxf_polyline_tags stdGlobals (outputFile 12).acad_version_number
              (dxf_polyline_write stdGlobals natVertexWrite (outputFile 12)
                polylineChain).record
          ++ polylineChain.vertices.flatMap
              (natVertexTags (outputFile 12).acad_version_number) :=
  ⟨rfl, rfl, rfl,
    (polyline_write_vertices_in_order stdGlobals natVertexWrite (outputFile 12)
      polylineChain rfl rfl rfl).2.2 natVertexTags (fun _ _ => rfl)⟩

/-- A list that is present under a condition is a sublist of that list. -/
theorem ite_nil_sublist {α : Type} (c : Prop) [Decidable c] (l : List α) :
    (if c then l else []).Sublist l := by
  split
  · exact List.Sublist.refl l
  · exact List.nil_sublist l

/-- The group codes of the tags of `dxf_polyline_tags`, whatever the record and the
version, form a sublist of the canonical list. -/
theorem polyline_tags_codes_sublist {V : Type} (G : Globals) (v : Int)
    (p : DxfPolyline V) :
    ((dxf_polyline_tags G v p).map Tag.code).Sublist polylineCanonicalCodes := by
  unfold dxf_polyline_tags
  simp only [List.map_append, apply_ite (List.map Tag.code), List.map_cons, List.map_nil]
  show List.Sublist _ ([0] ++ [5] ++ [102, 330, 102] ++ [102, 360, 102] ++ [100] ++ [67]
    ++ [8] ++ [6] ++ [38] ++ [62] ++ [48] ++ [60] ++ [100] ++ [66, 10, 20, 30] ++ [39]
    ++ [70] ++ [40] ++ [41] ++ [71, 72, 73, 74, 75] ++ [210, 220, 230])
  repeat' apply List.Sublist.append
  all_goals first
    | exact List.Sublist.refl _
    | exact ite_nil_sublist _ _

/-- C14. A polyline that passes the three checks of `dxf_polyline_write`, at any
declared version: the file it leaves is the file after the polyline's own tags with the
vertices then written; the group codes of those tags, in the order printed, form a
subsequence of the canonical list; and each of the codes 0, 8, 66, 10, 20, 30, 70, 71,
72, 73, 74, 75 is among them. -/
theorem polyline_write_canonical_order {V : Type} (G : Globals)
    (vw : DxfFile → V → DxfFile) (fp : DxfFile) (p : DxfPolyline V)
    (hx : p.x0 = 0) (hy : p.y0 = 0) (hv : p.vertices_follow = 1) :
    (dxf_polyline_write G vw fp p).fp = dxf_polyline_write_vertices vw
        (fp.emit (dxf_polyline_tags G fp.acad_version_number
          (dxf_polyline_write G vw fp p).record)) p.vertices
    ∧ ((dxf_polyline_tags G fp.acad_version_number
          (dxf_polyline_write G vw fp p).record).map Tag.code).Sublist
        [0, 5, 102, 330, 102, 102, 360, 102, 100, 67, 8, 6, 38, 62, 48, 60, 100, 66, 10,
          20, 30, 39, 70, 40, 41, 71, 72, 73, 74, 75, 210, 220, 230]
    ∧ ∀ c ∈ [0, 8, 66, 10, 20, 30, 70, 71, 72, 73, 74, 75],
        c ∈ (dxf_polyline_tags G fp.acad_version_number
          (dxf_polyline_write G vw fp p).record).map Tag.code := by
  obtain ⟨_, h2, h3⟩ := polyline_write_accepted G vw fp p hx hy hv
  rw [h2]
  refine ⟨h3, polyline_tags_codes_sublist G _ _, ?_⟩
  intro c hc
  simp only [List.mem_cons, List.mem_singleton, List.not_mem_nil, or_false] at hc
  unfold dxf_polyline_tags
  simp only [List.map_append, List.map_cons, List.map_nil, List.mem_append, List.mem_cons,
    List.mem_singleton]
  rcases hc with h | h | h | h | h | h | h | h | h | h | h | h <;> subst h <;> simp

/-- The order of the tags of a polyline with both ownership handles, at R14. -/
theorem polyline_write_canonical_order_witness :
    polylineOwned.x0 = 0 ∧ polylineOwned.y0 = 0 ∧ polylineOwned.vertices_follow = 1
    ∧ ((dxf_polyline_tags stdGlobals (outputFile 14).acad_version_number
          (dxf_polyline_write stdGlobals unitVertexWrite (outputFile 14)
            polylineOwned).record).map Tag.code).Sublist
        [0, 5, 102, 330, 102, 102, 360, 102, 100, 67, 8, 6, 38, 62, 48, 60, 100, 66, 10,
          20, 30, 39, 70, 40, 41, 71, 72, 73, 74, 75, 210, 220, 230] :=
  ⟨rfl, rfl, rfl,
    (polyline_write_canonical_order stdGlobals unitVertexWrite (outputFile 14)
      polylineOwned rfl rfl rfl).2.1⟩

/-! ## Encoder: tables and cells -/

/-- C13. `dxf_table_write` and the cell chain.  For any macros, file and table, the
file the encoder leaves does not depend on `table->cells`.  On a default-initialised
table whose cell chain starts at address 1 it returns `EXIT_SUCCESS` and prints none of
the tags of a cell, although `dxf_table_cell_write` prints fourteen tags for the
default-initialised cell: no cell is emitted. -/
theorem table_write_skips_cells :
    (∀ (G : Globals) (fp : DxfFile) (table : DxfTable) (cells : Ptr),
      (dxf_table_write G fp { table with cells := cells }).map (fun r => r.fp)
        = (dxf_table_write G fp table).map (fun r => r.fp))
    ∧ (∃ r, dxf_table_write stdGlobals (outputFile 13) tableWithCell = .ok r
        ∧ r.ret = EXIT_SUCCESS
        ∧ r.fp.fp.output.filter (fun t => t.code ∈
            [171, 172, 173, 174, 175, 176, 178, 145, 344, 1, 340, 144, 179, 331]) = [])
    ∧ (∃ r, dxf_table_cell_write (outputFile 13) cell0 = .ok r
        ∧ r.fp.fp.output.map Tag.code
          = [171, 172, 173, 174, 175, 176, 91, 178, 145, 344, 1, 340, 144, 179]) := by
  refine ⟨?_, ⟨_, rfl, rfl, by decide⟩, ⟨_, rfl, by decide⟩⟩
  intro G fp table cells
  unfold dxf_table_write
  dsimp only
  generalize scanStrlen table.binary_graphics_data 0 = a
  generalize writeArray 141 table.row_height table.number_of_rows = b
  generalize writeArray 142 table.column_height table.number_of_columns = c
  cases a <;> cases b <;> cases c <;> rfl

/-- C18. Reads beyond the arrays in the encoders (the arrays have four elements here).
`dxf_table_write` on a table that declares five rows reads `row_height[4]`; on a table
whose four binary-graphics chunks are all non-empty its `while` loop reads
`binary_graphics_data[4]`; `dxf_table_cell_write` on a cell whose four continuation
chunks are all non-empty reads `optional_text_string[4]`.  Each run is undefined
behaviour. -/
theorem table_write_reads_beyond_arrays :
    tableTooManyRows.row_height.length = stdGlobals.DXF_MAX_PARAM
    ∧ dxf_table_write stdGlobals (outputFile 13) tableTooManyRows
        = .error .undefinedBehaviour
    ∧ tableFullGraphics.binary_graphics_data.length = stdGlobals.DXF_MAX_PARAM
    ∧ dxf_table_write stdGlobals (outputFile 13) tableFullGraphics
        = .error .undefinedBehaviour
    ∧ cellFullText.optional_text_string.length = stdGlobals.DXF_MAX_PARAM
    ∧ dxf_table_cell_write (outputFile 13) cellFullText = .error .undefinedBehaviour := by
  refine ⟨by decide, rfl, by decide, rfl, by decide, rfl⟩

/-- C19. The attribute-count check of `dxf_table_cell_write`.  A default-initialised
cell declares 0 attribute definitions and has no handle: the encoder prints no code-331
tag, the counts agree, and yet it reports `more attdefs encountered than expected`.  The
same cell with a declared count of 1 has a count that differs from the number of
handles printed, and nothing is reported.  Both calls return `EXIT_SUCCESS`. -/
theorem cell_write_attdef_count_off_by_one :
    (∃ r, dxf_table_cell_write (outputFile 13) cell0 = .ok r
      ∧ r.ret = EXIT_SUCCESS
      ∧ cell0.number_of_block_attdefs = 0
      ∧ r.fp.fp.output.filter (fun t => t.code = 331) = []
      ∧ r.stderr = [Diag.warning_more_attdefs])
    ∧ (∃ r, dxf_table_cell_write (outputFile 13) cellOneDeclared = .ok r
      ∧ r.ret = EXIT_SUCCESS
      ∧ cellOneDeclared.number_of_block_attdefs = 1
      ∧ r.fp.fp.output.filter (fun t => t.code = 331) = []
      ∧ r.stderr = []) := by
  refine ⟨⟨_, rfl, rfl, rfl, by decide, by decide⟩, ⟨_, rfl, rfl, rfl, by decide, by decide⟩⟩

/-- C20. `dxf_table_cell_write` on a cell with the continuation chunk `part` and the
primary text `rest`: of the codes 1, 2 and 3 the output holds the chunk under code 2
and then the primary text under code 1; no tag has code 3. -/
theorem cell_write_chunks_under_code_2 :
    ∃ r, dxf_table_cell_write (outputFile 13) cellLongText = .ok r
      ∧ r.ret = EXIT_SUCCESS
      ∧ r.fp.fp.output.filter (fun t => t.code = 1 ∨ t.code = 2 ∨ t.code = 3)
          = [⟨2, .str "part"⟩, ⟨1, .str "rest"⟩] := by
  refine ⟨_, rfl, rfl, by decide⟩

/-- The loop over the binary-graphics chunks stops inside the array when one chunk is
empty. -/
theorem scanStrlen_stops (l : List String) (h : "" ∈ l) :
    ∀ i, ∃ n, scanStrlen l i = some n := by
  induction l with
  | nil => exact absurd h (List.not_mem_nil _)
  | cons x rest ih =>
    intro i
    unfold scanStrlen
    by_cases hx : x.length > 0
    · rw [if_pos hx]
      have hne : "" ≠ x := by
        intro he
        rw [← he] at hx
        exact absurd hx (by decide)
      rcases List.mem_cons.mp h with h1 | h1
      · exact absurd h1 hne
      · exact ih h1 (i + 1)
    · rw [if_neg hx]
      exact ⟨i, rfl⟩

/-- A filter keeps a mapped list whose every image passes it. -/
theorem filter_map_all {α β : Type} (q : β → Bool) (f : α → β) (l : List α)
    (h : ∀ x, q (f x) = true) : (l.map f).filter q = l.map f := by
  induction l with
  | nil => rfl
  | cons x rest ih => simp [List.filter_cons, h x, ih]

/-- A filter drops a mapped list none of whose images passes it. -/
theorem filter_map_none {α β : Type} (q : β → Bool) (f : α → β) (l : List α)
    (h : ∀ x, q (f x) = false) : (l.map f).filter q = [] := by
  induction l with
  | nil => rfl
  | cons x rest ih => simp [List.filter_cons, h x, ih]

/-- C15. A table whose two height arrays have `DXF_MAX_PARAM` elements, with
`0 ≤ number_of_rows ≤ DXF_MAX_PARAM` and `0 ≤ number_of_columns ≤ DXF_MAX_PARAM`, and
with an empty binary-graphics chunk (which ends the code-310 loop inside its array):
`dxf_table_write` returns `EXIT_SUCCESS`; its output ends with `number_of_rows` code-141
tags carrying `row_height[0]`, `row_height[1]`, ... in index order, followed by
`number_of_columns` code-142 tags carrying `column_height[0]`, `column_height[1]`, ... in
index order; and these are all the tags with code 141 or 142 that the call prints. -/
theorem table_write_rows_then_columns (G : Globals) (fp : DxfFile) (table : DxfTable)
    (hrows : table.row_height.length = G.DXF_MAX_PARAM)
    (hcols : table.column_height.length = G.DXF_MAX_PARAM)
    (hgraphics : "" ∈ table.binary_graphics_data)
    (hr : 0 ≤ table.number_of_rows ∧ table.number_of_rows ≤ (G.DXF_MAX_PARAM : Int))
    (hc : 0 ≤ table.number_of_columns ∧ table.number_of_columns ≤ (G.DXF_MAX_PARAM : Int)) :
    ∃ r, dxf_table_write G fp table = .ok r
      ∧ r.ret = EXIT_SUCCESS
      ∧ ((table.row_height.take table.number_of_rows.toNat).map (fun x => (⟨141, .real x⟩ : Tag))
          ++ (table.column_height.take table.number_of_columns.toNat).map
              (fun x => (⟨142, .real x⟩ : Tag))) <:+ r.fp.fp.output
      ∧ (r.fp.fp.output.drop fp.fp.output.length).filter
            (fun t => t.code = 141 ∨ t.code = 142)
          = (table.row_height.take table.number_of_rows.toNat).map
              (fun x => (⟨141, .real x⟩ : Tag))
            ++ (table.column_height.take table.number_of_columns.toNat).map
              (fun x => (⟨142, .real x⟩ : Tag))
      ∧ ((table.row_height.take table.number_of_rows.toNat).length : Int)
          = table.number_of_rows
      ∧ ((table.column_height.take table.number_of_columns.toNat).length : Int)
          = table.number_of_columns := by
  obtain ⟨n, hn⟩ := scanStrlen_stops table.binary_graphics_data hgraphics 0
  have hrn : table.number_of_rows.toNat ≤ table.row_height.length := by
    rw [hrows]; omega
  have hcn : table.number_of_columns.toNat ≤ table.column_height.length := by
    rw [hcols]; omega
  have hw1 : writeArray 141 table.row_height table.number_of_rows
      = some ((table.row_height.take table.number_of_rows.toNat).map
          (fun x => (⟨141, .real x⟩ : Tag))) := by
    unfold writeArray; rw [if_pos hrn]
  have hw2 : writeArray 142 table.column_height table.number_of_columns
      = some ((table.column_height.take table.number_of_columns.toNat).map
          (fun x => (⟨142, .real x⟩ : Tag))) := by
    unfold writeArray; rw [if_pos hcn]
  unfold dxf_table_write
  rw [hn, hw1, hw2]
  refine ⟨_, rfl, rfl, ?_, ?_, ?_, ?_⟩
  · show _ <:+ fp.fp.output ++ _
    rw [List.append_assoc _
      ((table.row_height.take table.number_of_rows.toNat).map (fun x => (⟨141, .real x⟩ : Tag)))]
    exact (List.suffix_append _ _).trans (List.suffix_append _ _)
  · show List.filter _ (List.drop fp.fp.output.length (fp.fp.output ++ _)) = _
    rw [List.drop_left]
    simp only [List.filter_append, filter_ite_nil, filter_nil_ite]
    rw [filter_map_none _ (fun x => (⟨310, .str x⟩ : Tag)) _ (fun x => by simp),
      filter_map_all _ (fun x => (⟨141, .real x⟩ : Tag)) _ (fun x => by simp),
      filter_map_all _ (fun x => (⟨142, .real x⟩ : Tag)) _ (fun x => by simp)]
    simp
  · rw [List.length_take]; omega
  · rw [List.length_take]; omega

/-- The rows and the column of a table with two rows and one column. -/
theorem table_write_rows_then_columns_witness :
    tableTwoRows.row_height.length = stdGlobals.DXF_MAX_PARAM
    ∧ tableTwoRows.column_height.length = stdGlobals.DXF_MAX_PARAM
    ∧ "" ∈ tableTwoRows.binary_graphics_data
    ∧ (0 ≤ tableTwoRows.number_of_rows
        ∧ tableTwoRows.number_of_rows ≤ (stdGlobals.DXF_MAX_PARAM : Int))
    ∧ (0 ≤ tableTwoRows.number_of_columns
        ∧ tableTwoRows.number_of_columns ≤ (stdGlobals.DXF_MAX_PARAM : Int))
    ∧ ∃ r, dxf_table_write stdGlobals (outputFile 13) tableTwoRows = .ok r
        ∧ r.ret = EXIT_SUCCESS
        ∧ [(⟨141, .real 3⟩ : Tag), ⟨141, .real 4⟩, ⟨142, .real 7⟩] <:+ r.fp.fp.output :=
  ⟨by decide, by decide, by decide, by decide, by decide,
    let ⟨r, h1, h2, h3, _⟩ := table_write_rows_then_columns stdGlobals (outputFile 13)
      tableTwoRows (by decide) (by decide) (by decide) (by decide) (by decide)
    ⟨r, h1, h2, h3⟩⟩

/-- What `%lf` reads from the text that starts at the second group code 141. -/
theorem scan_lf_141 :
    (scan_lf "141\n2\n  0\nENDTAB\n".data).1 = some 141 := by
  have h1 : takeSign (skipSpace "141\n2\n  0\nENDTAB\n".data)
      = (false, "141\n2\n  0\nENDTAB\n".data) := by decide
  have h2 : takeRun isDigit "141\n2\n  0\nENDTAB\n".data
      = ("141".data, "\n2\n  0\nENDTAB\n".data) := by decide
  have h3 : takeExponent "\n2\n  0\nENDTAB\n".data = (0, "\n2\n  0\nENDTAB\n".data) := by
    decide
  have h4 : digitsVal 10 ("141".data ++ []) = 141 := by decide
  unfold scan_lf
  rw [h1]
  dsimp only
  rw [h2]
  dsimp only
  have h5 : (match "\n2\n  0\nENDTAB\n".data with
      | '.' :: cs => takeRun isDigit cs
      | cs => ([], cs)) = ([], "\n2\n  0\nENDTAB\n".data) := rfl
  rw [h5]
  dsimp only
  rw [h3, h4]
  norm_num
  simp

/-! ## Decoder: the arrays of a table -/

/-- One iteration of the loop of `dxf_table_read` whose chain succeeds. -/
theorem table_read_loop_succ (G : Globals) (n : Nat) (s s1 : TableReader)
    (h0 : s.temp_string ≠ "0") (he : s.fp.fp.error = false)
    (hs : dxf_table_read_tag G (dxf_table_read_block_name s) = .ok s1) :
    dxf_table_read_loop G (n + 1) s = dxf_table_read_loop G n s1 := by
  simp only [dxf_table_read_loop, h0, he, if_false, hs]
  rfl

/-- One iteration of the loop of `dxf_table_read` whose chain fails. -/
theorem table_read_loop_fault (G : Globals) (n : Nat) (s : TableReader) (e : Fault)
    (h0 : s.temp_string ≠ "0") (he : s.fp.fp.error = false)
    (hs : dxf_table_read_tag G (dxf_table_read_block_name s) = .error e) :
    dxf_table_read_loop G (n + 1) s = .error e := by
  simp only [dxf_table_read_loop, h0, he, if_false, hs]
  rfl

/-- With `temp_string` equal to `"141"` and nothing left that `%lf` can read, the chain
of `dxf_table_read` succeeds and leaves the decoder in such a state again. -/
theorem table_read_tag_141_idle (G : Globals) (s : TableReader)
    (h : s.temp_string = "141")
    (hscan : scan_lf s.fp.fp.input = (none, s.fp.fp.input)) :
    ∃ s1, dxf_table_read_tag G s = .ok s1 ∧ s1.temp_string = "141"
      ∧ s1.fp.fp.error = s.fp.fp.error
      ∧ scan_lf s1.fp.fp.input = (none, s1.fp.fp.input) := by
  unfold dxf_table_read_tag
  repeat' (
    apply pred_ite (fun r : Except Fault TableReader => ∃ s1, r = .ok s1
        ∧ s1.temp_string = "141" ∧ s1.fp.fp.error = s.fp.fp.error
        ∧ scan_lf s1.fp.fp.input = (none, s1.fp.fp.input))
      <;> intro _)
  all_goals first
    | (exfalso; simp_all; done)
    | (refine ⟨_, rfl, h, rfl, ?_⟩
       show scan_lf (scan_lf s.fp.fp.input).2 = (none, (scan_lf s.fp.fp.input).2)
       rw [hscan]
       exact hscan)

/-- Entered with `temp_string` equal to `"141"`, a clear error indicator and nothing
left that `%lf` can read, the loop of `dxf_table_read` is still running after any
number of iterations. -/
theorem table_read_loop_spins_141 (G : Globals) (fuel : Nat) :
    ∀ s : TableReader, s.temp_string = "141" → s.fp.fp.error = false →
      scan_lf s.fp.fp.input = (none, s.fp.fp.input) →
      dxf_table_read_loop G fuel s = .error .outOfFuel := by
  induction fuel with
  | zero =>
    intro s h _ _
    simp [dxf_table_read_loop, h]
  | succ n ih =>
    intro s h he hscan
    have hb := table_read_block_name_tested s
    simp only [TableReader.tested, Prod.mk.injEq] at hb
    have hbi : (dxf_table_read_block_name s).fp.fp.input = s.fp.fp.input := by
      unfold dxf_table_read_block_name
      rw [if_neg (by rw [h]; decide)]
    obtain ⟨s1, hs1, ht, hE, hsc⟩ := table_read_tag_141_idle G (dxf_table_read_block_name s)
      (by rw [hb.1]; exact h) (by rw [hbi]; exact hscan)
    rw [table_read_loop_succ G n s s1 (by rw [h]; decide) he hs1]
    exact ih s1 ht (by rw [hE, hb.2]; exact he) hsc

/-- C16. `dxf_table_read` on the text of two code-141 tags with the values 1 and 2
followed by a code-0 tag, into a default-initialised table.  Whatever the step budget,
the loop is still running when the budget is spent.  Its first two iterations both
run the branch for code 141: the second one reads the `141` of the second tag as a
row height and stores it in `row_height[1]`, where the claim puts the value 2. -/
theorem table_read_row_heights_misplaced :
    (∀ fuel, dxf_table_read stdGlobals fuel
      (inputFile "141\n1\n141\n2\n  0\nENDTAB\n" 13) (some table0) = .error .outOfFuel)
    ∧ ∃ s1 s2,
        dxf_table_read_tag stdGlobals (dxf_table_read_block_name tableReader141) = .ok s1
        ∧ dxf_table_read_tag stdGlobals (dxf_table_read_block_name s1) = .ok s2
        ∧ s1.k = 1 ∧ s1.fp.fp.input = "141\n2\n  0\nENDTAB\n".data
        ∧ s2.k = 2 ∧ s2.temp_string = "141" ∧ s2.fp.fp.input = "2\n  0\nENDTAB\n".data
        ∧ s2.table.row_height[1]? = some 141 := by
  constructor
  · intro fuel
    unfold dxf_table_read
    rcases fuel with _ | _ | _ | _ | n
    · rfl
    · rfl
    · rfl
    · rfl
    · apply Eq.trans (table_read_loop_succ stdGlobals _ _ _ ?h0 ?he ?hs)
      case h0 => decide
      case he => rfl
      case hs => rfl
      apply Eq.trans (table_read_loop_succ stdGlobals _ _ _ ?h0 ?he ?hs)
      case h0 => decide
      case he => rfl
      case hs => rfl
      apply Eq.trans (table_read_loop_succ stdGlobals _ _ _ ?h0 ?he ?hs)
      case h0 => decide
      case he => rfl
      case hs => rfl
      apply Eq.trans (table_read_loop_succ stdGlobals _ _ _ ?h0 ?he ?hs)
      case h0 => decide
      case he => rfl
      case hs => rfl
      apply table_read_loop_spins_141
      · rfl
      · rfl
      · decide
  · refine ⟨_, _, rfl, rfl, by decide, by decide, by decide, by decide, by decide, ?_⟩
    exact (rfl : _ = (scan_lf "141\n2\n  0\nENDTAB\n".data).1).trans scan_lf_141

/-- C17. Stores beyond the arrays in `dxf_table_read` (the arrays have four elements
here).  On the text of three code-141 tags, read into a default-initialised table, the
fifth iteration of the loop stores a row height in `row_height[4]`: the run is
undefined behaviour.  Taken alone, the chain dispatched on a tag with code 141, 142 or
310 when the counter of its array stands at 4 stores at index 4 as well: no branch
compares its counter with `DXF_MAX_PARAM`. -/
theorem table_read_stores_beyond_arrays :
    table0.row_height.length = stdGlobals.DXF_MAX_PARAM
    ∧ table0.column_height.length = stdGlobals.DXF_MAX_PARAM
    ∧ table0.binary_graphics_data.length = stdGlobals.DXF_MAX_PARAM
    ∧ (∀ fuel, dxf_table_read stdGlobals (fuel + 5)
        (inputFile "141\n1\n141\n2\n141\n3\n  0\nENDTAB\n" 13) (some table0)
          = .error .undefinedBehaviour)
    ∧ dxf_table_read_tag stdGlobals (tableReaderFull "141") = .error .undefinedBehaviour
    ∧ dxf_table_read_tag stdGlobals (tableReaderFull "142") = .error .undefinedBehaviour
    ∧ dxf_table_read_tag stdGlobals (tableReaderFull "310") = .error .undefinedBehaviour := by
  refine ⟨by decide, by decide, by decide, ?_, rfl, rfl, rfl⟩
  intro fuel
  unfold dxf_table_read
  apply Eq.trans (table_read_loop_succ stdGlobals _ _ _ ?h0 ?he ?hs)
  case h0 => decide
  case he => rfl
  case hs => rfl
  apply Eq.trans (table_read_loop_succ stdGlobals _ _ _ ?h0 ?he ?hs)
  case h0 => decide
  case he => rfl
  case hs => rfl
  apply Eq.trans (table_read_loop_succ stdGlobals _ _ _ ?h0 ?he ?hs)
  case h0 => decide
  case he => rfl
  case hs => rfl
  apply Eq.trans (table_read_loop_succ stdGlobals _ _ _ ?h0 ?he ?hs)
  case h0 => decide
  case he => rfl
  case hs => rfl
  exact table_read_loop_fault stdGlobals fuel _ _ (by decide) rfl rfl
/-! ## Decoder: single branches of the polyline chain -/

/-- On group code 74 the chain of `dxf_polyline_read` runs the branch that reads an
`int` into `smooth_M_surface_density`. -/
theorem polyline_read_tag_74 {V : Type} (G : Globals) (s : PolylineReader V)
    (h : s.temp_string = "74") :
    dxf_polyline_read_tag G s
      = s.read_d fun p v => { p with smooth_M_surface_density := v } := by
  unfold dxf_polyline_read_tag
  repeat' (apply pred_ite (fun r : PolylineReader V => r = s.read_d fun p v => { p with smooth_M_surface_density := v }) <;> intro _)
  all_goals first
    | rfl
    | (exfalso; simp_all)

/-- On group code 60 the chain of `dxf_polyline_read` runs the branch that reads an
`int16_t` into `visibility`. -/
theorem polyline_read_tag_60 {V : Type} (G : Globals) (s : PolylineReader V)
    (h : s.temp_string = "60") :
    dxf_polyline_read_tag G s = s.read_hd fun p v => { p with visibility := v } := by
  unfold dxf_polyline_read_tag
  repeat' (apply pred_ite (fun r : PolylineReader V => r = s.read_hd fun p v => { p with visibility := v }) <;> intro _)
  all_goals first
    | rfl
    | (exfalso; simp_all)

/-- On a group code without a branch of its own, which is neither 38 at a declared
version up to R11 nor 100 at a declared version from R12, the chain of
`dxf_polyline_read` runs its last branch: a warning is printed and nothing else
changes; no line of the stream is read. -/
theorem polyline_read_tag_unknown {V : Type} (G : Globals) (s : PolylineReader V)
    (h : s.temp_string ∉ dxf_polyline_read_codes)
    (h38 : ¬ (s.temp_string = "38" ∧ s.fp.acad_version_number ≤ G.AutoCAD_11))
    (h100 : ¬ (s.temp_string = "100" ∧ s.fp.acad_version_number ≥ G.AutoCAD_12)) :
    dxf_polyline_read_tag G s
      = { s with stderr := s.stderr ++
            [Diag.warning_unknown_tag s.fp.filename s.fp.line_number] } := by
  unfold dxf_polyline_read_tag
  simp only [dxf_polyline_read_codes, List.mem_cons, List.mem_singleton, not_or,
    List.not_mem_nil, not_false_eq_true, and_true] at h
  repeat' (apply pred_ite (fun r : PolylineReader V => r = { s with stderr := s.stderr ++ [Diag.warning_unknown_tag s.fp.filename s.fp.line_number] }) <;> intro _)
  all_goals first
    | rfl
    | (exfalso; simp_all)

/-- On group code 38 at a declared version up to R11 the chain of `dxf_polyline_read`
reads the elevation when the elevation of the record is not zero. -/
theorem polyline_read_tag_38 {V : Type} (G : Globals) (s : PolylineReader V)
    (h : s.temp_string = "38") (hv : s.fp.acad_version_number ≤ G.AutoCAD_11)
    (he : s.polyline.elevation ≠ 0) :
    dxf_polyline_read_tag G s = s.read_lf fun p v => { p with elevation := v } := by
  unfold dxf_polyline_read_tag
  repeat' (apply pred_ite (fun r : PolylineReader V => r = s.read_lf fun p v => { p with elevation := v }) <;> intro _)
  all_goals first
    | rfl
    | (exfalso; simp_all)

/-- On group code 38 the chain of `dxf_polyline_read` runs its last branch, that of an
unknown tag, when the elevation of the record is zero. -/
theorem polyline_read_tag_38_zero {V : Type} (G : Globals) (s : PolylineReader V)
    (h : s.temp_string = "38") (he : s.polyline.elevation = 0) :
    dxf_polyline_read_tag G s
      = { s with stderr := s.stderr ++
            [Diag.warning_unknown_tag s.fp.filename s.fp.line_number] } := by
  unfold dxf_polyline_read_tag
  repeat' (apply pred_ite (fun r : PolylineReader V => r = { s with stderr := s.stderr ++ [Diag.warning_unknown_tag s.fp.filename s.fp.line_number] }) <;> intro _)
  all_goals first
    | rfl
    | (exfalso; simp_all)
/-! ## Decoder: what single tags do to the polyline -/

/-- C21 (code defect). The branch of `dxf_polyline_read` for group code 74 assigns
`smooth_M_surface_density`.  For every macro values, file handle and record, the chain
dispatched on a code-74 tag leaves `smooth_N_surface_density` as it was; on the value 5
and a default-initialised record the record after the tag is the old one with
`smooth_M_surface_density` set to 5, and `smooth_N_surface_density` is still 0. -/
theorem polyline_read_74_stores_in_smooth_M :
    (∀ (G : Globals) (fp : DxfFile) (p : DxfPolyline Unit) (e : List Diag),
      (dxf_polyline_read_tag G (PolylineReader.mk fp p "74" e)).polyline.smooth_N_surface_density
        = p.smooth_N_surface_density)
    ∧ (dxf_polyline_read_tag stdGlobals polylineReader74).polyline
        = { polyline0 with smooth_M_surface_density := 5 }
    ∧ (dxf_polyline_read_tag stdGlobals polylineReader74).polyline.smooth_N_surface_density = 0
    ∧ (dxf_polyline_read_tag stdGlobals polylineReader74).polyline.smooth_N_surface_density ≠ 5 := by
  have h5 : scan_d polylineReader74.fp.fp.input = (some 5, []) := by
    show scan_d "5\n".data = (some 5, [])
    decide
  have hp : (dxf_polyline_read_tag stdGlobals polylineReader74).polyline
      = { polyline0 with smooth_M_surface_density := 5 } := by
    rw [polyline_read_tag_74 _ _ rfl]
    simp only [PolylineReader.read_d, h5]
    rfl
  refine ⟨?_, hp, ?_, ?_⟩
  · intro G fp p e
    rw [polyline_read_tag_74 _ _ rfl]
    simp only [PolylineReader.read_d]
    cases (scan_d fp.fp.input).1 <;> rfl
  · rw [hp]; rfl
  · rw [hp]; decide

/-- C24 (code defect, the one of C3). On a tag whose group code has no branch, here 7,
the chain of `dxf_polyline_read` prints a warning and changes nothing else, for every
macro values, file handle and record: the record keeps every field, but no line of the
stream is read and `temp_string` still holds 7.  So the loop examines the same tag
again: on the text of a code-7 tag followed by a layer tag and the code-0 tag the
decoder is still running when any step budget is spent, and the layer tag that follows
is never decoded. -/
theorem polyline_read_unknown_tag_never_left :
    (∀ (G : Globals) (fp : DxfFile) (p : DxfPolyline Unit) (e : List Diag),
      dxf_polyline_read_tag G (PolylineReader.mk fp p "7" e)
        = PolylineReader.mk fp p "7"
            (e ++ [Diag.warning_unknown_tag fp.filename fp.line_number]))
    ∧ (∀ (G : Globals) (fuel : Nat),
      dxf_polyline_read G fuel unknownTagInput (some polyline0) = .error .outOfFuel) := by
  constructor
  · intro G fp p e
    rw [polyline_read_tag_unknown G _ (show "7" ∉ dxf_polyline_read_codes by decide)
      (by simp) (by simp)]
  · intro G fuel
    have h : (scan_line unknownTagInput.fp.input).1 = some "7" := by
      show (scan_line "7\nSTANDARD\n  8\nWALLS\n  0\nSEQEND\n".data).1 = some "7"
      decide
    unfold dxf_polyline_read
    apply polyline_read_loop_stuck
    all_goals first
      | rfl
      | (simp only [h]; decide)

/-- C29 (code defect). The branch of `dxf_polyline_read` for group code 38 is guarded
by the declared version and by `polyline->elevation != 0.0`.  For every macro values,
file handle (so every declared version) and record, the chain dispatched on a code-38
tag while the elevation of the record is zero runs the branch of an unknown tag: a
warning is printed, the elevation stays zero and the value line is not read.  At
declared version R11 the same tag is read as the elevation when the record holds the
elevation 1, so the decision depends on the record. -/
theorem polyline_read_38_depends_on_elevation :
    (∀ (G : Globals) (fp : DxfFile) (p : DxfPolyline Unit) (e : List Diag),
      dxf_polyline_read_tag G (PolylineReader.mk fp { p with elevation := 0 } "38" e)
        = PolylineReader.mk fp { p with elevation := 0 } "38"
            (e ++ [Diag.warning_unknown_tag fp.filename fp.line_number]))
    ∧ (polylineReaderAt "38" "2.5" 11).fp.acad_version_number ≤ stdGlobals.AutoCAD_11
    ∧ (polylineReaderAt "38" "2.5" 11).polyline.elevation = 0
    ∧ (dxf_polyline_read_tag stdGlobals (polylineReaderAt "38" "2.5" 11)).polyline
        = polyline0
    ∧ (dxf_polyline_read_tag stdGlobals (polylineReaderAt "38" "2.5" 11)).fp.fp.input
        = "2.5\n".data
    ∧ (dxf_polyline_read_tag stdGlobals (polylineReaderAt "38" "2.5" 11)).stderr
        = [Diag.warning_unknown_tag "in.dxf" 0]
    ∧ dxf_polyline_read_tag stdGlobals
        { polylineReaderAt "38" "2.5" 11 with polyline := { polyline0 with elevation := 1 } }
        = PolylineReader.read_lf
            { polylineReaderAt "38" "2.5" 11 with
              polyline := { polyline0 with elevation := 1 } }
            fun p v => { p with elevation := v } := by
  refine ⟨?_, by decide, rfl, ?_, ?_, ?_, ?_⟩
  · intro G fp p e
    rw [polyline_read_tag_38_zero G _ rfl rfl]
  · rw [polyline_read_tag_38_zero _ _ rfl rfl]; rfl
  · rw [polyline_read_tag_38_zero _ _ rfl rfl]; rfl
  · rw [polyline_read_tag_38_zero _ _ rfl rfl]; rfl
  · exact polyline_read_tag_38 _ _ rfl (by decide) (by
      show (1 : Rat) ≠ 0
      decide)

/-- C30 (code defect). `dxf_polyline_init` sets the three components of the extrusion
vector to 0, for every macro values and every argument (a null pointer or a record):
the vector after initialisation is (0, 0, 0), and its Z component is not 1. -/
theorem polyline_init_extrusion_is_zero {V : Type} (G : Globals)
    (polyline : Option (DxfPolyline V)) :
    ((dxf_polyline_init G polyline).extr_x0, (dxf_polyline_init G polyline).extr_y0,
      (dxf_polyline_init G polyline).extr_z0) = (0, 0, 0)
    ∧ (dxf_polyline_init G polyline).extr_z0 ≠ 1 := by
  have hz : (dxf_polyline_init G polyline).extr_z0 = 0 := rfl
  refine ⟨rfl, ?_⟩
  rw [hz]
  decide

/-! ## Decoder: what the loops return -/

/-- C26. `dxf_polyline_set_visibility` returns the polyline exactly when the argument is
0 or 1, and so does `dxf_polyline_set_paperspace`.  When the polyline is returned it is
the old record with the named field set to the argument, every other field as before;
when `NULL` is returned the record in memory is the old record. -/
theorem polyline_set_visibility_paperspace {V : Type} (p : DxfPolyline V) (v s : Int) :
    ((dxf_polyline_set_visibility p v).ret.isSome = true ↔ 0 ≤ v ∧ v ≤ 1)
    ∧ (dxf_polyline_set_visibility p v).ret
        = (if 0 ≤ v ∧ v ≤ 1 then some { p with visibility := v } else none)
    ∧ (dxf_polyline_set_visibility p v).record
        = (if 0 ≤ v ∧ v ≤ 1 then { p with visibility := v } else p)
    ∧ ((dxf_polyline_set_paperspace p s).ret.isSome = true ↔ 0 ≤ s ∧ s ≤ 1)
    ∧ (dxf_polyline_set_paperspace p s).ret
        = (if 0 ≤ s ∧ s ≤ 1 then some { p with paperspace := s } else none)
    ∧ (dxf_polyline_set_paperspace p s).record
        = (if 0 ≤ s ∧ s ≤ 1 then { p with paperspace := s } else p) := by
  unfold dxf_polyline_set_visibility dxf_polyline_set_paperspace
  by_cases hv0 : v < 0
  · by_cases hs0 : s < 0
    · have hv : ¬ (0 ≤ v ∧ v ≤ 1) := by omega
      have hs : ¬ (0 ≤ s ∧ s ≤ 1) := by omega
      simp only [if_pos hv0, if_pos hs0, if_neg hv, if_neg hs, Option.isSome_none, hv, hs]
      simp
    · by_cases hs1 : s > 1
      · have hv : ¬ (0 ≤ v ∧ v ≤ 1) := by omega
        have hs : ¬ (0 ≤ s ∧ s ≤ 1) := by omega
        simp only [if_pos hv0, if_neg hs0, if_pos hs1, if_neg hv, if_neg hs,
          Option.isSome_none, hv, hs]
        simp
      · have hv : ¬ (0 ≤ v ∧ v ≤ 1) := by omega
        have hs : 0 ≤ s ∧ s ≤ 1 := by omega
        simp only [if_pos hv0, if_neg hs0, if_neg hs1, if_neg hv, if_pos hs,
          Option.isSome_none, Option.isSome_some, hv, hs]
        simp
  · by_cases hv1 : v > 1
    · by_cases hs0 : s < 0
      · have hv : ¬ (0 ≤ v ∧ v ≤ 1) := by omega
        have hs : ¬ (0 ≤ s ∧ s ≤ 1) := by omega
        simp only [if_neg hv0, if_pos hv1, if_pos hs0, if_neg hv, if_neg hs,
          Option.isSome_none, hv, hs]
        simp
      · by_cases hs1 : s > 1
        · have hv : ¬ (0 ≤ v ∧ v ≤ 1) := by omega
          have hs : ¬ (0 ≤ s ∧ s ≤ 1) := by omega
          simp only [if_neg hv0, if_pos hv1, if_neg hs0, if_pos hs1, if_neg hv, if_neg hs,
            Option.isSome_none, hv, hs]
          simp
        · have hv : ¬ (0 ≤ v ∧ v ≤ 1) := by omega
          have hs : 0 ≤ s ∧ s ≤ 1 := by omega
          simp only [if_neg hv0, if_pos hv1, if_neg hs0, if_neg hs1, if_neg hv, if_pos hs,
            Option.isSome_none, Option.isSome_some, hv, hs]
          simp
    · by_cases hs0 : s < 0
      · have hv : 0 ≤ v ∧ v ≤ 1 := by omega
        have hs : ¬ (0 ≤ s ∧ s ≤ 1) := by omega
        simp only [if_neg hv0, if_neg hv1, if_pos hs0, if_pos hv, if_neg hs,
          Option.isSome_none, Option.isSome_some, hv, hs]
        simp
      · by_cases hs1 : s > 1
        · have hv : 0 ≤ v ∧ v ≤ 1 := by omega
          have hs : ¬ (0 ≤ s ∧ s ≤ 1) := by omega
          simp only [if_neg hv0, if_neg hv1, if_neg hs0, if_pos hs1, if_pos hv, if_neg hs,
            Option.isSome_none, Option.isSome_some, hv, hs]
          simp
        · have hv : 0 ≤ v ∧ v ≤ 1 := by omega
          have hs : 0 ≤ s ∧ s ≤ 1 := by omega
          simp only [if_neg hv0, if_neg hv1, if_neg hs0, if_neg hs1, if_pos hv, if_pos hs,
            Option.isSome_some, hv, hs]
          simp

/-- C27, counterexample. A polyline whose visibility is 5 makes
`dxf_polyline_get_visibility` fail (it prints an error) and return `EXIT_FAILURE`, which
is 1: the value the function returns, without any message, for a polyline whose
visibility is 1. -/
theorem polyline_get_visibility_failure_collides :
    (dxf_polyline_get_visibility { polyline0 with visibility := 5 }).stderr ≠ []
    ∧ (dxf_polyline_get_visibility { polyline0 with visibility := 1 }).stderr = []
    ∧ (dxf_polyline_get_visibility { polyline0 with visibility := 5 }).ret
        = (dxf_polyline_get_visibility { polyline0 with visibility := 1 }).ret := by
  decide

/-- C27, amended. `dxf_polyline_get_visibility` returns the stored visibility when it is
0 or 1 and `EXIT_FAILURE`, which is 1, otherwise; it prints a message exactly when the
stored visibility is outside [0, 1].  A failure is told from every success by the
message, not by the value returned. -/
theorem polyline_get_visibility_result {V : Type} (p : DxfPolyline V) :
    (dxf_polyline_get_visibility p).ret
      = (if 0 ≤ p.visibility ∧ p.visibility ≤ 1 then p.visibility else EXIT_FAILURE)
    ∧ ((dxf_polyline_get_visibility p).stderr = [] ↔ 0 ≤ p.visibility ∧ p.visibility ≤ 1)
    ∧ EXIT_FAILURE = 1
    ∧ ∀ q : DxfPolyline V, (dxf_polyline_get_visibility q).stderr = [] →
        (dxf_polyline_get_visibility p).stderr ≠ [] →
        dxf_polyline_get_visibility p ≠ dxf_polyline_get_visibility q := by
  refine ⟨?_, ?_, rfl, ?_⟩
  · unfold dxf_polyline_get_visibility
    by_cases h0 : p.visibility < 0
    · have h : ¬ (0 ≤ p.visibility ∧ p.visibility ≤ 1) := by omega
      rw [if_pos h0, if_neg h]
    · by_cases h1 : p.visibility > 1
      · have h : ¬ (0 ≤ p.visibility ∧ p.visibility ≤ 1) := by omega
        rw [if_neg h0, if_pos h1, if_neg h]
      · have h : 0 ≤ p.visibility ∧ p.visibility ≤ 1 := by omega
        rw [if_neg h0, if_neg h1, if_pos h]
  · unfold dxf_polyline_get_visibility
    by_cases h0 : p.visibility < 0
    · have h : ¬ (0 ≤ p.visibility ∧ p.visibility ≤ 1) := by omega
      rw [if_pos h0]
      simp only [h, iff_false]
      exact List.cons_ne_nil _ _
    · by_cases h1 : p.visibility > 1
      · have h : ¬ (0 ≤ p.visibility ∧ p.visibility ≤ 1) := by omega
        rw [if_neg h0, if_pos h1]
        simp only [h, iff_false]
        exact List.cons_ne_nil _ _
      · have h : 0 ≤ p.visibility ∧ p.visibility ≤ 1 := by omega
        rw [if_neg h0, if_neg h1]
        simp only [h, and_self, iff_true]
  · intro q hq hp heq
    rw [heq] at hp
    exact hp hq

/-- Witness for C27: the two polylines of the counterexample. -/
theorem polyline_get_visibility_result_witness :
    (dxf_polyline_get_visibility { polyline0 with visibility := 5 }).ret
      = (if 0 ≤ ({ polyline0 with visibility := 5 } : DxfPolyline Unit).visibility
            ∧ ({ polyline0 with visibility := 5 } : DxfPolyline Unit).visibility ≤ 1
          then ({ polyline0 with visibility := 5 } : DxfPolyline Unit).visibility
          else EXIT_FAILURE)
    ∧ dxf_polyline_get_visibility { polyline0 with visibility := 5 }
        ≠ dxf_polyline_get_visibility { polyline0 with visibility := 1 } :=
  ⟨(polyline_get_visibility_result { polyline0 with visibility := 5 }).1,
   (polyline_get_visibility_result { polyline0 with visibility := 5 }).2.2.2
     { polyline0 with visibility := 1 } (by decide) (by decide)⟩


/-! ## Decoder: the code-2 tag of a table -/

/-- On group code 2 the chain of `dxf_table_read` that starts at the test for code 5 runs
its last branch, that of an unknown tag. -/
theorem table_read_tag_2 (G : Globals) (s : TableReader) (h : s.temp_string = "2") :
    dxf_table_read_tag G s
      = .ok { s with stderr := s.stderr ++
                [Diag.warning_unknown_tag s.fp.filename s.fp.line_number] } := by
  unfold dxf_table_read_tag
  repeat' (apply pred_ite (fun r : Except Fault TableReader => r = .ok { s with stderr := s.stderr ++ [Diag.warning_unknown_tag s.fp.filename s.fp.line_number] }) <;> intro _)
  all_goals first
    | rfl
    | (exfalso; simp_all)

/-- C32 (code defect). In the loop body of `dxf_table_read` the test for code 2 hangs on
the `ferror` test as `else if`, and the chain that ends with the unknown-tag warning
starts afresh with `if` at code 5.  So for every macro values, file handle, table,
counters and earlier messages, a code-2 tag is decoded into `block_name` and then
reported as unknown tag.  On the value `*T1` the block name is `*T1` and the messages
are the one warning. -/
theorem table_read_code_2_warns_unknown :
    (∀ (G : Globals) (fp : DxfFile) (t : DxfTable) (i j k l : Nat) (e : List Diag),
      dxf_table_read_tag G (dxf_table_read_block_name (TableReader.mk fp t "2" i j k l e))
        = .ok { dxf_table_read_block_name (TableReader.mk fp t "2" i j k l e) with
                stderr := e ++ [Diag.warning_unknown_tag fp.filename fp.line_number] })
    ∧ (dxf_table_read_block_name (tableReaderAt "2" "*T1" 14)).table.block_name = "*T1"
    ∧ ∃ s1 : TableReader,
        dxf_table_read_tag stdGlobals (dxf_table_read_block_name (tableReaderAt "2" "*T1" 14))
          = .ok s1
        ∧ s1.table.block_name = "*T1"
        ∧ s1.stderr = [Diag.warning_unknown_tag "in.dxf" 0] := by
  refine ⟨?_, by decide, _, table_read_tag_2 _ _ rfl, by decide, rfl⟩
  intro G fp t i j k l e
  rw [table_read_tag_2 G _ rfl]
  rfl

/-! ## Initialisation, the successor reference and the anchor point -/

/-- C34. Whatever record (or null pointer) is passed and whatever the macros,
`dxf_polyline_init`, `dxf_table_init` and `dxf_table_cell_init` return a record whose
`next` is null; and in every heap in which such a record is the block at address `a`,
the matching free-one function called on `a` returns `EXIT_SUCCESS` and releases the
block. -/
theorem init_clears_next_and_free_accepts {V : Type} (G : Globals)
    (polyline : Option (DxfPolyline V)) (table : Option DxfTable)
    (cell : Option DxfTableCell) (a : Nat)
    (hp : Heap (DxfPolyline V)) (ht : Heap DxfTable) (hc : Heap DxfTableCell) :
    (dxf_polyline_init G polyline).next = none
    ∧ (dxf_table_init G table).next = none
    ∧ (dxf_table_cell_init G cell).next = none
    ∧ dxf_polyline_free ((a, dxf_polyline_init G polyline) :: hp) (some a)
        = .ok (EXIT_SUCCESS, Heap.release ((a, dxf_polyline_init G polyline) :: hp) a)
    ∧ dxf_table_free ((a, dxf_table_init G table) :: ht) (some a)
        = .ok (EXIT_SUCCESS, Heap.release ((a, dxf_table_init G table) :: ht) a)
    ∧ dxf_table_cell_free ((a, dxf_table_cell_init G cell) :: hc) (some a)
        = .ok (EXIT_SUCCESS, Heap.release ((a, dxf_table_cell_init G cell) :: hc) a) := by
  refine ⟨rfl, rfl, rfl, ?_, ?_, ?_⟩
  · simp [dxf_polyline_free, Heap.deref, dxf_polyline_init]
  · simp [dxf_table_free, Heap.deref, dxf_table_init]
  · simp [dxf_table_cell_free, Heap.deref, dxf_table_cell_init]

/-- C35 (code defect). At declared version R13 `dxf_table_write` prints, for a
default-initialised table, the subclass markers `AcDbEntity`, `AcDbBlockReference` and
`AcDbTable` under code 100.  The chain of `dxf_table_read` at the same version accepts
the first two and answers a code-100 tag with the value `AcDbTable` with the
bad-subclass-marker warning: the name it accepts in its place is `AcDbBlockTable`. -/
theorem table_read_rejects_marker_of_table_write :
    (∃ r : WriteResult DxfTable,
      dxf_table_write stdGlobals (outputFile 13) table0 = .ok r
      ∧ r.fp.fp.output.filter (fun t => t.code = 100)
          = [⟨100, .str "AcDbEntity"⟩, ⟨100, .str "AcDbBlockReference"⟩,
             ⟨100, .str "AcDbTable"⟩])
    ∧ (∃ s1 : TableReader,
      dxf_table_read_tag stdGlobals (tableReaderAt "100" "AcDbTable" 13) = .ok s1
      ∧ s1.stderr = [Diag.warning_bad_subclass_marker "in.dxf" 1])
    ∧ (∃ s1 : TableReader,
      dxf_table_read_tag stdGlobals (tableReaderAt "100" "AcDbEntity" 13) = .ok s1
      ∧ s1.stderr = [])
    ∧ (∃ s1 : TableReader,
      dxf_table_read_tag stdGlobals (tableReaderAt "100" "AcDbBlockReference" 13) = .ok s1
      ∧ s1.stderr = [])
    ∧ (∃ s1 : TableReader,
      dxf_table_read_tag stdGlobals (tableReaderAt "100" "AcDbBlockTable" 13) = .ok s1
      ∧ s1.stderr = []) := by
  refine ⟨⟨_, rfl, ?_⟩, ⟨_, rfl, ?_⟩, ⟨_, rfl, ?_⟩, ⟨_, rfl, ?_⟩, ⟨_, rfl, ?_⟩⟩
  all_goals decide

/-- C36 (code defect). `dxf_polyline_set_x0` and `dxf_polyline_get_x0` work on the point
that `p0` refers to, `dxf_polyline_write` on the member `x0` of the polyline.  For every
polyline and value the setter leaves the member `x0` as it was.  On a
default-initialised polyline with a point attached, setting 5 succeeds and the getter
then returns 5, while `dxf_polyline_write` finds the X-value 0 it insists on, returns
`EXIT_SUCCESS` and prints 0 under code 10. -/
theorem polyline_set_x0_not_seen_by_write :
    (∀ (p : DxfPolyline Unit) (v : Rat), (dxf_polyline_set_x0 p v).record.x0 = p.x0)
    ∧ (dxf_polyline_set_x0 polylineAnchored 5).ret.isSome = true
    ∧ (dxf_polyline_get_x0 (dxf_polyline_set_x0 polylineAnchored 5).record).ret = 5
    ∧ (dxf_polyline_set_x0 polylineAnchored 5).record.x0 = 0
    ∧ (dxf_polyline_write stdGlobals unitVertexWrite (outputFile 14)
        (dxf_polyline_set_x0 polylineAnchored 5).record).ret = EXIT_SUCCESS
    ∧ (dxf_polyline_write stdGlobals unitVertexWrite (outputFile 14)
        (dxf_polyline_set_x0 polylineAnchored 5).record).fp.fp.output.filter
          (fun t => t.code = 10) = [⟨10, .real 0⟩] := by
  refine ⟨?_, rfl, rfl, rfl, ?_, ?_⟩
  · intro p v
    unfold dxf_polyline_set_x0
    cases p.p0 <;> rfl
  · decide
  · decide

/-- C39 (code defect). `dxf_table_init` does not assign `table_data_version`, which
`dxf_table_write` prints under code 280: for every macro values and table the member
keeps what it held.  For a zero-filled table and one that differs from it in this member
only (7 for 0), both initialised, `dxf_table_write` at declared version R13 succeeds and
prints different tags: 7 and 0 under code 280. -/
theorem table_write_after_init_shows_prior_contents :
    (∀ (G : Globals) (t : DxfTable),
      (dxf_table_init G (some t)).table_data_version = t.table_data_version)
    ∧ ∃ r1 r2 : WriteResult DxfTable,
      dxf_table_write stdGlobals (outputFile 13) (dxf_table_init stdGlobals (some tableStale))
        = .ok r1
      ∧ dxf_table_write stdGlobals (outputFile 13)
          (dxf_table_init stdGlobals (some (dxf_table_new stdGlobals))) = .ok r2
      ∧ r1.fp.fp.output.filter (fun t => t.code = 280) = [⟨280, .int 7⟩]
      ∧ r2.fp.fp.output.filter (fun t => t.code = 280) = [⟨280, .int 0⟩]
      ∧ r1.fp.fp.output ≠ r2.fp.fp.output := by
  refine ⟨fun _ _ => rfl, _, _, rfl, rfl, ?_, ?_, ?_⟩
  · decide
  · decide
  · intro h
    have h2 := congrArg (fun o => o.filter (fun t : Tag => t.code = 280)) h
    revert h2
    decide

/-! ## Decoder: the integer tags of the polyline -/

/-- On group code 62 the chain of `dxf_polyline_read` runs the branch that reads an
`int` into `color`. -/
theorem polyline_read_tag_62 {V : Type} (G : Globals) (s : PolylineReader V)
    (h : s.temp_string = "62") :
    dxf_polyline_read_tag G s = s.read_d fun p v => { p with color := v } := by
  unfold dxf_polyline_read_tag
  repeat' (apply pred_ite (fun r : PolylineReader V => r = s.read_d fun p v => { p with color := v }) <;> intro _)
  all_goals first
    | rfl
    | (exfalso; simp_all)

/-- On group code 66 the chain of `dxf_polyline_read` runs the branch that reads an
`int` into `vertices_follow`. -/
theorem polyline_read_tag_66 {V : Type} (G : Globals) (s : PolylineReader V)
    (h : s.temp_string = "66") :
    dxf_polyline_read_tag G s = s.read_d fun p v => { p with vertices_follow := v } := by
  unfold dxf_polyline_read_tag
  repeat' (apply pred_ite (fun r : PolylineReader V => r = s.read_d fun p v => { p with vertices_follow := v }) <;> intro _)
  all_goals first
    | rfl
    | (exfalso; simp_all)

/-- On group code 67 the chain of `dxf_polyline_read` runs the branch that reads an
`int` into `paperspace`. -/
theorem polyline_read_tag_67 {V : Type} (G : Globals) (s : PolylineReader V)
    (h : s.temp_string = "67") :
    dxf_polyline_read_tag G s = s.read_d fun p v => { p with paperspace := v } := by
  unfold dxf_polyline_read_tag
  repeat' (apply pred_ite (fun r : PolylineReader V => r = s.read_d fun p v => { p with paperspace := v }) <;> intro _)
  all_goals first
    | rfl
    | (exfalso; simp_all)

/-- On group code 70 the chain of `dxf_polyline_read` runs the branch that reads an
`int` into `flag`. -/
theorem polyline_read_tag_70 {V : Type} (G : Globals) (s : PolylineReader V)
    (h : s.temp_string = "70") :
    dxf_polyline_read_tag G s = s.read_d fun p v => { p with flag := v } := by
  unfold dxf_polyline_read_tag
  repeat' (apply pred_ite (fun r : PolylineReader V => r = s.read_d fun p v => { p with flag := v }) <;> intro _)
  all_goals first
    | rfl
    | (exfalso; simp_all)

/-- On group code 71 the chain of `dxf_polyline_read` runs the branch that reads an
`int` into `polygon_mesh_M_vertex_count`. -/
theorem polyline_read_tag_71 {V : Type} (G : Globals) (s : PolylineReader V)
    (h : s.temp_string = "71") :
    dxf_polyline_read_tag G s = s.read_d fun p v => { p with polygon_mesh_M_vertex_count := v } := by
  unfold dxf_polyline_read_tag
  repeat' (apply pred_ite (fun r : PolylineReader V => r = s.read_d fun p v => { p with polygon_mesh_M_vertex_count := v }) <;> intro _)
  all_goals first
    | rfl
    | (exfalso; simp_all)

/-- On group code 72 the chain of `dxf_polyline_read` runs the branch that reads an
`int` into `polygon_mesh_N_vertex_count`. -/
theorem polyline_read_tag_72 {V : Type} (G : Globals) (s : PolylineReader V)
    (h : s.temp_string = "72") :
    dxf_polyline_read_tag G s = s.read_d fun p v => { p with polygon_mesh_N_vertex_count := v } := by
  unfold dxf_polyline_read_tag
  repeat' (apply pred_ite (fun r : PolylineReader V => r = s.read_d fun p v => { p with polygon_mesh_N_vertex_count := v }) <;> intro _)
  all_goals first
    | rfl
    | (exfalso; simp_all)

/-- On group code 73 the chain of `dxf_polyline_read` runs the branch that reads an
`int` into `smooth_M_surface_density`. -/
theorem polyline_read_tag_73 {V : Type} (G : Globals) (s : PolylineReader V)
    (h : s.temp_string = "73") :
    dxf_polyline_read_tag G s = s.read_d fun p v => { p with smooth_M_surface_density := v } := by
  unfold dxf_polyline_read_tag
  repeat' (apply pred_ite (fun r : PolylineReader V => r = s.read_d fun p v => { p with smooth_M_surface_density := v }) <;> intro _)
  all_goals first
    | rfl
    | (exfalso; simp_all)

/-- On group code 75 the chain of `dxf_polyline_read` runs the branch that reads an
`int` into `surface_type`. -/
theorem polyline_read_tag_75 {V : Type} (G : Globals) (s : PolylineReader V)
    (h : s.temp_string = "75") :
    dxf_polyline_read_tag G s = s.read_d fun p v => { p with surface_type := v } := by
  unfold dxf_polyline_read_tag
  repeat' (apply pred_ite (fun r : PolylineReader V => r = s.read_d fun p v => { p with surface_type := v }) <;> intro _)
  all_goals first
    | rfl
    | (exfalso; simp_all)


/-! ## Encoder: the identifier tag, and writing twice -/

/-- A call of `dxf_polyline_write` that returns `EXIT_SUCCESS` passed the three
checks. -/
theorem polyline_write_success_checks {V : Type} (G : Globals) (vw : DxfFile → V → DxfFile)
    (fp : DxfFile) (p : DxfPolyline V)
    (h : (dxf_polyline_write G vw fp p).ret = EXIT_SUCCESS) :
    p.x0 = 0 ∧ p.y0 = 0 ∧ p.vertices_follow = 1 := by
  unfold dxf_polyline_write at h
  by_cases hx : p.x0 = 0
  · by_cases hy : p.y0 = 0
    · by_cases hv : p.vertices_follow = 1
      · exact ⟨hx, hy, hv⟩
      · rw [if_neg (by simp [hx]), if_neg (by simp [hy]), if_pos hv] at h
        exact absurd (show EXIT_FAILURE = EXIT_SUCCESS from h) (by decide)
    · rw [if_neg (by simp [hx]), if_pos hy] at h
      exact absurd (show EXIT_FAILURE = EXIT_SUCCESS from h) (by decide)
  · rw [if_pos hx] at h
    exact absurd (show EXIT_FAILURE = EXIT_SUCCESS from h) (by decide)

/-- The repairs of `dxf_polyline_write` leave the checked members and the vertex chain
as they are, and repairing a repaired record changes nothing. -/
theorem polyline_repaired_idem {V : Type} (G : Globals) (p : DxfPolyline V) :
    (dxf_polyline_repaired G p).x0 = p.x0
    ∧ (dxf_polyline_repaired G p).y0 = p.y0
    ∧ (dxf_polyline_repaired G p).vertices_follow = p.vertices_follow
    ∧ (dxf_polyline_repaired G p).vertices = p.vertices
    ∧ dxf_polyline_repaired G (dxf_polyline_repaired G p) = dxf_polyline_repaired G p := by
  unfold dxf_polyline_repaired
  by_cases h1 : p.linetype = "" <;> by_cases h2 : p.layer = "" <;>
    by_cases h3 : G.DXF_DEFAULT_LINETYPE = "" <;> by_cases h4 : G.DXF_DEFAULT_LAYER = "" <;>
    simp [h1, h2, h3, h4]

/-- A fold of an encoder that only prints keeps the declared version. -/
theorem foldl_emit_version {V : Type} (vw : DxfFile → V → DxfFile)
    (enc : Int → V → List Tag)
    (henc : ∀ (f : DxfFile) (v : V), vw f v = f.emit (enc f.acad_version_number v))
    (vs : List V) :
    ∀ fp : DxfFile, (vs.foldl vw fp).acad_version_number = fp.acad_version_number := by
  induction vs with
  | nil => intro fp; rfl
  | cons v vs ih =>
    intro fp
    rw [List.foldl_cons, ih, henc]
    rfl

/-- What a call of `dxf_table_write` that returns has printed. -/
theorem table_write_ok_output (G : Globals) (fp : DxfFile) (t : DxfTable)
    (r : WriteResult DxfTable) (h : dxf_table_write G fp t = .ok r) :
    ∃ (n : Nat) (rows columns : List Rat),
      r.fp.fp.output = fp.fp.output ++ (
        [⟨0, .str "ACAD_TABLE"⟩]
        ++ (if t.id_code ≠ -1 then [⟨5, .hex t.id_code⟩] else [])
        ++ [⟨330, .str t.dictionary_owner_soft⟩]
        ++ (if fp.acad_version_number ≥ G.AutoCAD_13 then [⟨100, .str "AcDbEntity"⟩] else [])
        ++ [⟨92, .int t.graphics_data_size⟩]
        ++ (t.binary_graphics_data.take n).map (fun x => (⟨310, .str x⟩ : Tag))
        ++ (if fp.acad_version_number ≥ G.AutoCAD_13 then
            [⟨100, .str "AcDbBlockReference"⟩] else [])
        ++ [⟨2, .str t.block_name⟩, ⟨10, .real t.x0⟩, ⟨20, .real t.y0⟩, ⟨30, .real t.z0⟩]
        ++ (if fp.acad_version_number ≥ G.AutoCAD_13 then [⟨100, .str "AcDbTable"⟩] else [])
        ++ [⟨280, .int t.table_data_version⟩,
          ⟨342, .str t.tablestyle_object_pointer⟩,
          ⟨343, .str t.owning_block_pointer⟩,
          ⟨11, .real t.x1⟩, ⟨21, .real t.y1⟩, ⟨31, .real t.z1⟩,
          ⟨90, .int t.table_value_flag⟩, ⟨91, .int t.number_of_rows⟩,
          ⟨92, .int t.number_of_columns⟩, ⟨93, .int t.override_flag⟩,
          ⟨94, .int t.border_color_override_flag⟩,
          ⟨95, .int t.border_lineweight_override_flag⟩,
          ⟨96, .int t.border_visibility_override_flag⟩]
        ++ rows.map (fun x => (⟨141, .real x⟩ : Tag))
        ++ columns.map (fun x => (⟨142, .real x⟩ : Tag))) := by
  unfold dxf_table_write at h
  cases hn : scanStrlen t.binary_graphics_data 0 with
  | none => rw [hn] at h; cases h
  | some n =>
    by_cases hr : t.number_of_rows.toNat ≤ t.row_height.length
    · by_cases hc : t.number_of_columns.toNat ≤ t.column_height.length
      · rw [hn] at h
        simp only [writeArray, if_pos hr, if_pos hc] at h
        have h2 := Except.ok.inj h
        rw [← h2]
        exact ⟨n, _, _, rfl⟩
      · rw [hn] at h
        simp only [writeArray, if_pos hr, if_neg hc] at h
        cases h
    · rw [hn] at h
      simp only [writeArray, if_neg hr] at h
      cases h

/-- C33. A polyline for which `dxf_polyline_write` returns `EXIT_SUCCESS` and a table for
which `dxf_table_write` returns.  The polyline's own tags, which are printed before
the vertex encoder runs, hold a code-5 tag exactly when `id_code` is not -1; it carries
`id_code` in hexadecimal and is then the second tag, after the announcement `POLYLINE`.
The same holds for what `dxf_table_write` appends to the output, after the announcement
`ACAD_TABLE`. -/
theorem write_id_code_tag {V : Type} (G : Globals) (vw : DxfFile → V → DxfFile)
    (fp fpt : DxfFile) (p : DxfPolyline V) (t : DxfTable) (r : WriteResult DxfTable)
    (hp : (dxf_polyline_write G vw fp p).ret = EXIT_SUCCESS)
    (ht : dxf_table_write G fpt t = .ok r) :
    (dxf_polyline_write G vw fp p).fp
      = p.vertices.foldl vw (fp.emit (dxf_polyline_tags G fp.acad_version_number
          (dxf_polyline_write G vw fp p).record))
    ∧ (dxf_polyline_tags G fp.acad_version_number
        (dxf_polyline_write G vw fp p).record).filter (fun x => x.code = 5)
        = (if p.id_code ≠ -1 then [⟨5, .hex p.id_code⟩] else [])
    ∧ (p.id_code ≠ -1 →
        (dxf_polyline_tags G fp.acad_version_number
          (dxf_polyline_write G vw fp p).record).take 2
          = [⟨0, .str "POLYLINE"⟩, ⟨5, .hex p.id_code⟩])
    ∧ (r.fp.fp.output.drop fpt.fp.output.length).filter (fun x => x.code = 5)
        = (if t.id_code ≠ -1 then [⟨5, .hex t.id_code⟩] else [])
    ∧ (t.id_code ≠ -1 →
        (r.fp.fp.output.drop fpt.fp.output.length).take 2
          = [⟨0, .str "ACAD_TABLE"⟩, ⟨5, .hex t.id_code⟩]) := by
  obtain ⟨hx, hy, hv⟩ := polyline_write_success_checks G vw fp p hp
  obtain ⟨_, h2, h3⟩ := polyline_write_accepted G vw fp p hx hy hv
  have hid : (dxf_polyline_repaired G p).id_code = p.id_code := (polyline_repaired_fields G p).1
  obtain ⟨n, rows, columns, hout⟩ := table_write_ok_output G fpt t r ht
  rw [h2, hout, List.drop_left]
  refine ⟨?_, ?_, ?_, ?_, ?_⟩
  · rw [h3, write_vertices_eq_foldl]
  · unfold dxf_polyline_tags
    simp only [List.filter_append, filter_ite_nil, filter_nil_ite, hid]
    by_cases h : p.id_code = -1 <;> simp [h]
  · intro h
    unfold dxf_polyline_tags
    rw [hid, if_pos h]
    simp only [List.append_assoc]
    rfl
  · simp only [List.filter_append, filter_ite_nil, filter_nil_ite]
    rw [filter_map_none _ (fun x => (⟨310, .str x⟩ : Tag)) _ (fun x => by simp),
      filter_map_none _ (fun x => (⟨141, .real x⟩ : Tag)) _ (fun x => by simp),
      filter_map_none _ (fun x => (⟨142, .real x⟩ : Tag)) _ (fun x => by simp)]
    by_cases h : t.id_code = -1 <;> simp [h]
  · intro h
    rw [if_pos h]
    simp only [List.append_assoc]
    rfl

/-- Witness for C33: a default-initialised polyline and a default-initialised table,
whose `id_code` is 0. -/
theorem write_id_code_tag_witness :
    (dxf_polyline_tags stdGlobals (outputFile 13).acad_version_number
        (dxf_polyline_write stdGlobals unitVertexWrite (outputFile 13) polyline0).record).filter
          (fun x => x.code = 5)
        = (if polyline0.id_code ≠ -1 then [⟨5, .hex polyline0.id_code⟩] else [])
    ∧ (∃ r : WriteResult DxfTable, dxf_table_write stdGlobals (outputFile 13) table0 = .ok r
      ∧ (r.fp.fp.output.drop (outputFile 13).fp.output.length).filter (fun x => x.code = 5)
        = (if table0.id_code ≠ -1 then [⟨5, .hex table0.id_code⟩] else [])
      ∧ (r.fp.fp.output.drop (outputFile 13).fp.output.length).take 2
          = [⟨0, .str "ACAD_TABLE"⟩, ⟨5, .hex table0.id_code⟩]) :=
  have h := write_id_code_tag stdGlobals unitVertexWrite (outputFile 13) (outputFile 13)
    polyline0 table0 _ (by decide) rfl
  ⟨h.2.1, _, rfl, h.2.2.2.1, h.2.2.2.2 (by decide)⟩

/-- C38. A polyline for which `dxf_polyline_write` returns `EXIT_SUCCESS`, with a vertex
encoder that prints the tags `enc v` of its vertex.  A second call, on the file and the
record the first call left, returns `EXIT_SUCCESS` too, leaves the record as the first
call left it, and appends to the output the very tags the first call appended: the
polyline's own tags, then the tags of each vertex. -/
theorem polyline_write_twice {V : Type} (G : Globals) (vw : DxfFile → V → DxfFile)
    (enc : Int → V → List Tag) (fp : DxfFile) (p : DxfPolyline V)
    (henc : ∀ (f : DxfFile) (v : V), vw f v = f.emit (enc f.acad_version_number v))
    (h : (dxf_polyline_write G vw fp p).ret = EXIT_SUCCESS) :
    (dxf_polyline_write G vw (dxf_polyline_write G vw fp p).fp
        (dxf_polyline_write G vw fp p).record).ret = EXIT_SUCCESS
    ∧ (dxf_polyline_write G vw (dxf_polyline_write G vw fp p).fp
        (dxf_polyline_write G vw fp p).record).record = (dxf_polyline_write G vw fp p).record
    ∧ (dxf_polyline_write G vw fp p).fp.fp.output
        = fp.fp.output
          ++ (dxf_polyline_tags G fp.acad_version_number (dxf_polyline_write G vw fp p).record
            ++ p.vertices.flatMap (enc fp.acad_version_number))
    ∧ (dxf_polyline_write G vw (dxf_polyline_write G vw fp p).fp
        (dxf_polyline_write G vw fp p).record).fp.fp.output
        = (dxf_polyline_write G vw fp p).fp.fp.output
          ++ (dxf_polyline_tags G fp.acad_version_number (dxf_polyline_write G vw fp p).record
            ++ p.vertices.flatMap (enc fp.acad_version_number)) := by
  obtain ⟨hx, hy, hv⟩ := polyline_write_success_checks G vw fp p h
  obtain ⟨_, h2, h3⟩ := polyline_write_accepted G vw fp p hx hy hv
  obtain ⟨rx, ry, rv, rvs, ridem⟩ := polyline_repaired_idem G p
  obtain ⟨k1, k2, k3⟩ := polyline_write_accepted G vw (dxf_polyline_write G vw fp p).fp
    (dxf_polyline_repaired G p) (by rw [rx]; exact hx) (by rw [ry]; exact hy)
    (by rw [rv]; exact hv)
  have hver : (dxf_polyline_write G vw fp p).fp.acad_version_number
      = fp.acad_version_number := by
    rw [h3, write_vertices_eq_foldl, foldl_emit_version vw enc henc]
    rfl
  have hout : (dxf_polyline_write G vw fp p).fp.fp.output
      = fp.fp.output ++ (dxf_polyline_tags G fp.acad_version_number (dxf_polyline_repaired G p)
          ++ p.vertices.flatMap (enc fp.acad_version_number)) := by
    rw [h3, write_vertices_eq_foldl, foldl_emit_output vw enc henc, ← List.append_assoc]
    rfl
  rw [h2]
  refine ⟨k1, ?_, hout, ?_⟩
  · rw [k2, ridem]
  · rw [k3, ridem, rvs, write_vertices_eq_foldl, foldl_emit_output vw enc henc]
    show ((dxf_polyline_write G vw fp p).fp.fp.output
        ++ dxf_polyline_tags G (dxf_polyline_write G vw fp p).fp.acad_version_number
            (dxf_polyline_repaired G p))
      ++ p.vertices.flatMap (enc (dxf_polyline_write G vw fp p).fp.acad_version_number) = _
    rw [hver, List.append_assoc]

/-- Witness for C38: a polyline with empty names and the vertex chain 1, 2, 3, written
twice. -/
theorem polyline_write_twice_witness :
    (dxf_polyline_write stdGlobals natVertexWrite
        (dxf_polyline_write stdGlobals natVertexWrite (outputFile 12)
          { polylineChain with linetype := "", layer := "" }).fp
        (dxf_polyline_write stdGlobals natVertexWrite (outputFile 12)
          { polylineChain with linetype := "", layer := "" }).record).ret = EXIT_SUCCESS
    ∧ (dxf_polyline_write stdGlobals natVertexWrite
        (dxf_polyline_write stdGlobals natVertexWrite (outputFile 12)
          { polylineChain with linetype := "", layer := "" }).fp
        (dxf_polyline_write stdGlobals natVertexWrite (outputFile 12)
          { polylineChain with linetype := "", layer := "" }).record).record
        = (dxf_polyline_write stdGlobals natVertexWrite (outputFile 12)
          { polylineChain with linetype := "", layer := "" }).record
    ∧ (dxf_polyline_write stdGlobals natVertexWrite (outputFile 12)
          { polylineChain with linetype := "", layer := "" }).record = polylineChain :=
  have h := polyline_write_twice stdGlobals natVertexWrite natVertexTags (outputFile 12)
    { polylineChain with linetype := "", layer := "" } (fun _ _ => rfl) (by decide)
  ⟨h.1, h.2.1, by decide⟩

/-! ## Decoder: numerals that the member holds -/

/-- A value that a 64-bit `long` holds is what `strtol` delivers. -/
theorem clampLong_of_fits (v : Int) (hlo : -9223372036854775808 ≤ v)
    (hhi : v ≤ 9223372036854775807) : clampLong v = v := by
  unfold clampLong
  rw [if_neg (by omega), if_neg (by omega)]

/-- `%d` stores a numeral that an `int` holds as it is. -/
theorem scan_d_of_fits (inp : List Char) (v : Int) (hv : (scan_numeral inp).1 = some v)
    (hlo : -2147483648 ≤ v) (hhi : v ≤ 2147483647) : (scan_d inp).1 = some v := by
  have hc : clampLong v = v := clampLong_of_fits v (by omega) (by omega)
  have hw : wrap32 v = v := by
    unfold wrap32
    omega
  simp only [scan_d, hv, Option.map_some', hc, hw]

/-- `%hd` stores a numeral that an `int16_t` holds as it is. -/
theorem scan_hd_of_fits (inp : List Char) (v : Int) (hv : (scan_numeral inp).1 = some v)
    (hlo : -32768 ≤ v) (hhi : v ≤ 32767) : (scan_hd inp).1 = some v := by
  have hc : clampLong v = v := clampLong_of_fits v (by omega) (by omega)
  have hw : wrap16 v = v := by
    unfold wrap16
    omega
  simp only [scan_hd, hv, Option.map_some', hc, hw]

/-- What `read_d` leaves in the record when the value line is a numeral that an `int`
holds. -/
theorem read_d_polyline {V : Type} (s : PolylineReader V)
    (assign : DxfPolyline V → Int → DxfPolyline V) (v : Int)
    (hv : (scan_numeral s.fp.fp.input).1 = some v)
    (hlo : -2147483648 ≤ v) (hhi : v ≤ 2147483647) :
    (s.read_d assign).polyline = assign s.polyline v := by
  simp only [PolylineReader.read_d, scan_d_of_fits _ v hv hlo hhi]

/-- C28, counterexample. On a code-60 tag with the value 5 and a default-initialised
record the chain of `dxf_polyline_read` stores 5 in `visibility` and prints nothing: no
warning is reported.  On the value 70000, which an `int16_t` does not hold, the member
does not receive 70000. -/
theorem polyline_read_60_reports_nothing :
    (dxf_polyline_read_tag stdGlobals (polylineReaderAt "60" "5" 14)).polyline.visibility = 5
    ∧ (dxf_polyline_read_tag stdGlobals (polylineReaderAt "60" "5" 14)).stderr = []
    ∧ (dxf_polyline_read_tag stdGlobals (polylineReaderAt "60" "70000" 14)).polyline.visibility
        ≠ 70000 := by
  have h5 : scan_hd (polylineReaderAt "60" "5" 14).fp.fp.input = (some 5, []) := by
    show scan_hd "5\n".data = (some 5, [])
    decide
  have h7 : scan_hd (polylineReaderAt "60" "70000" 14).fp.fp.input = (some 4464, []) := by
    show scan_hd "70000\n".data = (some 4464, [])
    decide
  refine ⟨?_, ?_, ?_⟩
  · rw [polyline_read_tag_60 _ _ rfl]
    simp only [PolylineReader.read_hd, h5]
  · rw [polyline_read_tag_60 _ _ rfl]
    rfl
  · rw [polyline_read_tag_60 _ _ rfl]
    simp only [PolylineReader.read_hd, h7]
    decide

/-- C28, amended. For every macro values, decoder state and integer `v` that an
`int16_t` holds, in particular every such `v` outside [0, 1]: when the group code is 60
and the value line is a numeral of value `v`, the chain of `dxf_polyline_read` stores
`v` in `visibility` and changes no other field, it prints nothing, and (the stream not
being in its error state) the loop goes on to its next iteration. -/
theorem polyline_read_60_stores_silently {V : Type} (G : Globals) (n : Nat)
    (s : PolylineReader V) (v : Int)
    (h60 : s.temp_string = "60") (hv : (scan_numeral s.fp.fp.input).1 = some v)
    (hlo : -32768 ≤ v) (hhi : v ≤ 32767)
    (he : s.fp.fp.error = false) :
    (dxf_polyline_read_tag G s).polyline = { s.polyline with visibility := v }
    ∧ (dxf_polyline_read_tag G s).stderr = s.stderr
    ∧ dxf_polyline_read_loop G (n + 1) s
        = dxf_polyline_read_loop G n (dxf_polyline_read_tag G s) := by
  have h0 : s.temp_string ≠ "0" := by
    rw [h60]; decide
  have hne : ¬ (s.fp.fp.error = true) := by
    rw [he]; decide
  refine ⟨?_, ?_, ?_⟩
  · rw [polyline_read_tag_60 G s h60]
    simp only [PolylineReader.read_hd, scan_hd_of_fits _ v hv hlo hhi]
  · rw [polyline_read_tag_60 G s h60]
    rfl
  · show (if s.temp_string = "0" then _ else _) = _
    rw [if_neg h0, if_neg hne]

/-- Witness for C28: the value 5 at a default-initialised record. -/
theorem polyline_read_60_stores_silently_witness :
    (dxf_polyline_read_tag stdGlobals (polylineReaderAt "60" "5" 14)).polyline
      = { (polylineReaderAt "60" "5" 14).polyline with visibility := 5 }
    ∧ (dxf_polyline_read_tag stdGlobals (polylineReaderAt "60" "5" 14)).stderr
      = (polylineReaderAt "60" "5" 14).stderr
    ∧ dxf_polyline_read_loop stdGlobals (0 + 1) (polylineReaderAt "60" "5" 14)
        = dxf_polyline_read_loop stdGlobals 0
            (dxf_polyline_read_tag stdGlobals (polylineReaderAt "60" "5" 14)) :=
  polyline_read_60_stores_silently stdGlobals 0 (polylineReaderAt "60" "5" 14) 5
    rfl (by
      show (scan_numeral "5\n".data).1 = some 5
      decide) (by decide) (by decide) rfl

/-- C37. For every macro values, file handle, record, earlier messages and integer `v`
that an `int` holds: when the value line is a numeral of value `v`, the chain of
`dxf_polyline_read` dispatched on group code 62, 66, 67, 70, 71, 72, 73 or 75 leaves the
record with `color`, `vertices_follow`, `paperspace`, `flag`,
`polygon_mesh_M_vertex_count`, `polygon_mesh_N_vertex_count`, `smooth_M_surface_density`
or `surface_type`, in this order, set to `v` and every other field as it was. -/
theorem polyline_read_integer_tags {V : Type} (G : Globals) (fp : DxfFile)
    (p : DxfPolyline V) (e : List Diag) (v : Int)
    (hv : (scan_numeral fp.fp.input).1 = some v)
    (hlo : -2147483648 ≤ v) (hhi : v ≤ 2147483647) :
    (dxf_polyline_read_tag G (PolylineReader.mk fp p "62" e)).polyline
        = { p with color := v }
    ∧ (dxf_polyline_read_tag G (PolylineReader.mk fp p "66" e)).polyline
        = { p with vertices_follow := v }
    ∧ (dxf_polyline_read_tag G (PolylineReader.mk fp p "67" e)).polyline
        = { p with paperspace := v }
    ∧ (dxf_polyline_read_tag G (PolylineReader.mk fp p "70" e)).polyline
        = { p with flag := v }
    ∧ (dxf_polyline_read_tag G (PolylineReader.mk fp p "71" e)).polyline
        = { p with polygon_mesh_M_vertex_count := v }
    ∧ (dxf_polyline_read_tag G (PolylineReader.mk fp p "72" e)).polyline
        = { p with polygon_mesh_N_vertex_count := v }
    ∧ (dxf_polyline_read_tag G (PolylineReader.mk fp p "73" e)).polyline
        = { p with smooth_M_surface_density := v }
    ∧ (dxf_polyline_read_tag G (PolylineReader.mk fp p "75" e)).polyline
        = { p with surface_type := v } := by
  refine ⟨?_, ?_, ?_, ?_, ?_, ?_, ?_, ?_⟩

  · rw [polyline_read_tag_62 G _ rfl]
    exact read_d_polyline _ _ v hv hlo hhi

  · rw [polyline_read_tag_66 G _ rfl]
    exact read_d_polyline _ _ v hv hlo hhi

  · rw [polyline_read_tag_67 G _ rfl]
    exact read_d_polyline _ _ v hv hlo hhi

  · rw [polyline_read_tag_70 G _ rfl]
    exact read_d_polyline _ _ v hv hlo hhi

  · rw [polyline_read_tag_71 G _ rfl]
    exact read_d_polyline _ _ v hv hlo hhi

  · rw [polyline_read_tag_72 G _ rfl]
    exact read_d_polyline _ _ v hv hlo hhi

  · rw [polyline_read_tag_73 G _ rfl]
    exact read_d_polyline _ _ v hv hlo hhi

  · rw [polyline_read_tag_75 G _ rfl]
    exact read_d_polyline _ _ v hv hlo hhi


/-- Witness for C37: the least value of an `int` at a default-initialised record. -/
theorem polyline_read_integer_tags_witness :
    (dxf_polyline_read_tag stdGlobals
        (PolylineReader.mk (inputFile "-2147483648\n" 14) polyline0 "62" [])).polyline
        = { polyline0 with color := -2147483648 }
    ∧ (dxf_polyline_read_tag stdGlobals
        (PolylineReader.mk (inputFile "-2147483648\n" 14) polyline0 "66" [])).polyline
        = { polyline0 with vertices_follow := -2147483648 }
    ∧ (dxf_polyline_read_tag stdGlobals
        (PolylineReader.mk (inputFile "-2147483648\n" 14) polyline0 "67" [])).polyline
        = { polyline0 with paperspace := -2147483648 }
    ∧ (dxf_polyline_read_tag stdGlobals
        (PolylineReader.mk (inputFile "-2147483648\n" 14) polyline0 "70" [])).polyline
        = { polyline0 with flag := -2147483648 }
    ∧ (dxf_polyline_read_tag stdGlobals
        (PolylineReader.mk (inputFile "-2147483648\n" 14) polyline0 "71" [])).polyline
        = { polyline0 with polygon_mesh_M_vertex_count := -2147483648 }
    ∧ (dxf_polyline_read_tag stdGlobals
        (PolylineReader.mk (inputFile "-2147483648\n" 14) polyline0 "72" [])).polyline
        = { polyline0 with polygon_mesh_N_vertex_count := -2147483648 }
    ∧ (dxf_polyline_read_tag stdGlobals
        (PolylineReader.mk (inputFile "-2147483648\n" 14) polyline0 "73" [])).polyline
        = { polyline0 with smooth_M_surface_density := -2147483648 }
    ∧ (dxf_polyline_read_tag stdGlobals
        (PolylineReader.mk (inputFile "-2147483648\n" 14) polyline0 "75" [])).polyline
        = { polyline0 with surface_type := -2147483648 } :=
  polyline_read_integer_tags stdGlobals (inputFile "-2147483648\n" 14) polyline0 []
    (-2147483648) (by decide) (by decide) (by decide)

/-! ## Decoder: the pointer `temp_string` is null -/

/-- C31 (code defect). `dxf_polyline_read` declares `char *temp_string = NULL` and reads
the first line through that pointer.  With the null pointer the call is undefined for
every macro values, step budget and stream when no record is supplied, so also on the
text of a code-0 tag: no record is returned.  Had the pointer a buffer, the same call on
that text would return the record that `dxf_polyline_init` makes of a zero-filled
one. -/
theorem polyline_read_null_temp_string_no_record :
    (∀ (G : Globals) (fuel : Nat) (fp : DxfFile),
      dxf_polyline_read_entry G fuel fp (none : Option (DxfPolyline Unit)) none
        = .error .undefinedBehaviour)
    ∧ (scan_line (inputFile "0\nSEQEND\n" 14).fp.input).1 = some "0"
    ∧ (∀ fuel : Nat,
      dxf_polyline_read_entry stdGlobals fuel (inputFile "0\nSEQEND\n" 14)
        (none : Option (DxfPolyline Unit)) none = .error .undefinedBehaviour)
    ∧ dxf_polyline_read_entry stdGlobals 0 (inputFile "0\nSEQEND\n" 14)
        (none : Option (DxfPolyline Unit)) (some "")
        = .ok { ret := some (dxf_polyline_init stdGlobals (some dxf_polyline_new))
                fp := (inputFile "0\nSEQEND\n" 14).next_line.unread "\nSEQEND\n".data
                stderr := [Diag.warning_null_pointer] } := by
  refine ⟨fun _ _ _ => rfl, by decide, fun _ => rfl, rfl⟩

/-- C25 (code defect, the one of C31). With the null `temp_string` of the source,
`dxf_polyline_read` and `dxf_table_read` are undefined before the `ferror` test of the
loop body is reached, for every macro values, step budget, record and stream, so also
for a stream whose error indicator is set: `NULL` is not returned.  Had the pointer a
buffer, both calls on the text of a layer tag from such a stream would return `NULL`
with the file closed. -/
theorem read_null_temp_string_before_ferror :
    (∀ (G : Globals) (fuel : Nat) (text : String) (v : Int)
        (polyline : Option (DxfPolyline Unit)) (table : Option DxfTable),
      (failedFile text v).fp.error = true
      ∧ dxf_polyline_read_entry G fuel (failedFile text v) polyline none
          = .error .undefinedBehaviour
      ∧ dxf_table_read_entry G fuel (failedFile text v) table none
          = .error .undefinedBehaviour)
    ∧ dxf_polyline_read_entry stdGlobals 1 (failedFile "8\nWALLS\n  0\nSEQEND\n" 14)
        (some polyline0) (some "")
        = .ok { ret := none
                fp := ((failedFile "8\nWALLS\n  0\nSEQEND\n" 14).next_line.unread
                  "\nWALLS\n  0\nSEQEND\n".data).fclose
                stderr := [Diag.error_while_reading "in.dxf" 1] }
    ∧ dxf_table_read_entry stdGlobals 1 (failedFile "8\nWALLS\n  0\nENDTAB\n" 14)
        (some table0) (some "")
        = .ok { ret := none
                fp := ((failedFile "8\nWALLS\n  0\nENDTAB\n" 14).next_line.unread
                  "\nWALLS\n  0\nENDTAB\n".data).fclose
                stderr := [Diag.error_while_reading "in.dxf" 1] } := by
  refine ⟨fun _ _ _ _ _ _ => ⟨rfl, rfl, rfl⟩, rfl, rfl⟩

end Libdxf
